import Mathlib

/-!
Game server (protocol 7.1): packet codec and world protocol.

A shallow embedding of

* `network/src/incoming_packet.cc` (class `IncomingPacket`),
* `worldserver/src/protocol_71.cc` (class `Protocol71`),

followed by theorems about the embedded functions.

Conventions of the embedding:

* a byte is a natural number; every read of the buffer is reduced modulo 256,
  `std::uint16_t` and `std::uint32_t` arithmetic is reduced modulo `2^16` and
  `2^32` where the source can overflow;
* a `std::string` and a `std::vector<std::uint8_t>` are lists of bytes;
* a member function that changes its object takes the object and returns the
  changed object next to its result (explicit state passing);
* the calls a `Protocol71` makes on its collaborators (`gameEngineProxy_`,
  `server_`, `closeProtocol_`) are recorded, in order, in a trace.
-/

namespace GameServer

/-! ## IncomingPacket (`network/src/incoming_packet.cc`) -/

/-- The class `IncomingPacket`: `buffer_` is a raw pointer, so `buffer` is the
memory addressed from that pointer (`buffer i` is what `buffer_[i]` reads),
of which only the addresses below `length` belong to the packet; `position`
is the read cursor. -/
structure IncomingPacket where
  buffer : Nat → Nat
  length : Nat
  position : Nat

namespace IncomingPacket

/-- The constructor `IncomingPacket(buffer, length)`: the cursor starts at 0. -/
def create (buffer : Nat → Nat) (length : Nat) : IncomingPacket :=
  { buffer := buffer, length := length, position := 0 }

/-- A packet over the bytes `bs` (memory past the end of `bs` reads as 0). -/
def ofBytes (bs : List Nat) : IncomingPacket :=
  create (fun i => bs.getD i 0) bs.length

/-- The expression `buffer_[i]`, a `std::uint8_t`. -/
def byteAt (p : IncomingPacket) (i : Nat) : Nat :=
  p.buffer i % 256

/-- The statement `position_ += n`. -/
def advance (p : IncomingPacket) (n : Nat) : IncomingPacket :=
  { p with position := p.position + n }

/-- Modelled from the spec: `isEmpty()` is declared in `incoming_packet.h`,
which is not part of the sources; the packet is empty when the read cursor has
reached the end of the buffer. -/
def isEmpty (p : IncomingPacket) : Bool :=
  decide (p.length ≤ p.position)

/-- The function `IncomingPacket::peekU8() const`. -/
def peekU8 (p : IncomingPacket) : Nat × IncomingPacket :=
  (p.byteAt p.position, p)

/-- The function `IncomingPacket::getU8()`. -/
def getU8 (p : IncomingPacket) : Nat × IncomingPacket :=
  let (value, p) := p.peekU8
  (value, p.advance 1)

/-- The function `IncomingPacket::peekU16() const`. -/
def peekU16 (p : IncomingPacket) : Nat × IncomingPacket :=
  let value := p.byteAt p.position
  let value := (value ||| ((p.byteAt (p.position + 1) <<< 8) &&& 0xFF00)) % 65536
  (value, p)

/-- The function `IncomingPacket::getU16()`. -/
def getU16 (p : IncomingPacket) : Nat × IncomingPacket :=
  let (value, p) := p.peekU16
  (value, p.advance 2)

/-- The function `IncomingPacket::peekU32() const`. -/
def peekU32 (p : IncomingPacket) : Nat × IncomingPacket :=
  let value := p.byteAt p.position
  let value := value ||| (((p.byteAt (p.position + 1) <<< 8) % 4294967296) &&& 0xFF00)
  let value := value ||| (((p.byteAt (p.position + 2) <<< 16) % 4294967296) &&& 0xFF0000)
  let value := value ||| (((p.byteAt (p.position + 3) <<< 24) % 4294967296) &&& 0xFF000000)
  (value % 4294967296, p)

/-- The function `IncomingPacket::getU32()`. -/
def getU32 (p : IncomingPacket) : Nat × IncomingPacket :=
  let (value, p) := p.peekU32
  (value, p.advance 4)

/-- The bytes `buffer_[start] .. buffer_[start + n - 1]`: what the range
constructors `std::string(&buffer_[a], &buffer_[b])` and
`std::vector(&buffer_[a], &buffer_[b])` copy. -/
def bytesFrom (p : IncomingPacket) (start n : Nat) : List Nat :=
  (List.range n).map (fun i => p.byteAt (start + i))

/-- The function `IncomingPacket::getString()`. -/
def getString (p : IncomingPacket) : List Nat × IncomingPacket :=
  let (length, p) := p.getU16
  let temp := p.position
  let p := p.advance length
  (p.bytesFrom temp length, p)

/-- The function `IncomingPacket::peekBytes(num_bytes) const` (`num_bytes` is
an `int` in the source; it is a count of bytes and never negative). -/
def peekBytes (p : IncomingPacket) (num_bytes : Nat) : List Nat × IncomingPacket :=
  (p.bytesFrom p.position num_bytes, p)

/-- The function `IncomingPacket::getBytes(num_bytes)`. -/
def getBytes (p : IncomingPacket) (num_bytes : Nat) : List Nat × IncomingPacket :=
  let (bytes, p) := p.peekBytes num_bytes
  (bytes, p.advance num_bytes)

end IncomingPacket

/-! ## Collaborators of `Protocol71` -/

/-- Modelled from the spec: the class `OutgoingPacket` (`outgoingpacket.h`) is
not part of the sources; an outgoing packet is an appendable byte vector. -/
structure OutgoingPacket where
  bytes : List Nat
  deriving DecidableEq, Repr

namespace OutgoingPacket

/-- A default-constructed `OutgoingPacket`. -/
def empty : OutgoingPacket := { bytes := [] }

/-- Modelled from the spec: `addU8` appends one byte. -/
def addU8 (p : OutgoingPacket) (v : Nat) : OutgoingPacket :=
  { bytes := p.bytes ++ [v % 256] }

/-- Modelled from the spec: `addU16` appends two bytes, little-endian. -/
def addU16 (p : OutgoingPacket) (v : Nat) : OutgoingPacket :=
  { bytes := p.bytes ++ [v % 256, v / 256 % 256] }

/-- Modelled from the spec: `addU32` appends four bytes, little-endian. -/
def addU32 (p : OutgoingPacket) (v : Nat) : OutgoingPacket :=
  { bytes := p.bytes ++ [v % 256, v / 256 % 256, v / 65536 % 256, v / 16777216 % 256] }

/-- Modelled from the spec: `addString` appends the length as a u16 and then
the raw bytes of the string. -/
def addString (p : OutgoingPacket) (s : List Nat) : OutgoingPacket :=
  { bytes := (p.addU16 s.length).bytes ++ s }

end OutgoingPacket

/-- Modelled from the spec: the class `Position` (`position.h`) is not part of
the sources; a position is `(x: u16, y: u16, z: u8)`. -/
structure Position where
  x : Nat
  y : Nat
  z : Nat
  deriving DecidableEq, Repr

/-- Modelled from the spec: `Creature::INVALID_ID` (`creature.h`) is not part
of the sources; `0` is the sentinel INVALID_ID. -/
def Creature.INVALID_ID : Nat := 0

/-- The bytes of a string literal of the source (all literals are ASCII). -/
def strBytes (s : String) : List Nat :=
  s.toList.map (fun c => c.toNat)

/-- The member functions of `GameEngine` that `Protocol71` hands to
`gameEngineProxy_->addTask`, with their arguments in the order of the source.
A `Direction` is carried as its underlying integer (North = 0, East = 1,
South = 2, West = 3), since the source produces it by `static_cast` from a byte. -/
inductive EngineTask where
  | playerDespawn (playerId : Nat)
  | playerMove (playerId : Nat) (direction : Nat)
  | playerMovePath (playerId : Nat) (moves : List Nat)
  | playerCancelMove (playerId : Nat)
  | playerTurn (playerId : Nat) (direction : Nat)
  | playerMoveItemFromInvToInv (playerId fromInventoryId itemId countOrSubType toInventoryId : Nat)
  | playerMoveItemFromInvToPos (playerId fromInventoryId itemId countOrSubType : Nat)
      (toPosition : Position)
  | playerMoveItemFromPosToInv (playerId : Nat) (fromPosition : Position)
      (fromStackPos itemId countOrSubType toInventoryId : Nat)
  | playerMoveItemFromPosToPos (playerId : Nat) (fromPosition : Position)
      (fromStackPos itemId countOrSubType : Nat) (toPosition : Position)
  | playerUseInvItem (playerId itemId inventoryIndex : Nat)
  | playerUsePosItem (playerId itemId : Nat) (position : Position) (stackPosition : Nat)
  | playerLookAtInvItem (playerId inventoryIndex itemId : Nat)
  | playerLookAtPosItem (playerId : Nat) (position : Position) (itemId stackPos : Nat)
  | playerSay (playerId type : Nat) (message receiver : List Nat) (channelId : Nat)
  deriving DecidableEq, Repr

/-- A call of `Protocol71` on one of its collaborators. -/
inductive Effect where
  /-- The call `gameEngineProxy_->addTask(...)`. -/
  | addTask (task : EngineTask)
  /-- The call `gameEngineProxy_->addPlayer(name, this)`. -/
  | addPlayer (name : List Nat)
  /-- The call `server_->sendPacket(connectionId, packet)`. -/
  | sendPacket (connectionId : Nat) (packet : OutgoingPacket)
  /-- The call `server_->closeConnection(connectionId, force)`. -/
  | closeConnection (connectionId : Nat) (force : Bool)
  /-- The call `closeProtocol_()`. -/
  | closeProtocol
  deriving DecidableEq, Repr

/-- The part of `AccountReader` that `Protocol71` consults (the account store
is a collaborator outside the sources). -/
structure AccountReader where
  characterExists : List Nat → Bool
  verifyPassword : List Nat → List Nat → Bool

/-! ## Protocol71 (`worldserver/src/protocol_71.cc`) -/

/-- The class `Protocol71`. `connected` stands for `server_ != nullptr`
(`disconnected()` sets `server_` to `nullptr`), `knownCreatures` for the
`std::array<CreatureId, 64>`, and `trace` records the calls made on the
collaborators, oldest first. -/
structure Protocol71 where
  playerId : Nat
  connected : Bool
  connectionId : Nat
  knownCreatures : List Nat
  accountReader : AccountReader
  trace : List Effect

namespace Protocol71

/-- The constructor: not logged in, connected, every known-creature slot
filled with `Creature::INVALID_ID`. -/
def create (connectionId : Nat) (accountReader : AccountReader) : Protocol71 :=
  { playerId := Creature.INVALID_ID
    connected := true
    connectionId := connectionId
    knownCreatures := List.replicate 64 Creature.INVALID_ID
    accountReader := accountReader
    trace := [] }

/-- The function `Protocol71::isLoggedIn() const` (`protocol_71.h`). -/
def isLoggedIn (s : Protocol71) : Bool :=
  s.playerId != Creature.INVALID_ID

/-- Modelled from the spec: `isConnected()` is not defined in `protocol_71.cc`
(the header in the sources belongs to another revision and tests a member the
.cc file does not have); a session is connected until `disconnected()` marks
it not-connected by clearing `server_`. -/
def isConnected (s : Protocol71) : Bool :=
  s.connected

/-- Append one call to the trace. -/
def emit (s : Protocol71) (e : Effect) : Protocol71 :=
  { s with trace := s.trace ++ [e] }

/-- The call `gameEngineProxy_->addTask(...)`. -/
def addTask (s : Protocol71) (task : EngineTask) : Protocol71 :=
  s.emit (Effect.addTask task)

/-- The call `server_->sendPacket(connectionId_, std::move(packet))`. -/
def sendPacket (s : Protocol71) (packet : OutgoingPacket) : Protocol71 :=
  s.emit (Effect.sendPacket s.connectionId packet)

/-- The call `server_->closeConnection(connectionId_, force)`. -/
def closeConnection (s : Protocol71) (force : Bool) : Protocol71 :=
  s.emit (Effect.closeConnection s.connectionId force)

/-- The function `Protocol71::disconnected()`. -/
def disconnected (s : Protocol71) : Protocol71 :=
  let s := { s with connected := false }
  if s.isLoggedIn then
    s.addTask (EngineTask.playerDespawn s.playerId)
  else
    s.emit Effect.closeProtocol

/-- The function `Protocol71::addPosition(position, packet) const`. -/
def addPosition (position : Position) (packet : OutgoingPacket) : OutgoingPacket :=
  let packet := packet.addU16 position.x
  let packet := packet.addU16 position.y
  packet.addU8 position.z

/-- The function `Protocol71::getPosition(packet) const`. -/
def getPosition (packet : IncomingPacket) : Position × IncomingPacket :=
  let (x, packet) := packet.getU16
  let (y, packet) := packet.getU16
  let (z, packet) := packet.getU8
  ({ x := x, y := y, z := z }, packet)

/-- The function `Protocol71::parseLogin(packet)`. -/
def parseLogin (s : Protocol71) (packet : IncomingPacket) : Protocol71 × IncomingPacket :=
  let (_, packet) := packet.getU8
  let (_client_os, packet) := packet.getU8
  let (_client_version, packet) := packet.getU16
  let (_, packet) := packet.getU8
  let (character_name, packet) := packet.getString
  let (password, packet) := packet.getString
  if !s.accountReader.characterExists character_name then
    let response := OutgoingPacket.empty
    let response := response.addU8 0x14
    let response := response.addString (strBytes ("Invalid character."))
    let s := s.sendPacket response
    let s := s.closeConnection false
    (s, packet)
  else if !s.accountReader.verifyPassword character_name password then
    let response := OutgoingPacket.empty
    let response := response.addU8 0x14
    let response := response.addString (strBytes ("Invalid password."))
    let s := s.sendPacket response
    let s := s.closeConnection false
    (s, packet)
  else
    (s.emit (Effect.addPlayer character_name), packet)

/-- The loop `for (auto i = 0; i < pathLength; i++) moves.push_back(...)` of
`parseMoveClick`, with `n` iterations left. -/
def parseMoveClickLoop : Nat → List Nat → IncomingPacket → List Nat × IncomingPacket
  | 0, moves, packet => (moves, packet)
  | n + 1, moves, packet =>
    let (direction, packet) := packet.getU8
    parseMoveClickLoop n (moves ++ [direction]) packet

/-- The function `Protocol71::parseMoveClick(packet)`. -/
def parseMoveClick (s : Protocol71) (packet : IncomingPacket) : Protocol71 × IncomingPacket :=
  let moves : List Nat := []
  let (pathLength, packet) := packet.getU8
  if pathLength = 0 then
    (s, packet)
  else
    let (moves, packet) := parseMoveClickLoop pathLength moves packet
    (s.addTask (EngineTask.playerMovePath s.playerId moves), packet)

/-- The function `Protocol71::parseMoveItem(packet)`. -/
def parseMoveItem (s : Protocol71) (packet : IncomingPacket) : Protocol71 × IncomingPacket :=
  if packet.peekU16.1 = 0xFFFF then
    let (_, packet) := packet.getU16
    let (fromInventoryId, packet) := packet.getU8
    let (_unknown, packet) := packet.getU16
    let (itemId, packet) := packet.getU16
    let (_unknown2, packet) := packet.getU8
    if packet.peekU16.1 = 0xFFFF then
      let (_, packet) := packet.getU16
      let (toInventoryId, packet) := packet.getU8
      let (_unknown3, packet) := packet.getU16
      let (countOrSubType, packet) := packet.getU8
      (s.addTask (EngineTask.playerMoveItemFromInvToInv s.playerId fromInventoryId itemId
        countOrSubType toInventoryId), packet)
    else
      let (toPosition, packet) := getPosition packet
      let (countOrSubType, packet) := packet.getU8
      (s.addTask (EngineTask.playerMoveItemFromInvToPos s.playerId fromInventoryId itemId
        countOrSubType toPosition), packet)
  else
    let (fromPosition, packet) := getPosition packet
    let (itemId, packet) := packet.getU16
    let (fromStackPos, packet) := packet.getU8
    if packet.peekU16.1 = 0xFFFF then
      let (_, packet) := packet.getU16
      let (toInventoryId, packet) := packet.getU8
      let (_unknown, packet) := packet.getU16
      let (countOrSubType, packet) := packet.getU8
      (s.addTask (EngineTask.playerMoveItemFromPosToInv s.playerId fromPosition fromStackPos
        itemId countOrSubType toInventoryId), packet)
    else
      let (toPosition, packet) := getPosition packet
      let (countOrSubType, packet) := packet.getU8
      (s.addTask (EngineTask.playerMoveItemFromPosToPos s.playerId fromPosition fromStackPos
        itemId countOrSubType toPosition), packet)

/-- The function `Protocol71::parseUseItem(packet)`. -/
def parseUseItem (s : Protocol71) (packet : IncomingPacket) : Protocol71 × IncomingPacket :=
  if packet.peekU16.1 = 0xFFFF then
    let (_, packet) := packet.getU16
    let (inventoryIndex, packet) := packet.getU8
    let (_unknown, packet) := packet.getU16
    let (itemId, packet) := packet.getU16
    let (_unknown2, packet) := packet.getU16
    (s.addTask (EngineTask.playerUseInvItem s.playerId itemId inventoryIndex), packet)
  else
    let (position, packet) := getPosition packet
    let (itemId, packet) := packet.getU16
    let (stackPosition, packet) := packet.getU8
    let (_unknown, packet) := packet.getU8
    (s.addTask (EngineTask.playerUsePosItem s.playerId itemId position stackPosition), packet)

/-- The function `Protocol71::parseLookAt(packet)`. -/
def parseLookAt (s : Protocol71) (packet : IncomingPacket) : Protocol71 × IncomingPacket :=
  if packet.peekU16.1 = 0xFFFF then
    let (_, packet) := packet.getU16
    let (inventoryIndex, packet) := packet.getU8
    let (_unknown, packet) := packet.getU16
    let (itemId, packet) := packet.getU16
    let (_unknown2, packet) := packet.getU8
    (s.addTask (EngineTask.playerLookAtInvItem s.playerId inventoryIndex itemId), packet)
  else
    let (position, packet) := getPosition packet
    let (itemId, packet) := packet.getU16
    let (stackPos, packet) := packet.getU8
    (s.addTask (EngineTask.playerLookAtPosItem s.playerId position itemId stackPos), packet)

/-- The function `Protocol71::parseSay(packet)`. -/
def parseSay (s : Protocol71) (packet : IncomingPacket) : Protocol71 × IncomingPacket :=
  let (type, packet) := packet.getU8
  let receiver : List Nat := []
  let channelId : Nat := 0
  let (receiver, channelId, packet) :=
    if type = 0x06 ∨ type = 0x0B then
      let (receiver, packet) := packet.getString
      (receiver, channelId, packet)
    else if type = 0x07 ∨ type = 0x0A then
      let (channelId, packet) := packet.getU16
      (receiver, channelId, packet)
    else
      (receiver, channelId, packet)
  let (message, packet) := packet.getString
  (s.addTask (EngineTask.playerSay s.playerId type message receiver channelId), packet)

/-- The function `Protocol71::parseCancelMove(packet)`. -/
def parseCancelMove (s : Protocol71) (packet : IncomingPacket) : Protocol71 × IncomingPacket :=
  (s.addTask (EngineTask.playerCancelMove s.playerId), packet)

/-- The `switch (packetId)` of `parsePacket`, the cases in the order of the
source. The third component is `false` exactly when the `default` case leaves
`parsePacket` by `return`; every other case ends in `break`. -/
def parsePacketSwitch (s : Protocol71) (packetId : Nat) (packet : IncomingPacket) :
    Protocol71 × IncomingPacket × Bool :=
  if packetId = 0x14 then
    (s.addTask (EngineTask.playerDespawn s.playerId), packet, true)
  else if packetId = 0x64 then
    let (s, packet) := parseMoveClick s packet
    (s, packet, true)
  else if packetId = 0x65 ∨ packetId = 0x66 ∨ packetId = 0x67 ∨ packetId = 0x68 then
    (s.addTask (EngineTask.playerMove s.playerId (packetId - 0x65)), packet, true)
  else if packetId = 0x69 then
    (s.addTask (EngineTask.playerCancelMove s.playerId), packet, true)
  else if packetId = 0x6F ∨ packetId = 0x70 ∨ packetId = 0x71 ∨ packetId = 0x72 then
    (s.addTask (EngineTask.playerTurn s.playerId (packetId - 0x6F)), packet, true)
  else if packetId = 0x78 then
    let (s, packet) := parseMoveItem s packet
    (s, packet, true)
  else if packetId = 0x82 then
    let (s, packet) := parseUseItem s packet
    (s, packet, true)
  else if packetId = 0x8C then
    let (s, packet) := parseLookAt s packet
    (s, packet, true)
  else if packetId = 0x96 then
    let (s, packet) := parseSay s packet
    (s, packet, true)
  else if packetId = 0xBE then
    let (s, packet) := parseCancelMove s packet
    (s, packet, true)
  else
    (s, packet, false)

/-- The loop `while (!packet->isEmpty())` of `parsePacket`, run for at most
`fuel` iterations. Every iteration moves the cursor forward by at least one
byte, so `packet.length - packet.position` iterations are always enough
(`parsePacketLoop_fuel`). -/
def parsePacketLoop : Nat → Protocol71 → IncomingPacket → Protocol71 × IncomingPacket
  | 0, s, packet => (s, packet)
  | fuel + 1, s, packet =>
    if packet.isEmpty then
      (s, packet)
    else
      let (packetId, packet) := packet.getU8
      let (s, packet, continues) := parsePacketSwitch s packetId packet
      if continues then parsePacketLoop fuel s packet else (s, packet)

/-- The function `Protocol71::parsePacket(packet)`. -/
def parsePacket (s : Protocol71) (packet : IncomingPacket) : Protocol71 × IncomingPacket :=
  if !s.isConnected then
    (s, packet)
  else if !s.isLoggedIn then
    let (packetType, packet) := packet.getU8
    if packetType = 0x0A then
      parseLogin s packet
    else
      (s.closeConnection true, packet)
  else
    parsePacketLoop (packet.length - packet.position) s packet

end Protocol71

/-! ## The world as `Protocol71` sees it -/

/-- Modelled from the spec: the struct `Outfit` (`creature.h`) is not part of
the sources; an outfit is `{type, head, body, legs, feet}`. -/
structure Outfit where
  type : Nat
  head : Nat
  body : Nat
  legs : Nat
  feet : Nat
  deriving DecidableEq, Repr

/-- Modelled from the spec: the class `Creature` (`creature.h`) is not part of
the sources; a creature has `id`, `name`, `health`, `maxHealth`, `direction`,
`speed` and an outfit. Health and speed are integers that are never negative
(`0 ≤ health ≤ maxHealth`); the direction is carried as its underlying integer. -/
structure Creature where
  creatureId : Nat
  name : List Nat
  health : Nat
  maxHealth : Nat
  direction : Nat
  outfit : Outfit
  speed : Nat
  deriving DecidableEq, Repr

/-- Modelled from the spec: the class `Item` (`item.h`) is not part of the
sources; an item has an `itemId`, a `count` if its type is stackable, a
`subtype` if its type is multitype, and the type attributes `alwaysOnTop`,
`name` and `maxitems` (the capacity of a container; `none` when the type has
no such attribute). -/
structure Item where
  itemId : Nat
  stackable : Bool
  count : Nat
  multitype : Bool
  subtype : Nat
  alwaysOnTop : Bool
  name : List Nat
  maxitems : Option Nat
  deriving DecidableEq, Repr

/-- Modelled from the spec: the class `Tile` (`tile.h`) is not part of the
sources; a tile holds exactly one ground item at index 0 of its item list,
then its other items, and a list of creature ids. `getItems()` is
`ground :: items`. -/
structure Tile where
  ground : Item
  items : List Item
  creatureIds : List Nat
  deriving DecidableEq, Repr

/-- The part of `WorldInterface` that `Protocol71` consults (the world is a
collaborator outside the sources). `getMapBlock` returns the tile pointers of
a block, `none` standing for `nullptr`. -/
structure WorldInterface where
  getCreaturePosition : Nat → Position
  getCreature : Nat → Creature
  getMapBlock : Position → Nat → Nat → List (Option Tile)

/-- Modelled from the spec: the constructor `Position(x, y, z)` (`position.h`)
is not part of the sources; a position is `(x: u16, y: u16, z: u8)`, so the
`int` values the callers compute are converted modulo 2^16 and 2^8. -/
def Position.ofInts (x y z : Int) : Position :=
  { x := (x % 65536).toNat, y := (y % 65536).toNat, z := (z % 256).toNat }

namespace Protocol71

/-- The function `Protocol71::canSee(position) const`. The getters return
`uint16_t`, which C++ promotes to `int` before the subtraction and the
addition, so the comparisons are over the integers. -/
def canSee (w : WorldInterface) (s : Protocol71) (position : Position) : Bool :=
  let playerPosition := w.getCreaturePosition s.playerId
  decide ((position.x : Int) > (playerPosition.x : Int) - 9) &&
  decide ((position.x : Int) ≤ (playerPosition.x : Int) + 9) &&
  decide ((position.y : Int) > (playerPosition.y : Int) - 7) &&
  decide ((position.y : Int) ≤ (playerPosition.y : Int) + 7)

/-- The function `Protocol71::addItem(item, packet) const`. -/
def addItem (item : Item) (packet : OutgoingPacket) : OutgoingPacket :=
  let packet := packet.addU16 item.itemId
  if item.stackable then
    packet.addU8 item.count
  else if item.multitype then
    packet.addU8 item.subtype
  else
    packet

/-- The function `Protocol71::addCreature(creature, packet)`. An iterator into
`knownCreatures_` is the index of its slot, `end()` is the length, and
`std::find` is `List.indexOf`. The health byte is
`getHealth() / getMaxHealth() * 100`, an integer division: for `maxHealth = 0`
the source divides by zero, which is undefined (the program traps and no packet
is built), whereas the division of `Nat` gives 0. The definition is the
function of the source for `maxHealth ≠ 0` only, and the properties of the
packets that hold a creature are stated under that precondition. -/
def addCreature (s : Protocol71) (creature : Creature) (packet : OutgoingPacket) :
    Protocol71 × OutgoingPacket :=
  let it := s.knownCreatures.indexOf creature.creatureId
  let (s, packet) :=
    if it = s.knownCreatures.length then
      let unused := s.knownCreatures.indexOf Creature.INVALID_ID
      let s :=
        if unused = s.knownCreatures.length then
          s
        else
          { s with knownCreatures := s.knownCreatures.set unused creature.creatureId }
      let packet := packet.addU8 0x61
      let packet := packet.addU8 0x00
      let packet := packet.addU32 0x00
      let packet := packet.addU32 creature.creatureId
      let packet := packet.addString creature.name
      (s, packet)
    else
      let packet := packet.addU8 0x62
      let packet := packet.addU8 0x00
      let packet := packet.addU32 creature.creatureId
      (s, packet)
  let packet := packet.addU8 (creature.health / creature.maxHealth * 100)
  let packet := packet.addU8 creature.direction
  let packet := packet.addU8 creature.outfit.type
  let packet := packet.addU8 creature.outfit.head
  let packet := packet.addU8 creature.outfit.body
  let packet := packet.addU8 creature.outfit.legs
  let packet := packet.addU8 creature.outfit.feet
  let packet := packet.addU8 0x00
  let packet := packet.addU8 0xDC
  let packet := packet.addU16 creature.speed
  (s, packet)

/-- The loop "Add top Items" of `addMapData`: the items left to visit, the
count and the packet, up to the first item that is not `alwaysOnTop`. -/
def addMapDataTopItems : List Item → Nat → OutgoingPacket → List Item × Nat × OutgoingPacket
  | [], count, packet => ([], count, packet)
  | item :: rest, count, packet =>
    if count < 10 then
      if !item.alwaysOnTop then
        (item :: rest, count, packet)
      else
        addMapDataTopItems rest (count + 1) (addItem item packet)
    else
      (item :: rest, count, packet)

/-- The loop "Add Creatures" of `addMapData`. -/
def addMapDataCreatures (w : WorldInterface) :
    List Nat → Nat → Protocol71 → OutgoingPacket → Nat × Protocol71 × OutgoingPacket
  | [], count, s, packet => (count, s, packet)
  | creatureId :: rest, count, s, packet =>
    if count < 10 then
      let creature := w.getCreature creatureId
      let (s, packet) := addCreature s creature packet
      addMapDataCreatures w rest (count + 1) s packet
    else
      (count, s, packet)

/-- The loop "Add bottom Items" of `addMapData`. -/
def addMapDataBottomItems : List Item → Nat → OutgoingPacket → Nat × OutgoingPacket
  | [], count, packet => (count, packet)
  | item :: rest, count, packet =>
    if count < 10 then
      addMapDataBottomItems rest (count + 1) (addItem item packet)
    else
      (count, packet)

/-- The block `if (tile != nullptr) { ... }` of `addMapData` for a tile that
is not null. The item iterator starts at the ground item, which is added
without a test, and then runs over the other items. -/
def addMapDataTile (w : WorldInterface) (tile : Tile) (s : Protocol71)
    (packet : OutgoingPacket) : Protocol71 × OutgoingPacket :=
  let count := 0
  let packet := addItem tile.ground packet
  let count := count + 1
  let (items, count, packet) := addMapDataTopItems tile.items count packet
  let (count, s, packet) := addMapDataCreatures w tile.creatureIds count s packet
  let (_, packet) := addMapDataBottomItems items count packet
  (s, packet)

/-- The body of the two nested loops of `addMapData` at `(x, y)`. The third
component is the tile iterator `it`, as the list of the tiles not yet visited;
`getMapBlock` returns `width * height` tiles, and an iterator that has run out
is read as `nullptr`. -/
def addMapDataStep (w : WorldInterface) (width height x y : Nat)
    (st : Protocol71 × OutgoingPacket × List (Option Tile)) :
    Protocol71 × OutgoingPacket × List (Option Tile) :=
  let (s, packet, it) := st
  let (s, packet) :=
    match it.head? with
    | some (some tile) => addMapDataTile w tile s packet
    | _ => (s, packet)
  let packet :=
    if x ≠ width - 1 ∨ y ≠ height - 1 then
      (packet.addU8 0x00).addU8 0xFF
    else
      packet
  (s, packet, it.tail)

/-- The function `Protocol71::addMapData(position, width, height, packet)`
(`width` and `height` are `int` in the source and never negative). -/
def addMapData (w : WorldInterface) (s : Protocol71) (position : Position)
    (width height : Nat) (packet : OutgoingPacket) : Protocol71 × OutgoingPacket :=
  let tiles := w.getMapBlock position width height
  let (s, packet, _) :=
    (List.range width).foldl
      (fun st x => (List.range height).foldl (fun st y => addMapDataStep w width height x y st) st)
      (s, packet, tiles)
  (s, packet)

/-- The first part of `onCreatureMove` (the chain `if (canSeeOldPos &&
canSeeNewPos) ... else if ...`): the record of the move. -/
def onCreatureMoveRecord (s : Protocol71) (creature : Creature)
    (canSeeOldPos canSeeNewPos : Bool) (oldPosition : Position) (oldStackPos : Nat)
    (newPosition : Position) (packet : OutgoingPacket) : Protocol71 × OutgoingPacket :=
  if canSeeOldPos && canSeeNewPos then
    let packet := packet.addU8 0x6D
    let packet := addPosition oldPosition packet
    let packet := packet.addU8 oldStackPos
    let packet := addPosition newPosition packet
    (s, packet)
  else if canSeeOldPos then
    let packet := packet.addU8 0x6C
    let packet := addPosition oldPosition packet
    let packet := packet.addU8 oldStackPos
    (s, packet)
  else if canSeeNewPos then
    let packet := packet.addU8 0x6A
    let packet := addPosition newPosition packet
    addCreature s creature packet
  else
    (s, packet)

/-- The second part of `onCreatureMove` (the block `if
(creature.getCreatureId() == playerId_) { ... }`): the new map data. -/
def onCreatureMoveMapData (w : WorldInterface) (s : Protocol71) (creature : Creature)
    (oldPosition newPosition : Position) (packet : OutgoingPacket) :
    Protocol71 × OutgoingPacket :=
  if creature.creatureId = s.playerId then
    let (s, packet) :=
      if oldPosition.y > newPosition.y then
        let packet := packet.addU8 0x65
        let (s, packet) :=
          addMapData w s
            (Position.ofInts ((oldPosition.x : Int) - 8) ((newPosition.y : Int) - 6) 7) 18 1 packet
        let packet := packet.addU8 0x7E
        let packet := packet.addU8 0xFF
        (s, packet)
      else if oldPosition.y < newPosition.y then
        let packet := packet.addU8 0x67
        let (s, packet) :=
          addMapData w s
            (Position.ofInts ((oldPosition.x : Int) - 8) ((newPosition.y : Int) + 7) 7) 18 1 packet
        let packet := packet.addU8 0x7E
        let packet := packet.addU8 0xFF
        (s, packet)
      else
        (s, packet)
    if oldPosition.x > newPosition.x then
      let packet := packet.addU8 0x68
      let (s, packet) :=
        addMapData w s
          (Position.ofInts ((newPosition.x : Int) - 8) ((newPosition.y : Int) - 6) 7) 1 14 packet
      let packet := packet.addU8 0x62
      let packet := packet.addU8 0xFF
      (s, packet)
    else if oldPosition.x < newPosition.x then
      let packet := packet.addU8 0x66
      let (s, packet) :=
        addMapData w s
          (Position.ofInts ((newPosition.x : Int) + 9) ((newPosition.y : Int) - 6) 7) 1 14 packet
      let packet := packet.addU8 0x62
      let packet := packet.addU8 0xFF
      (s, packet)
    else
      (s, packet)
  else
    (s, packet)

/-- The function `Protocol71::onCreatureMove(creature, oldPosition,
oldStackPos, newPosition, newStackPos)`. -/
def onCreatureMove (w : WorldInterface) (s : Protocol71) (creature : Creature)
    (oldPosition : Position) (oldStackPos : Nat) (newPosition : Position)
    (_newStackPos : Nat) : Protocol71 :=
  if !s.isConnected then
    s
  else
    let packet := OutgoingPacket.empty
    let canSeeOldPos := canSee w s oldPosition
    let canSeeNewPos := canSee w s newPosition
    let (s, packet) :=
      onCreatureMoveRecord s creature canSeeOldPos canSeeNewPos oldPosition oldStackPos
        newPosition packet
    let (s, packet) := onCreatureMoveMapData w s creature oldPosition newPosition packet
    s.sendPacket packet

end Protocol71

/-! ## The notifications of `Protocol71` -/

/-- Modelled from the spec: the class `Player` (`player.h`) is not part of the
sources; a player is a creature with `mana`, `maxMana`, `capacity`,
`experience`, `level`, `magicLevel` and ten equipment slots. `equipment i` is
`getEquipment().getItem(i)`, with `none` for an item that is not valid. -/
structure Player where
  creature : Creature
  capacity : Nat
  experience : Nat
  level : Nat
  mana : Nat
  maxMana : Nat
  magicLevel : Nat
  equipment : Nat → Option Item

namespace Protocol71

/-- The function `Protocol71::addEquipment(player, inventoryIndex, packet) const`. -/
def addEquipment (player : Player) (inventoryIndex : Nat) (packet : OutgoingPacket) :
    OutgoingPacket :=
  match player.equipment inventoryIndex with
  | none =>
    let packet := packet.addU8 0x79
    packet.addU8 inventoryIndex
  | some item =>
    let packet := packet.addU8 0x78
    let packet := packet.addU8 inventoryIndex
    addItem item packet

/-- The function `Protocol71::onCreatureSpawn(creature, position)`. -/
def onCreatureSpawn (s : Protocol71) (creature : Creature) (position : Position) : Protocol71 :=
  if !s.isConnected then
    s
  else
    let packet := OutgoingPacket.empty
    let packet := packet.addU8 0x6A
    let packet := addPosition position packet
    let (s, packet) := addCreature s creature packet
    let packet := packet.addU8 0x83
    let packet := addPosition position packet
    let packet := packet.addU8 0x0A
    s.sendPacket packet

/-- The function `Protocol71::onCreatureDespawn(creature, position, stackPos)`. -/
def onCreatureDespawn (s : Protocol71) (creature : Creature) (position : Position)
    (stackPos : Nat) : Protocol71 :=
  if !s.isConnected then
    if creature.creatureId = s.playerId then
      s.emit Effect.closeProtocol
    else
      s
  else
    let packet := OutgoingPacket.empty
    let packet := packet.addU8 0x83
    let packet := addPosition position packet
    let packet := packet.addU8 0x02
    let packet := packet.addU8 0x6C
    let packet := addPosition position packet
    let packet := packet.addU8 stackPos
    let s := s.sendPacket packet
    if creature.creatureId = s.playerId then
      let s := s.closeConnection false
      s.emit Effect.closeProtocol
    else
      s

/-- The function `Protocol71::onCreatureTurn(creature, position, stackPos)`. -/
def onCreatureTurn (s : Protocol71) (creature : Creature) (position : Position)
    (stackPos : Nat) : Protocol71 :=
  if !s.isConnected then
    s
  else
    let packet := OutgoingPacket.empty
    let packet := packet.addU8 0x6B
    let packet := addPosition position packet
    let packet := packet.addU8 stackPos
    let packet := packet.addU8 0x63
    let packet := packet.addU8 0x00
    let packet := packet.addU32 creature.creatureId
    let packet := packet.addU8 creature.direction
    s.sendPacket packet

/-- The function `Protocol71::onCreatureSay(creature, position, message)`. -/
def onCreatureSay (s : Protocol71) (creature : Creature) (position : Position)
    (message : List Nat) : Protocol71 :=
  if !s.isConnected then
    s
  else
    let packet := OutgoingPacket.empty
    let packet := packet.addU8 0xAA
    let packet := packet.addString creature.name
    let packet := packet.addU8 0x01
    let packet := addPosition position packet
    let packet := packet.addString message
    s.sendPacket packet

/-- The function `Protocol71::onItemRemoved(position, stackPos)`. -/
def onItemRemoved (s : Protocol71) (position : Position) (stackPos : Nat) : Protocol71 :=
  if !s.isConnected then
    s
  else
    let packet := OutgoingPacket.empty
    let packet := packet.addU8 0x6C
    let packet := addPosition position packet
    let packet := packet.addU8 stackPos
    s.sendPacket packet

/-- The function `Protocol71::onItemAdded(item, position)`. -/
def onItemAdded (s : Protocol71) (item : Item) (position : Position) : Protocol71 :=
  if !s.isConnected then
    s
  else
    let packet := OutgoingPacket.empty
    let packet := packet.addU8 0x6A
    let packet := addPosition position packet
    let packet := addItem item packet
    s.sendPacket packet

/-- The function `Protocol71::onTileUpdate(position)`. -/
def onTileUpdate (w : WorldInterface) (s : Protocol71) (position : Position) : Protocol71 :=
  if !s.isConnected then
    s
  else
    let packet := OutgoingPacket.empty
    let packet := packet.addU8 0x69
    let packet := addPosition position packet
    let (s, packet) := addMapData w s position 1 1 packet
    let packet := packet.addU8 0x00
    let packet := packet.addU8 0xFF
    s.sendPacket packet

/-- The function `Protocol71::onPlayerSpawn(player, position, loginMessage)`. -/
def onPlayerSpawn (w : WorldInterface) (s : Protocol71) (player : Player)
    (position : Position) (loginMessage : List Nat) : Protocol71 :=
  let s := { s with playerId := player.creature.creatureId }
  if !s.isConnected then
    s
  else
    let packet := OutgoingPacket.empty
    let packet := packet.addU8 0x0A
    let packet := packet.addU32 s.playerId
    let packet := packet.addU8 0x32
    let packet := packet.addU8 0x00
    let packet := packet.addU8 0x64
    let packet := addPosition position packet
    let (s, packet) :=
      addMapData w s
        (Position.ofInts ((position.x : Int) - 8) ((position.y : Int) - 6) (position.z : Int))
        18 14 packet
    let packet := (List.range 12).foldl (fun packet _ => packet.addU8 0xFF) packet
    let packet := packet.addU8 0xE4
    let packet := packet.addU8 0xFF
    let packet := packet.addU8 0x83
    let packet := packet.addU16 position.x
    let packet := packet.addU16 position.y
    let packet := packet.addU8 position.z
    let packet := packet.addU8 0x0A
    let packet := packet.addU8 0xA0
    let packet := packet.addU16 player.creature.health
    let packet := packet.addU16 player.creature.maxHealth
    let packet := packet.addU16 player.capacity
    let packet := packet.addU32 player.experience
    let packet := packet.addU8 player.level
    let packet := packet.addU16 player.mana
    let packet := packet.addU16 player.maxMana
    let packet := packet.addU8 player.magicLevel
    let packet := packet.addU8 0x82
    let packet := packet.addU8 0x6F
    let packet := packet.addU8 0xD7
    let packet := packet.addU8 0xA1
    let packet := (List.range 7).foldl (fun packet _ => packet.addU8 10) packet
    let packet := (List.range' 1 10).foldl (fun packet i => addEquipment player i packet) packet
    let packet := packet.addU8 0xB4
    let packet := packet.addU8 0x11
    let packet := packet.addString loginMessage
    s.sendPacket packet

/-- The function `Protocol71::onEquipmentUpdated(player, inventoryIndex)`. -/
def onEquipmentUpdated (s : Protocol71) (player : Player) (inventoryIndex : Nat) : Protocol71 :=
  if !s.isConnected then
    s
  else
    let packet := OutgoingPacket.empty
    let packet := addEquipment player inventoryIndex packet
    s.sendPacket packet

/-- The function `Protocol71::onUseItem(item)`. -/
def onUseItem (s : Protocol71) (item : Item) : Protocol71 :=
  if !s.isConnected then
    s
  else
    match item.maxitems with
    | none => s
    | some maxitems =>
      let packet := OutgoingPacket.empty
      let packet := packet.addU8 0x6E
      let packet := packet.addU8 0x00
      let packet := packet.addU16 item.itemId
      let packet := packet.addString item.name
      let packet := packet.addU16 maxitems
      let packet := packet.addU8 0x00
      s.sendPacket packet

/-- The function `Protocol71::sendTextMessage(message)`. -/
def sendTextMessage (s : Protocol71) (message : List Nat) : Protocol71 :=
  if !s.isConnected then
    s
  else
    let packet := OutgoingPacket.empty
    let packet := packet.addU8 0xB4
    let packet := packet.addU8 0x13
    let packet := packet.addString message
    s.sendPacket packet

/-- The function `Protocol71::sendCancel(message)`. -/
def sendCancel (s : Protocol71) (message : List Nat) : Protocol71 :=
  if !s.isConnected then
    s
  else
    let packet := OutgoingPacket.empty
    let packet := packet.addU8 0xB4
    let packet := packet.addU8 0x14
    let packet := packet.addString message
    s.sendPacket packet

end Protocol71

/-- A call of one of the notification functions of `Protocol71`, with its
arguments. -/
inductive Notification where
  | creatureSpawn (creature : Creature) (position : Position)
  | creatureDespawn (creature : Creature) (position : Position) (stackPos : Nat)
  | creatureMove (creature : Creature) (oldPosition : Position) (oldStackPos : Nat)
      (newPosition : Position) (newStackPos : Nat)
  | creatureTurn (creature : Creature) (position : Position) (stackPos : Nat)
  | creatureSay (creature : Creature) (position : Position) (message : List Nat)
  | itemAdded (item : Item) (position : Position)
  | itemRemoved (position : Position) (stackPos : Nat)
  | tileUpdate (position : Position)
  | playerSpawn (player : Player) (position : Position) (loginMessage : List Nat)
  | equipmentUpdated (player : Player) (inventoryIndex : Nat)
  | useItem (item : Item)
  | textMessage (message : List Nat)
  | cancel (message : List Nat)

/-- The session after the notification `n` has been delivered to it. -/
def Protocol71.notify (w : WorldInterface) (s : Protocol71) : Notification → Protocol71
  | Notification.creatureSpawn creature position => s.onCreatureSpawn creature position
  | Notification.creatureDespawn creature position stackPos =>
    s.onCreatureDespawn creature position stackPos
  | Notification.creatureMove creature oldPosition oldStackPos newPosition newStackPos =>
    Protocol71.onCreatureMove w s creature oldPosition oldStackPos newPosition newStackPos
  | Notification.creatureTurn creature position stackPos =>
    s.onCreatureTurn creature position stackPos
  | Notification.creatureSay creature position message =>
    s.onCreatureSay creature position message
  | Notification.itemAdded item position => s.onItemAdded item position
  | Notification.itemRemoved position stackPos => s.onItemRemoved position stackPos
  | Notification.tileUpdate position => Protocol71.onTileUpdate w s position
  | Notification.playerSpawn player position loginMessage =>
    Protocol71.onPlayerSpawn w s player position loginMessage
  | Notification.equipmentUpdated player inventoryIndex =>
    s.onEquipmentUpdated player inventoryIndex
  | Notification.useItem item => s.onUseItem item
  | Notification.textMessage message => s.sendTextMessage message
  | Notification.cancel message => s.sendCancel message

/-! ## The login server (`loginserver/src/loginserver.cc`) -/

/-- Modelled from the spec: the struct `Character` (`account.h`) is not part of
the sources; a character of an account has a name, a world name, a world ip
(u32) and a world port (u16). -/
structure Character where
  name : List Nat
  worldName : List Nat
  worldIp : Nat
  worldPort : Nat
  deriving DecidableEq, Repr

/-- Modelled from the spec: the struct `Account` (`account.h`) is not part of
the sources; an account has its characters, in stored order, and a number of
premium days. -/
structure Account where
  characters : List Character
  premiumDays : Nat
  deriving DecidableEq, Repr

/-- The part of `AccountReader` that the login server consults (the account
store is a collaborator outside the sources). `getAccount` is only called for
an account number that exists. -/
structure LoginAccountReader where
  accountExists : Nat → Bool
  verifyPassword : Nat → List Nat → Bool
  getAccount : Nat → Account

/-- A call of the login server on its `server`. -/
inductive LoginEffect where
  /-- The call `server->sendPacket(connectionId, packet)`. -/
  | sendPacket (connectionId : Nat) (packet : OutgoingPacket)
  /-- The call `server->closeConnection(connectionId)`. -/
  | closeConnection (connectionId : Nat)
  deriving DecidableEq, Repr

/-- The globals of `loginserver.cc`: `accountReader`, `motd`, and the calls
made on `server`, oldest first. -/
structure LoginServer where
  accountReader : LoginAccountReader
  motd : List Nat
  trace : List LoginEffect

namespace LoginServer

/-- Append one call to the trace. -/
def emit (g : LoginServer) (e : LoginEffect) : LoginServer :=
  { g with trace := g.trace ++ [e] }

/-- The loop `for (const auto& character : account->characters)` of
`parseLogin`. -/
def addCharacters (characters : List Character) (response : OutgoingPacket) : OutgoingPacket :=
  characters.foldl
    (fun response character =>
      let response := response.addString character.name
      let response := response.addString character.worldName
      let response := response.addU32 character.worldIp
      response.addU16 character.worldPort)
    response

/-- The function `parseLogin(connectionId, packet)` of the login server. The
string literal in front of the motd (the digit 0 and a newline) is the two
bytes 0x30 0x0A. -/
def parseLogin (g : LoginServer) (connectionId : Nat) (packet : IncomingPacket) :
    LoginServer × IncomingPacket :=
  let (_clientOs, packet) := packet.getU16
  let (_clientVersion, packet) := packet.getU16
  let (_, packet) := packet.getBytes 12
  let (accountNumber, packet) := packet.getU32
  let (password, packet) := packet.getString
  let response := OutgoingPacket.empty
  let response := response.addU8 0x14
  let response := response.addString ([0x30, 0x0A] ++ g.motd)
  let response :=
    if !g.accountReader.accountExists accountNumber then
      let response := response.addU8 0x0A
      response.addString (strBytes ("Invalid account number"))
    else if !g.accountReader.verifyPassword accountNumber password then
      let response := response.addU8 0x0A
      response.addString (strBytes ("Invalid password"))
    else
      let account := g.accountReader.getAccount accountNumber
      let response := response.addU8 0x64
      let response := response.addU8 account.characters.length
      let response := addCharacters account.characters response
      response.addU16 account.premiumDays
  let g := g.emit (LoginEffect.sendPacket connectionId response)
  let g := g.emit (LoginEffect.closeConnection connectionId)
  (g, packet)

/-- The loop `while (!packet->isEmpty())` of `onPacketReceived`, run for at
most `fuel` iterations; every iteration moves the cursor forward by at least
one byte. In the `default` case `break` leaves the `switch`, not the loop. -/
def onPacketReceivedLoop :
    Nat → LoginServer → Nat → IncomingPacket → LoginServer × IncomingPacket
  | 0, g, _, packet => (g, packet)
  | fuel + 1, g, connectionId, packet =>
    if packet.isEmpty then
      (g, packet)
    else
      let (packetId, packet) := packet.getU8
      let (g, packet) :=
        if packetId = 0x01 then
          parseLogin g connectionId packet
        else
          (g.emit (LoginEffect.closeConnection connectionId), packet)
      onPacketReceivedLoop fuel g connectionId packet

/-- The function `onPacketReceived(connectionId, packet)` of the login server. -/
def onPacketReceived (g : LoginServer) (connectionId : Nat) (packet : IncomingPacket) :
    LoginServer × IncomingPacket :=
  onPacketReceivedLoop (packet.length - packet.position) g connectionId packet

end LoginServer

/-! ## Reading the wire at an offset from the cursor -/

/-- The byte at offset `i` from the cursor. -/
def IncomingPacket.wireU8 (p : IncomingPacket) (i : Nat) : Nat :=
  p.byteAt (p.position + i)

/-- The little-endian u16 at offset `i` from the cursor. -/
def IncomingPacket.wireU16 (p : IncomingPacket) (i : Nat) : Nat :=
  p.byteAt (p.position + i) + 256 * p.byteAt (p.position + i + 1)

/-- The tile position `x:u16 | y:u16 | z:u8` at offset `i` from the cursor. -/
def IncomingPacket.wirePosition (p : IncomingPacket) (i : Nat) : Position :=
  { x := p.wireU16 i, y := p.wireU16 (i + 2), z := p.wireU8 (i + 4) }

/-- The raw bytes of the string (u16 length, then the bytes) at offset `i`
from the cursor. -/
def IncomingPacket.wireString (p : IncomingPacket) (i : Nat) : List Nat :=
  p.bytesFrom (p.position + i + 2) (p.wireU16 i)

/-- The little-endian u32 at offset `i` from the cursor. -/
def IncomingPacket.wireU32 (p : IncomingPacket) (i : Nat) : Nat :=
  p.byteAt (p.position + i) + 256 * p.byteAt (p.position + i + 1)
    + 65536 * p.byteAt (p.position + i + 2) + 16777216 * p.byteAt (p.position + i + 3)

/-! ## Values as bytes on the wire -/

/-- The two bytes of a u16 on the wire, little-endian. -/
def wireBytesU16 (v : Nat) : List Nat :=
  [v % 256, v / 256 % 256]

/-- The four bytes of a u32 on the wire, little-endian. -/
def wireBytesU32 (v : Nat) : List Nat :=
  [v % 256, v / 256 % 256, v / 65536 % 256, v / 16777216 % 256]

/-- A string on the wire: its length as a u16, then its bytes. -/
def wireBytesString (s : List Nat) : List Nat :=
  wireBytesU16 s.length ++ s

/-- A tile position on the wire: `x:u16 | y:u16 | z:u8`. -/
def wireBytesPosition (position : Position) : List Nat :=
  wireBytesU16 position.x ++ wireBytesU16 position.y ++ [position.z % 256]

/-- A character of the login response on the wire:
`name:string | worldName:string | worldIp:u32 | worldPort:u16`. -/
def wireBytesCharacter (character : Character) : List Nat :=
  wireBytesString character.name ++ wireBytesString character.worldName
    ++ wireBytesU32 character.worldIp ++ wireBytesU16 character.worldPort

/-- The eleven bytes that end both forms of a creature on the wire, as
`addCreature` writes them for a creature with `maxHealth ≠ 0`: the health byte
it computes, the direction, the five outfit bytes, `0x00 0xDC`, and the speed
as a u16. -/
def creatureTrailer (creature : Creature) : List Nat :=
  [creature.health / creature.maxHealth * 100 % 256, creature.direction % 256,
    creature.outfit.type % 256, creature.outfit.head % 256, creature.outfit.body % 256,
    creature.outfit.legs % 256, creature.outfit.feet % 256, 0x00, 0xDC]
  ++ wireBytesU16 creature.speed

/-- The result `r` of an encoder that started from the session `s` and the
packet `out` differs from `s` at most in the known-creature cache, and its
packet is `out` with bytes appended. -/
def Protocol71.Extends (s : Protocol71) (out : OutgoingPacket)
    (r : Protocol71 × OutgoingPacket) : Prop :=
  (∃ known, r.1 = { s with knownCreatures := known }) ∧ ∃ ext, r.2.bytes = out.bytes ++ ext

/-! ## Tiles and map blocks as the specification describes them -/

/-- An entry of a tile on the wire: an item, or a creature given by its id. -/
inductive TileEntry where
  | item (item : Item)
  | creature (creatureId : Nat)
  deriving DecidableEq, Repr

/-- The encoding of one entry of a tile: `addItem` for an item, `addCreature`
for the creature the world holds under the id. -/
def encodeEntry (w : WorldInterface) (s : Protocol71) (out : OutgoingPacket) :
    TileEntry → Protocol71 × OutgoingPacket
  | TileEntry.item item => (s, Protocol71.addItem item out)
  | TileEntry.creature creatureId => Protocol71.addCreature s (w.getCreature creatureId) out

/-- The encoding of a sequence of entries, one after the other. -/
def encodeEntries (w : WorldInterface) :
    List TileEntry → Protocol71 → OutgoingPacket → Protocol71 × OutgoingPacket
  | [], s, out => (s, out)
  | entry :: rest, s, out =>
    encodeEntries w rest (encodeEntry w s out entry).1 (encodeEntry w s out entry).2

/-- The order within a tile that the specification gives: ground, then on-top
items in stored order, then creatures in stored order, then bottom items. -/
def specTileEntries (ground : Item) (onTop : List Item) (creatureIds : List Nat)
    (bottom : List Item) : List TileEntry :=
  TileEntry.item ground :: (onTop.map TileEntry.item ++ creatureIds.map TileEntry.creature
    ++ bottom.map TileEntry.item)

/-- The bytes a tile pointer contributes to a map block when the session is
`s`: none for `nullptr`, what `addMapDataTile` writes otherwise. -/
def tileBytes (w : WorldInterface) (s : Protocol71) : Option Tile → List Nat
  | none => []
  | some tile => (Protocol71.addMapDataTile w tile s OutgoingPacket.empty).2.bytes

/-- The session after a tile pointer has been encoded (creatures of the tile
may have entered the known-creature cache). -/
def tileSession (w : WorldInterface) (s : Protocol71) : Option Tile → Protocol71
  | none => s
  | some tile => (Protocol71.addMapDataTile w tile s OutgoingPacket.empty).1

/-- A piece of a map block on the wire: the entries of one tile, or the
separator `0x00 0xFF`. -/
inductive Segment where
  | tile (bytes : List Nat)
  | separator
  deriving DecidableEq, Repr

/-- The bytes of a piece of a map block. -/
def Segment.bytes : Segment → List Nat
  | Segment.tile bytes => bytes
  | Segment.separator => [0x00, 0xFF]

/-- Whether a piece of a map block is the separator. -/
def Segment.isSeparator : Segment → Bool
  | Segment.tile _ => false
  | Segment.separator => true

/-- The map block of the specification: the tiles in order, a separator
between two tiles and none behind the last one. -/
def specMapSegments (w : WorldInterface) : List (Option Tile) → Protocol71 → List Segment
  | [], _ => []
  | [tile], s => [Segment.tile (tileBytes w s tile)]
  | tile :: next :: rest, s =>
    Segment.tile (tileBytes w s tile) :: Segment.separator
      :: specMapSegments w (next :: rest) (tileSession w s tile)

/-- The tiles in order with a separator behind every tile, the last one
included. -/
def sepMapSegments (w : WorldInterface) : List (Option Tile) → Protocol71 → List Segment
  | [], _ => []
  | tile :: rest, s =>
    Segment.tile (tileBytes w s tile) :: Segment.separator
      :: sepMapSegments w rest (tileSession w s tile)

/-- The bytes of a sequence of pieces of a map block. -/
def segmentsBytes (segments : List Segment) : List Nat :=
  (segments.map Segment.bytes).flatten

/-- The session after all tiles of a map block have been encoded. -/
def specMapSession (w : WorldInterface) : List (Option Tile) → Protocol71 → Protocol71
  | [], s => s
  | tile :: rest, s => specMapSession w rest (tileSession w s tile)

/-- The body of the two loops of `addMapData` with the outcome of its test for
the last tile as a parameter: `addMapDataStep` at `(x, y)` is `flatStep` with
`last` true exactly when `x = width - 1` and `y = height - 1`. -/
def Protocol71.flatStep (w : WorldInterface) (last : Bool)
    (st : Protocol71 × OutgoingPacket × List (Option Tile)) :
    Protocol71 × OutgoingPacket × List (Option Tile) :=
  ((tileSession w st.1 st.2.2.head?.join),
    { bytes := st.2.1.bytes ++ tileBytes w st.1 st.2.2.head?.join
        ++ if last then [] else [0x00, 0xFF] },
    st.2.2.tail)

/-- The map data of a block on the wire when the session is `s`: the bytes
that `addMapData` appends to a packet. -/
def mapDataBytes (w : WorldInterface) (s : Protocol71) (position : Position)
    (width height : Nat) : List Nat :=
  (Protocol71.addMapData w s position width height OutgoingPacket.empty).2.bytes

/-- The session after the map data of a block has been encoded. -/
def mapDataSession (w : WorldInterface) (s : Protocol71) (position : Position)
    (width height : Nat) : Protocol71 :=
  (Protocol71.addMapData w s position width height OutgoingPacket.empty).1

/-- The row strip of the specification for a move of the player from
`oldPosition` to `newPosition`: for `newY < oldY`, `0x65`, the 18x1 row with
top-left `(oldX - 8, newY - 6)` and `0x7E 0xFF`; for `newY > oldY`, `0x67`, the
18x1 row at `(oldX - 8, newY + 7)` and `0x7E 0xFF`; nothing otherwise. The
first component is the session after the strip. -/
def rowStrip (w : WorldInterface) (s : Protocol71) (oldPosition newPosition : Position) :
    Protocol71 × List Nat :=
  if newPosition.y < oldPosition.y then
    (mapDataSession w s
        (Position.ofInts ((oldPosition.x : Int) - 8) ((newPosition.y : Int) - 6) 7) 18 1,
      [0x65] ++ mapDataBytes w s
        (Position.ofInts ((oldPosition.x : Int) - 8) ((newPosition.y : Int) - 6) 7) 18 1
        ++ [0x7E, 0xFF])
  else if newPosition.y > oldPosition.y then
    (mapDataSession w s
        (Position.ofInts ((oldPosition.x : Int) - 8) ((newPosition.y : Int) + 7) 7) 18 1,
      [0x67] ++ mapDataBytes w s
        (Position.ofInts ((oldPosition.x : Int) - 8) ((newPosition.y : Int) + 7) 7) 18 1
        ++ [0x7E, 0xFF])
  else
    (s, [])

/-- The column strip of the specification: for `newX < oldX`, `0x68`, the
1x14 column with top-left `(newX - 8, newY - 6)` and `0x62 0xFF`; for
`newX > oldX`, `0x66`, the 1x14 column at `(newX + 9, newY - 6)` and
`0x62 0xFF`; nothing otherwise. -/
def columnStrip (w : WorldInterface) (s : Protocol71) (oldPosition newPosition : Position) :
    Protocol71 × List Nat :=
  if newPosition.x < oldPosition.x then
    (mapDataSession w s
        (Position.ofInts ((newPosition.x : Int) - 8) ((newPosition.y : Int) - 6) 7) 1 14,
      [0x68] ++ mapDataBytes w s
        (Position.ofInts ((newPosition.x : Int) - 8) ((newPosition.y : Int) - 6) 7) 1 14
        ++ [0x62, 0xFF])
  else if newPosition.x > oldPosition.x then
    (mapDataSession w s
        (Position.ofInts ((newPosition.x : Int) + 9) ((newPosition.y : Int) - 6) 7) 1 14,
      [0x66] ++ mapDataBytes w s
        (Position.ofInts ((newPosition.x : Int) + 9) ((newPosition.y : Int) - 6) 7) 1 14
        ++ [0x62, 0xFF])
  else
    (s, [])

/-- The edge strips of the specification: the row strip and then the column
strip when the creature is the player of the session, nothing otherwise. -/
def edgeStrips (w : WorldInterface) (s : Protocol71) (creature : Creature)
    (oldPosition newPosition : Position) : Protocol71 × List Nat :=
  if creature.creatureId = s.playerId then
    ((columnStrip w (rowStrip w s oldPosition newPosition).1 oldPosition newPosition).1,
      (rowStrip w s oldPosition newPosition).2
        ++ (columnStrip w (rowStrip w s oldPosition newPosition).1 oldPosition newPosition).2)
  else
    (s, [])

/-- The equipment records of the slots 1 to 10, in ascending order. -/
def equipmentBytes (player : Player) : List Nat :=
  ((List.range' 1 10).map
    (fun i => (Protocol71.addEquipment player i OutgoingPacket.empty).bytes)).flatten

/-- The player-spawn packet of the specification for a session `s` whose
player id is already the one of the player. -/
def playerSpawnBytes (w : WorldInterface) (s : Protocol71) (player : Player)
    (position : Position) (loginMessage : List Nat) : List Nat :=
  [0x0A] ++ wireBytesU32 player.creature.creatureId ++ [0x32, 0x00] ++ [0x64]
    ++ wireBytesPosition position
    ++ mapDataBytes w s
        (Position.ofInts ((position.x : Int) - 8) ((position.y : Int) - 6) (position.z : Int))
        18 14
    ++ List.replicate 12 0xFF
    ++ [0xE4, 0xFF]
    ++ [0x83] ++ wireBytesPosition position ++ [0x0A]
    ++ [0xA0] ++ wireBytesU16 player.creature.health ++ wireBytesU16 player.creature.maxHealth
    ++ wireBytesU16 player.capacity ++ wireBytesU32 player.experience ++ [player.level % 256]
    ++ wireBytesU16 player.mana ++ wireBytesU16 player.maxMana ++ [player.magicLevel % 256]
    ++ [0x82, 0x6F, 0xD7]
    ++ [0xA1] ++ List.replicate 7 10
    ++ equipmentBytes player
    ++ [0xB4, 0x11] ++ wireBytesString loginMessage

/-! ## The map blocks that `Protocol71` requests from the world -/

/-- A call `getMapBlock(position, width, height)` on the world. -/
structure MapBlockRequest where
  position : Position
  width : Nat
  height : Nat
  deriving DecidableEq, Repr

/-- Modelled from the spec: `WorldInterface::getMapBlock` is not part of the
sources; the block with top-left corner `position` holds the tiles at
`(position.x + i, position.y + j)` for `i < width` and `j < height`, column by
column, which is the order in which `addMapData` walks the block. -/
def MapBlockRequest.positions (r : MapBlockRequest) : List (Nat × Nat) :=
  ((List.range r.width).map
    (fun i => (List.range r.height).map (fun j => (r.position.x + i, r.position.y + j)))).flatten

/-- The calls of `getMapBlock` that `onCreatureMove` makes through
`addMapData`, in the order of the calls: the arguments of the `addMapData`
calls in the block `if (creature.getCreatureId() == playerId_) { ... }`. -/
def Protocol71.onCreatureMoveRequests (s : Protocol71) (creature : Creature)
    (oldPosition newPosition : Position) : List MapBlockRequest :=
  if creature.creatureId = s.playerId then
    (if oldPosition.y > newPosition.y then
      [{ position := Position.ofInts ((oldPosition.x : Int) - 8) ((newPosition.y : Int) - 6) 7,
         width := 18, height := 1 }]
    else if oldPosition.y < newPosition.y then
      [{ position := Position.ofInts ((oldPosition.x : Int) - 8) ((newPosition.y : Int) + 7) 7,
         width := 18, height := 1 }]
    else
      [])
    ++
    (if oldPosition.x > newPosition.x then
      [{ position := Position.ofInts ((newPosition.x : Int) - 8) ((newPosition.y : Int) - 6) 7,
         width := 1, height := 14 }]
    else if oldPosition.x < newPosition.x then
      [{ position := Position.ofInts ((newPosition.x : Int) + 9) ((newPosition.y : Int) - 6) 7,
         width := 1, height := 14 }]
    else
      [])
  else
    []

/-- The call of `getMapBlock` that `onPlayerSpawn` makes through `addMapData`. -/
def Protocol71.onPlayerSpawnRequest (position : Position) : MapBlockRequest :=
  { position :=
      Position.ofInts ((position.x : Int) - 8) ((position.y : Int) - 6) (position.z : Int)
    width := 18, height := 14 }

/-- Two worlds answer a request alike. -/
def WorldInterface.sameBlock (w1 w2 : WorldInterface) (r : MapBlockRequest) : Prop :=
  w1.getMapBlock r.position r.width r.height = w2.getMapBlock r.position r.width r.height

/-- No creature id other than `INVALID_ID` occurs in two slots of the
known-creature cache. -/
def Protocol71.cacheDistinct (known : List Nat) : Prop :=
  ∀ i < known.length, ∀ j < known.length, i ≠ j → known[i]? = known[j]? →
    known[i]? = some Creature.INVALID_ID

/-! ## The opcode table of the specification, and concrete inputs -/

/-- The opcodes of the inbound opcode table of the specification (section
4.8), in the order of the table. -/
def specInboundOpcodes : List Nat :=
  [0x0A, 0x14, 0x64, 0x65, 0x66, 0x67, 0x68, 0x69, 0x6F, 0x70, 0x71, 0x72, 0x78, 0x82, 0x87,
    0x8C, 0x96, 0xBE]

/-- A packet of length 1 holding the byte 0x34, in front of memory that holds
the byte `beyond` at every later address. -/
def shortPacket (beyond : Nat) : IncomingPacket :=
  IncomingPacket.create (fun i => if i = 0 then 0x34 else beyond) 1

/-- An account store without any character. -/
def noAccounts : AccountReader :=
  { characterExists := fun _ => false, verifyPassword := fun _ _ => false }

/-- A freshly constructed session on connection 7: connected, not logged in. -/
def freshSession : Protocol71 :=
  Protocol71.create 7 noAccounts

/-- A connected session on connection 7 that is logged in as player 42. -/
def loggedInSession : Protocol71 :=
  { Protocol71.create 7 noAccounts with playerId := 42 }

/-- The packet body `78 | 64 00 2C 01 07 | 23 01 | 02 | FF FF 04 00 00 | 09`:
move item 0x0123 from stack position 2 of the tile (100, 300, 7) to inventory
slot 4, count 9. -/
def moveItemPacket : IncomingPacket :=
  IncomingPacket.ofBytes
    [0x78, 0x64, 0x00, 0x2C, 0x01, 0x07, 0x23, 0x01, 0x02, 0xFF, 0xFF, 0x04, 0x00, 0x00, 0x09]

/-- The packet body `8C | 64 00 2C 01 07 | 23 01 | 02`: a look at item 0x0123
at stack position 2 of the tile (100, 300, 7). -/
def lookAtPacket : IncomingPacket :=
  IncomingPacket.ofBytes [0x8C, 0x64, 0x00, 0x2C, 0x01, 0x07, 0x23, 0x01, 0x02]

/-- The packet body `8C | FF FF 04 00 00 | 56 04 | 00`: a look at item 0x0456
in inventory slot 4. -/
def lookAtInventoryPacket : IncomingPacket :=
  IncomingPacket.ofBytes [0x8C, 0xFF, 0xFF, 0x04, 0x00, 0x00, 0x56, 0x04, 0x00]

/-- The packet body `96 | 06 | 03 00 "Bob" | 02 00 "Hi"`: a private message. -/
def sayPrivatePacket : IncomingPacket :=
  IncomingPacket.ofBytes [0x96, 0x06, 0x03, 0x00, 66, 111, 98, 0x02, 0x00, 72, 105]

/-- The packet body `96 | 07 | 05 03 | 02 00 "Hi"`: a message on channel 0x0305. -/
def sayChannelPacket : IncomingPacket :=
  IncomingPacket.ofBytes [0x96, 0x07, 0x05, 0x03, 0x02, 0x00, 72, 105]

/-- An account store with the one character `Hero`, whose password is `pw`. -/
def heroAccounts : AccountReader :=
  { characterExists := fun name => name == [72, 101, 114, 111]
    verifyPassword := fun name password => name == [72, 101, 114, 111] && password == [112, 119] }

/-- The packet body `0A | 02 | 01 | C7 02 | 00 | 04 00 "Hero" | 02 00 "pw"`. -/
def loginPacket : IncomingPacket :=
  IncomingPacket.ofBytes
    [0x0A, 0x02, 0x01, 0xC7, 0x02, 0x00, 0x04, 0x00, 72, 101, 114, 111, 0x02, 0x00, 112, 119]

/-- The packet body `0A | 02 | 01 | C7 02 | 00 | 04 00 "Hero" | 02 00 "px"`. -/
def loginWrongPasswordPacket : IncomingPacket :=
  IncomingPacket.ofBytes
    [0x0A, 0x02, 0x01, 0xC7, 0x02, 0x00, 0x04, 0x00, 72, 101, 114, 111, 0x02, 0x00, 112, 120]

/-- A rat: creature 100 with 50 of 100 health points, facing south. -/
def rat : Creature :=
  { creatureId := 100, name := [82, 97, 116], health := 50, maxHealth := 100, direction := 2,
    outfit := { type := 21, head := 0, body := 0, legs := 0, feet := 0 }, speed := 300 }

/-- A session logged in as player 42 whose 64 known-creature slots hold the
ids 1 to 64. -/
def fullCacheSession : Protocol71 :=
  { Protocol71.create 7 noAccounts with
    playerId := 42, knownCreatures := (List.range 64).map (fun i => i + 1) }

/-- A world without tiles in which player 42 stands at (100, 100, 7) and
every other creature is the rat. -/
def emptyWorld : WorldInterface :=
  { getCreaturePosition := fun _ => { x := 100, y := 100, z := 7 }
    getCreature := fun _ => rat
    getMapBlock := fun _ width height => List.replicate (width * height) none }

/-- The character `Hero` on the world `Default` at 127.0.0.1, port 7172. -/
def hero : Character :=
  { name := [72, 101, 114, 111], worldName := [68, 101, 102, 97, 117, 108, 116],
    worldIp := 0x0100007F, worldPort := 7172 }

/-- A login server with the motd `Hi` whose account store holds account 1 with
password `pw`, the character `Hero` and no premium days, and account 2 with
password `pw` and 256 copies of the character `Hero`. -/
def heroLoginServer : LoginServer :=
  { accountReader :=
      { accountExists := fun number => number == 1 || number == 2
        verifyPassword := fun number password =>
          (number == 1 || number == 2) && password == [112, 119]
        getAccount := fun number =>
          if number = 2 then { characters := List.replicate 256 hero, premiumDays := 0 }
          else { characters := [hero], premiumDays := 0 } }
    motd := [72, 105]
    trace := [] }

/-- The packet body `01 | 02 00 | C7 02 | 12 zero bytes | account:u32 |
password:string` of the login server. -/
def loginServerPacket (accountNumber : Nat) (password : List Nat) : IncomingPacket :=
  IncomingPacket.ofBytes
    ([0x01, 0x02, 0x00, 0xC7, 0x02] ++ List.replicate 12 0 ++ wireBytesU32 accountNumber
      ++ wireBytesString password)

/-- The body `01 | 02 00 | C7 02 | 12 zero bytes | account:u32 |
password:string` of a login message of the login server. -/
def loginMessageBytes (accountNumber : Nat) (password : List Nat) : List Nat :=
  [0x01, 0x02, 0x00, 0xC7, 0x02] ++ List.replicate 12 0 ++ wireBytesU32 accountNumber
    ++ wireBytesString password

/-- A frame of the login server that starts with the opcode 0x02 and goes on
with a login message for the account 5, which does not exist. -/
def unknownThenLoginFrame : IncomingPacket :=
  IncomingPacket.ofBytes ([0x02] ++ loginMessageBytes 5 [112, 119])

/-- A frame of the login server that holds two login messages, the first for
the account 5, which does not exist, the second for the account 1 with a wrong
password. -/
def twoLoginsFrame : IncomingPacket :=
  IncomingPacket.ofBytes (loginMessageBytes 5 [112, 119] ++ loginMessageBytes 1 [120])

/-- A frame of the login server with three opcode bytes, none of them 0x01. -/
def unknownOpcodesFrame : IncomingPacket :=
  IncomingPacket.ofBytes [0x02, 0xFF, 0x00]

/-- A world without tiles in which player 42 stands at (100, 99, 7): the empty
world after a step of the player to the north. -/
def emptyWorldNorth : WorldInterface :=
  { emptyWorld with getCreaturePosition := fun _ => { x := 100, y := 99, z := 7 } }

/-- A session logged in as player 42 whose cache has three slots and holds the
creature 7 in the first one. -/
def smallCacheSession : Protocol71 :=
  { Protocol71.create 7 noAccounts with playerId := 42, knownCreatures := [7, 0, 0] }

/-- A session logged in as player 42 that has the rat in slot 0 of its cache:
the fresh cache after one `addCreature` for the rat. -/
def ratKnownSession : Protocol71 :=
  { Protocol71.create 7 noAccounts with
    playerId := 42, knownCreatures := 100 :: List.replicate 63 Creature.INVALID_ID }

/-- A ground item: grass. -/
def grass : Item :=
  { itemId := 102, stackable := false, count := 0, multitype := false, subtype := 0,
    alwaysOnTop := false, name := [103, 114, 97, 115, 115], maxitems := none }

/-- An item that is always on top: a ladder. -/
def ladder : Item :=
  { itemId := 1386, stackable := false, count := 0, multitype := false, subtype := 0,
    alwaysOnTop := true, name := [108, 97, 100, 100, 101, 114], maxitems := none }

/-- A stack of `count` gold coins. -/
def coins (count : Nat) : Item :=
  { itemId := 2148, stackable := true, count := count, multitype := false, subtype := 0,
    alwaysOnTop := false, name := [103, 111, 108, 100], maxitems := none }

/-- A tile with grass only. -/
def grassTile : Tile :=
  { ground := grass, items := [], creatureIds := [] }

/-- A tile with thirteen entries: grass, two ladders, the rat, and nine stacks
of 1 to 9 gold coins. -/
def crowdedTile : Tile :=
  { ground := grass
    items := [ladder, ladder] ++ (List.range 9).map (fun k => coins (k + 1))
    creatureIds := [100] }

/-- A world in which player 42 stands at (100, 100, 7), every other creature
is the rat, and every block holds a grass tile at its even indexes and no tile
at its odd indexes. -/
def meadow : WorldInterface :=
  { getCreaturePosition := fun _ => { x := 100, y := 100, z := 7 }
    getCreature := fun _ => rat
    getMapBlock := fun _ width height =>
      (List.range (width * height)).map (fun i => if i % 2 = 0 then some grassTile else none) }

/-- A world in which player 42 stands at (100, 100, 7), every other creature
is the rat, and every block holds a grass tile followed by crowded tiles. -/
def crowdedWorld : WorldInterface :=
  { getCreaturePosition := fun _ => { x := 100, y := 100, z := 7 }
    getCreature := fun _ => rat
    getMapBlock := fun _ width height =>
      (List.range (width * height)).map
        (fun i => if i = 0 then some grassTile else some crowdedTile) }

/-- The creature of player 42. -/
def heroCreature : Creature :=
  { creatureId := 42, name := [72, 101, 114, 111], health := 150, maxHealth := 150,
    direction := 2, outfit := { type := 128, head := 10, body := 20, legs := 30, feet := 40 },
    speed := 220 }

/-- The player 42, who carries three gold coins in slot 6 and nothing else. -/
def heroPlayer : Player :=
  { creature := heroCreature, capacity := 400, experience := 4200, level := 8, mana := 35,
    maxMana := 40, magicLevel := 1
    equipment := fun i => if i = 6 then some (coins 3) else none }

/-! ## Lemmas on the codec -/

namespace IncomingPacket

theorem byteAt_lt (p : IncomingPacket) (i : Nat) : p.byteAt i < 256 :=
  Nat.mod_lt _ (by decide)

@[simp] theorem advance_position (p : IncomingPacket) (n : Nat) :
    (p.advance n).position = p.position + n := rfl

@[simp] theorem advance_length (p : IncomingPacket) (n : Nat) :
    (p.advance n).length = p.length := rfl

@[simp] theorem advance_buffer (p : IncomingPacket) (n : Nat) :
    (p.advance n).buffer = p.buffer := rfl

@[simp] theorem byteAt_advance (p : IncomingPacket) (n i : Nat) :
    (p.advance n).byteAt i = p.byteAt i := rfl

@[simp] theorem bytesFrom_advance (p : IncomingPacket) (n start k : Nat) :
    (p.advance n).bytesFrom start k = p.bytesFrom start k := rfl

@[simp] theorem advance_advance (p : IncomingPacket) (a b : Nat) :
    (p.advance a).advance b = p.advance (a + b) := by
  simp [advance, Nat.add_assoc]

@[simp] theorem advance_zero (p : IncomingPacket) : p.advance 0 = p := rfl

set_option maxRecDepth 100000 in
theorem shift8_mask : ∀ b, b < 256 → (b <<< 8) &&& 0xFF00 = 256 * b := by decide

set_option maxRecDepth 100000 in
theorem shift8_mask32 : ∀ b, b < 256 → ((b <<< 8) % 4294967296) &&& 0xFF00 = 256 * b := by
  decide

set_option maxRecDepth 100000 in
theorem shift16_mask32 :
    ∀ b, b < 256 → ((b <<< 16) % 4294967296) &&& 0xFF0000 = 65536 * b := by decide

set_option maxRecDepth 100000 in
theorem shift24_mask32 :
    ∀ b, b < 256 → ((b <<< 24) % 4294967296) &&& 0xFF000000 = 16777216 * b := by decide

theorem lor_mul_256 (a b : Nat) (h : a < 256) : a ||| 256 * b = a + 256 * b := by
  have h2 := Nat.mul_add_lt_is_or (i := 8) (b := a) (by simpa using h) b
  rw [Nat.lor_comm, ← h2]; omega

theorem lor_mul_65536 (a b : Nat) (h : a < 65536) : a ||| 65536 * b = a + 65536 * b := by
  have h2 := Nat.mul_add_lt_is_or (i := 16) (b := a) (by simpa using h) b
  rw [Nat.lor_comm, ← h2]; omega

theorem lor_mul_16777216 (a b : Nat) (h : a < 16777216) :
    a ||| 16777216 * b = a + 16777216 * b := by
  have h2 := Nat.mul_add_lt_is_or (i := 24) (b := a) (by simpa using h) b
  rw [Nat.lor_comm, ← h2]; omega

/-- The value `peekU16` computes is the little-endian value of two bytes. -/
theorem peekU16_value (p : IncomingPacket) :
    p.peekU16.1 = p.byteAt p.position + 256 * p.byteAt (p.position + 1) := by
  have h0 := p.byteAt_lt p.position
  have h1 := p.byteAt_lt (p.position + 1)
  simp only [peekU16]
  rw [shift8_mask _ h1, lor_mul_256 _ _ h0]
  omega

/-- The value `peekU32` computes is the little-endian value of four bytes. -/
theorem peekU32_value (p : IncomingPacket) :
    p.peekU32.1 = p.byteAt p.position + 256 * p.byteAt (p.position + 1)
      + 65536 * p.byteAt (p.position + 2) + 16777216 * p.byteAt (p.position + 3) := by
  have h0 := p.byteAt_lt p.position
  have h1 := p.byteAt_lt (p.position + 1)
  have h2 := p.byteAt_lt (p.position + 2)
  have h3 := p.byteAt_lt (p.position + 3)
  simp only [peekU32]
  rw [shift8_mask32 _ h1, shift16_mask32 _ h2, shift24_mask32 _ h3, lor_mul_256 _ _ h0,
    lor_mul_65536 _ _ (by omega), lor_mul_16777216 _ _ (by omega)]
  omega

@[simp] theorem peekU16_snd (p : IncomingPacket) : p.peekU16.2 = p := rfl

@[simp] theorem getU8_fst (p : IncomingPacket) : p.getU8.1 = p.byteAt p.position := rfl

@[simp] theorem getU8_snd (p : IncomingPacket) : p.getU8.2 = p.advance 1 := rfl

@[simp] theorem getU16_fst (p : IncomingPacket) : p.getU16.1 = p.peekU16.1 := rfl

@[simp] theorem getU16_snd (p : IncomingPacket) : p.getU16.2 = p.advance 2 := rfl

@[simp] theorem getU32_fst (p : IncomingPacket) : p.getU32.1 = p.peekU32.1 := rfl

@[simp] theorem getU32_snd (p : IncomingPacket) : p.getU32.2 = p.advance 4 := rfl

@[simp] theorem getString_fst (p : IncomingPacket) :
    p.getString.1 = p.bytesFrom (p.position + 2) p.peekU16.1 := rfl

@[simp] theorem getString_snd (p : IncomingPacket) :
    p.getString.2 = p.advance (2 + p.peekU16.1) := by
  simp [getString, getU16]

@[simp] theorem bytesFrom_length (p : IncomingPacket) (start n : Nat) :
    (p.bytesFrom start n).length = n := by
  simp [bytesFrom]

theorem bytesFrom_succ (p : IncomingPacket) (start n : Nat) :
    p.bytesFrom start (n + 1) = p.byteAt start :: p.bytesFrom (start + 1) n := by
  simp [bytesFrom, List.range_succ_eq_map, Nat.add_comm 1, Nat.add_assoc]

/-- A list of bytes read off the buffer one by one is what `bytesFrom` copies. -/
theorem bytesFrom_eq_of_get (p : IncomingPacket) (start : Nat) (body : List Nat)
    (h : ∀ i (hi : i < body.length), p.byteAt (start + i) = body.get ⟨i, hi⟩) :
    p.bytesFrom start body.length = body := by
  apply List.ext_get
  · simp
  · intro i h1 h2
    simp [bytesFrom, h i h2]

end IncomingPacket

/-! ## The codec: reads, peeks, strings, positions -/

/-- C1: with at least 1/2/4 bytes left after the cursor, `getU8`, `getU16` and
`getU32` return the little-endian value of the next 1/2/4 bytes and move the
cursor forward by exactly 1/2/4, changing nothing else. -/
theorem get_little_endian (p : IncomingPacket) :
    (p.position + 1 ≤ p.length →
      p.getU8 = (p.byteAt p.position, { p with position := p.position + 1 })) ∧
    (p.position + 2 ≤ p.length →
      p.getU16 = (p.byteAt p.position + 256 * p.byteAt (p.position + 1),
        { p with position := p.position + 2 })) ∧
    (p.position + 4 ≤ p.length →
      p.getU32 = (p.byteAt p.position + 256 * p.byteAt (p.position + 1)
          + 65536 * p.byteAt (p.position + 2) + 16777216 * p.byteAt (p.position + 3),
        { p with position := p.position + 4 })) := by
  refine ⟨fun _ => rfl, fun _ => ?_, fun _ => ?_⟩
  · exact Prod.ext (by rw [IncomingPacket.getU16_fst, IncomingPacket.peekU16_value]) rfl
  · exact Prod.ext (by rw [IncomingPacket.getU32_fst, IncomingPacket.peekU32_value]) rfl

/-- The reads of C1 on the four bytes 78 56 34 12 (hexadecimal). -/
theorem get_little_endian_witness :
    (IncomingPacket.ofBytes [0x78, 0x56, 0x34, 0x12]).getU8.1 = 0x78 ∧
    (IncomingPacket.ofBytes [0x78, 0x56, 0x34, 0x12]).getU16.1 = 0x5678 ∧
    (IncomingPacket.ofBytes [0x78, 0x56, 0x34, 0x12]).getU32.1 = 0x12345678 ∧
    (IncomingPacket.ofBytes [0x78, 0x56, 0x34, 0x12]).getU32.2.position = 4 := by
  have h := get_little_endian (IncomingPacket.ofBytes [0x78, 0x56, 0x34, 0x12])
  have h8 := h.1 (by decide)
  have h16 := h.2.1 (by decide)
  have h32 := h.2.2 (by decide)
  rw [h8, h16, h32]
  exact ⟨rfl, rfl, rfl, rfl⟩

/-- C2 fails: on a packet with one byte left, `getU16` reports nothing and
returns a value whose high byte is whatever lies behind the buffer, and the
cursor ends up past the end of the packet. -/
theorem getU16_reads_past_end :
    (shortPacket 0x12).position + 2 > (shortPacket 0x12).length ∧
    (shortPacket 0x12).getU16.1 = 0x1234 ∧
    (shortPacket 0x56).getU16.1 = 0x5634 ∧
    (shortPacket 0x12).getU16.2.position = 2 ∧
    (shortPacket 0x12).getU16.2.length = 1 := by
  decide

/-- C2, amended: no read checks the cursor against the length. Whatever the
cursor and the length, each read returns the value built from the `k` bytes at
the buffer addresses from the cursor on (for `getString`, the `n` bytes after
the u16 length `n`) and moves the cursor forward by `k`, past the length if
need be. -/
theorem reads_are_unchecked (p : IncomingPacket) (n : Nat) :
    p.getU8 = (p.byteAt p.position, { p with position := p.position + 1 }) ∧
    p.getU16 = (p.byteAt p.position + 256 * p.byteAt (p.position + 1),
      { p with position := p.position + 2 }) ∧
    p.getU32 = (p.byteAt p.position + 256 * p.byteAt (p.position + 1)
        + 65536 * p.byteAt (p.position + 2) + 16777216 * p.byteAt (p.position + 3),
      { p with position := p.position + 4 }) ∧
    p.getBytes n = ((List.range n).map (fun i => p.byteAt (p.position + i)),
      { p with position := p.position + n }) ∧
    p.getString =
      ((List.range (p.byteAt p.position + 256 * p.byteAt (p.position + 1))).map
          (fun i => p.byteAt (p.position + 2 + i)),
        { p with position :=
            p.position + (2 + (p.byteAt p.position + 256 * p.byteAt (p.position + 1))) }) := by
  refine ⟨rfl, ?_, ?_, rfl, ?_⟩
  · exact Prod.ext (by rw [IncomingPacket.getU16_fst, IncomingPacket.peekU16_value]) rfl
  · exact Prod.ext (by rw [IncomingPacket.getU32_fst, IncomingPacket.peekU32_value]) rfl
  · refine Prod.ext ?_ ?_
    · rw [IncomingPacket.getString_fst, IncomingPacket.peekU16_value]; rfl
    · rw [IncomingPacket.getString_snd, IncomingPacket.peekU16_value]; rfl

/-- C3: the peeks return the packet as it was, and each `get` returns the value
of the corresponding peek together with the packet whose cursor has moved by
1/2/4/n and whose buffer and length are untouched. -/
theorem peek_keeps_cursor_get_agrees (p : IncomingPacket) (n : Nat) :
    p.peekU8.2 = p ∧ p.peekU16.2 = p ∧ p.peekU32.2 = p ∧ (p.peekBytes n).2 = p ∧
    p.getU8 = (p.peekU8.1, { p with position := p.position + 1 }) ∧
    p.getU16 = (p.peekU16.1, { p with position := p.position + 2 }) ∧
    p.getU32 = (p.peekU32.1, { p with position := p.position + 4 }) ∧
    p.getBytes n = ((p.peekBytes n).1, { p with position := p.position + n }) :=
  ⟨rfl, rfl, rfl, rfl, rfl, rfl, rfl, rfl⟩

/-- C4: when the bytes at the cursor are the little-endian u16 length of
`body` followed by the bytes of `body`, all inside the packet, `getString`
returns `body` itself and moves the cursor forward by `2 + body.length`. -/
theorem getString_returns_raw_bytes (p : IncomingPacket) (body : List Nat)
    (hlen : p.byteAt p.position + 256 * p.byteAt (p.position + 1) = body.length)
    (hbody : ∀ i (hi : i < body.length), p.byteAt (p.position + 2 + i) = body.get ⟨i, hi⟩)
    (_hfits : p.position + 2 + body.length ≤ p.length) :
    p.getString = (body, { p with position := p.position + (2 + body.length) }) := by
  refine Prod.ext ?_ ?_
  · rw [IncomingPacket.getString_fst, IncomingPacket.peekU16_value, hlen]
    exact IncomingPacket.bytesFrom_eq_of_get p _ body hbody
  · rw [IncomingPacket.getString_snd, IncomingPacket.peekU16_value, hlen]; rfl

/-- C4 on a string with an embedded zero byte, after one byte already read. -/
theorem getString_returns_raw_bytes_witness :
    ((IncomingPacket.ofBytes [9, 3, 0, 65, 0, 66, 7]).advance 1).getString
      = ([65, 0, 66], (IncomingPacket.ofBytes [9, 3, 0, 65, 0, 66, 7]).advance 6) :=
  getString_returns_raw_bytes ((IncomingPacket.ofBytes [9, 3, 0, 65, 0, 66, 7]).advance 1)
    [65, 0, 66] (by decide) (by decide) (by decide)

/-- The five bytes `addPosition` appends. -/
theorem addPosition_bytes (pos : Position) (out : OutgoingPacket) :
    (Protocol71.addPosition pos out).bytes
      = out.bytes ++ [pos.x % 256, pos.x / 256 % 256, pos.y % 256, pos.y / 256 % 256,
          pos.z % 256] := by
  simp [Protocol71.addPosition, OutgoingPacket.addU16, OutgoingPacket.addU8]

/-- What `getPosition` returns, in terms of the bytes at the cursor. -/
theorem getPosition_eq (p : IncomingPacket) :
    Protocol71.getPosition p
      = ({ x := p.byteAt p.position + 256 * p.byteAt (p.position + 1)
           y := p.byteAt (p.position + 2) + 256 * p.byteAt (p.position + 3)
           z := p.byteAt (p.position + 4) }, p.advance 5) := by
  have h1 := p.peekU16_value
  have h2 := (p.advance 2).peekU16_value
  simp only [IncomingPacket.advance_position, IncomingPacket.byteAt_advance] at h2
  refine Prod.ext ?_ rfl
  show Position.mk p.peekU16.1 (p.advance 2).peekU16.1 _ = _
  rw [h1, h2]
  rfl

/-- C5: for a position with `x`, `y` below 2^16 and `z` below 2^8,
`addPosition` writes five bytes (x little-endian, y little-endian, z) on an
empty outgoing packet, and `getPosition` on a fresh incoming packet that starts
with these bytes returns the same position with the cursor at 5. -/
theorem position_roundtrip (pos : Position) (rest : List Nat)
    (hx : pos.x < 65536) (hy : pos.y < 65536) (hz : pos.z < 256) :
    (Protocol71.addPosition pos OutgoingPacket.empty).bytes
      = [pos.x % 256, pos.x / 256, pos.y % 256, pos.y / 256, pos.z] ∧
    Protocol71.getPosition
        (IncomingPacket.ofBytes ((Protocol71.addPosition pos OutgoingPacket.empty).bytes ++ rest))
      = (pos,
          { IncomingPacket.ofBytes
              ((Protocol71.addPosition pos OutgoingPacket.empty).bytes ++ rest) with
            position := 5 }) := by
  have hb : (Protocol71.addPosition pos OutgoingPacket.empty).bytes
      = [pos.x % 256, pos.x / 256, pos.y % 256, pos.y / 256, pos.z] := by
    rw [addPosition_bytes]
    simp only [OutgoingPacket.empty, List.nil_append]
    rw [Nat.mod_eq_of_lt (show pos.x / 256 < 256 by omega),
      Nat.mod_eq_of_lt (show pos.y / 256 < 256 by omega), Nat.mod_eq_of_lt hz]
  refine ⟨hb, ?_⟩
  rw [hb, getPosition_eq]
  refine Prod.ext ?_ ?_
  · obtain ⟨x, y, z⟩ := pos
    simp only [IncomingPacket.ofBytes, IncomingPacket.create, IncomingPacket.byteAt,
      List.cons_append, List.getD_cons_zero, List.getD_cons_succ, Nat.zero_add] at *
    simp only [Position.mk.injEq]
    omega
  · simp [IncomingPacket.advance, IncomingPacket.ofBytes, IncomingPacket.create]

/-- C5 at the position (100, 300, 7). -/
theorem position_roundtrip_witness :
    (Protocol71.addPosition { x := 100, y := 300, z := 7 } OutgoingPacket.empty).bytes
      = [100, 0, 44, 1, 7] ∧
    (Protocol71.getPosition
        (IncomingPacket.ofBytes
          ((Protocol71.addPosition { x := 100, y := 300, z := 7 } OutgoingPacket.empty).bytes
            ++ [0x65]))).1 = { x := 100, y := 300, z := 7 } := by
  have h := position_roundtrip { x := 100, y := 300, z := 7 } [0x65]
    (by decide) (by decide) (by decide)
  exact ⟨h.1, by rw [h.2]⟩

/-! ## Lemmas on `parsePacket` -/

namespace Protocol71

@[simp] theorem getPosition_snd (p : IncomingPacket) : (getPosition p).2 = p.advance 5 := rfl

@[simp] theorem addTask_playerId (s : Protocol71) (t : EngineTask) :
    (s.addTask t).playerId = s.playerId := rfl

@[simp] theorem addTask_connected (s : Protocol71) (t : EngineTask) :
    (s.addTask t).connected = s.connected := rfl

@[simp] theorem addTask_isLoggedIn (s : Protocol71) (t : EngineTask) :
    (s.addTask t).isLoggedIn = s.isLoggedIn := rfl

@[simp] theorem addTask_isConnected (s : Protocol71) (t : EngineTask) :
    (s.addTask t).isConnected = s.isConnected := rfl

/-- The loop of `parseMoveClick` appends the next `n` bytes, in order. -/
theorem parseMoveClickLoop_eq (n : Nat) (moves : List Nat) (p : IncomingPacket) :
    parseMoveClickLoop n moves p = (moves ++ p.bytesFrom p.position n, p.advance n) := by
  induction n generalizing moves p with
  | zero => simp [parseMoveClickLoop, IncomingPacket.bytesFrom]
  | succ n ih =>
    simp only [parseMoveClickLoop, ih, IncomingPacket.getU8_fst, IncomingPacket.getU8_snd,
      IncomingPacket.advance_position, IncomingPacket.bytesFrom_advance,
      IncomingPacket.advance_advance, IncomingPacket.bytesFrom_succ, List.append_assoc,
      List.singleton_append, Nat.add_comm 1 n]

/-- The packet `parseMoveClick` leaves: one byte further for the length, and
then as many bytes as the length says. -/
theorem parseMoveClick_packet (s : Protocol71) (p : IncomingPacket) :
    (parseMoveClick s p).2 = p.advance (1 + p.byteAt p.position) := by
  unfold parseMoveClick
  by_cases h : p.byteAt p.position = 0
  · simp [h]
  · simp [h, parseMoveClickLoop_eq]

/-- Whatever the form of the two item positions, `parseMoveItem` leaves the
cursor 14 bytes further. -/
theorem parseMoveItem_packet (s : Protocol71) (p : IncomingPacket) :
    (parseMoveItem s p).2 = p.advance 14 := by
  unfold parseMoveItem
  split_ifs <;> simp <;> split <;> rfl

/-- Whatever the form of the item position, `parseUseItem` leaves the cursor 9
bytes further. -/
theorem parseUseItem_packet (s : Protocol71) (p : IncomingPacket) :
    (parseUseItem s p).2 = p.advance 9 := by
  unfold parseUseItem
  split_ifs <;> simp

/-- Whatever the form of the item position, `parseLookAt` leaves the cursor 8
bytes further. -/
theorem parseLookAt_packet (s : Protocol71) (p : IncomingPacket) :
    (parseLookAt s p).2 = p.advance 8 := by
  unfold parseLookAt
  split_ifs <;> simp

/-- The packet `parseSay` leaves has the same buffer and length, and its cursor
has not moved backwards. -/
theorem parseSay_packet (s : Protocol71) (p : IncomingPacket) :
    ∃ k, (parseSay s p).2 = p.advance k := by
  unfold parseSay
  simp only [IncomingPacket.getU8, IncomingPacket.peekU8]
  split_ifs
  · exact ⟨_, by simp; rfl⟩
  · exact ⟨_, by simp; rfl⟩
  · exact ⟨_, by simp; rfl⟩

/-- Every case of the switch leaves the buffer and the length of the packet
alone and does not move the cursor backwards. -/


theorem parsePacketSwitch_packet (s : Protocol71) (packetId : Nat) (p : IncomingPacket) :
    ∃ k, (parsePacketSwitch s packetId p).2.1 = p.advance k := by
  unfold parsePacketSwitch
  by_cases h1 : packetId = 0x14
  · rw [if_pos h1]; exact ⟨0, rfl⟩
  rw [if_neg h1]
  by_cases h2 : packetId = 0x64
  · rw [if_pos h2]; exact ⟨_, parseMoveClick_packet s p⟩
  rw [if_neg h2]
  by_cases h3 : packetId = 0x65 ∨ packetId = 0x66 ∨ packetId = 0x67 ∨ packetId = 0x68
  · rw [if_pos h3]; exact ⟨0, rfl⟩
  rw [if_neg h3]
  by_cases h4 : packetId = 0x69
  · rw [if_pos h4]; exact ⟨0, rfl⟩
  rw [if_neg h4]
  by_cases h5 : packetId = 0x6F ∨ packetId = 0x70 ∨ packetId = 0x71 ∨ packetId = 0x72
  · rw [if_pos h5]; exact ⟨0, rfl⟩
  rw [if_neg h5]
  by_cases h6 : packetId = 0x78
  · rw [if_pos h6]; exact ⟨_, parseMoveItem_packet s p⟩
  rw [if_neg h6]
  by_cases h7 : packetId = 0x82
  · rw [if_pos h7]; exact ⟨_, parseUseItem_packet s p⟩
  rw [if_neg h7]
  by_cases h8 : packetId = 0x8C
  · rw [if_pos h8]; exact ⟨_, parseLookAt_packet s p⟩
  rw [if_neg h8]
  by_cases h9 : packetId = 0x96
  · rw [if_pos h9]; exact parseSay_packet s p
  rw [if_neg h9]
  by_cases h10 : packetId = 0xBE
  · rw [if_pos h10]; exact ⟨0, rfl⟩
  rw [if_neg h10]
  exact ⟨0, rfl⟩

theorem parsePacketLoop_of_isEmpty (fuel : Nat) (s : Protocol71) (p : IncomingPacket)
    (h : p.isEmpty = true) : parsePacketLoop fuel s p = (s, p) := by
  cases fuel with
  | zero => rfl
  | succ n => simp [parsePacketLoop, h]

/-- One iteration of the loop on a packet that is not empty. -/
theorem parsePacketLoop_succ (fuel : Nat) (s : Protocol71) (p : IncomingPacket)
    (h : p.isEmpty = false) :
    parsePacketLoop (fuel + 1) s p
      = if (parsePacketSwitch s (p.byteAt p.position) (p.advance 1)).2.2 = true then
          parsePacketLoop fuel (parsePacketSwitch s (p.byteAt p.position) (p.advance 1)).1
            (parsePacketSwitch s (p.byteAt p.position) (p.advance 1)).2.1
        else
          ((parsePacketSwitch s (p.byteAt p.position) (p.advance 1)).1,
            (parsePacketSwitch s (p.byteAt p.position) (p.advance 1)).2.1) := by
  simp only [parsePacketLoop, h, IncomingPacket.getU8, IncomingPacket.peekU8]
  rfl

/-- The loop of `parsePacket` never needs more than `length - position`
iterations: any two amounts of fuel that reach this bound give the same
result, so the bound `parsePacket` passes is no restriction. -/
theorem parsePacketLoop_fuel (f1 f2 : Nat) (s : Protocol71) (p : IncomingPacket)
    (h1 : p.length - p.position ≤ f1) (h2 : p.length - p.position ≤ f2) :
    parsePacketLoop f1 s p = parsePacketLoop f2 s p := by
  induction f1 generalizing f2 s p with
  | zero =>
    have he : p.isEmpty = true := by simp [IncomingPacket.isEmpty]; omega
    rw [parsePacketLoop_of_isEmpty _ _ _ he, parsePacketLoop_of_isEmpty _ _ _ he]
  | succ n ih =>
    by_cases he : p.isEmpty = true
    · rw [parsePacketLoop_of_isEmpty _ _ _ he, parsePacketLoop_of_isEmpty _ _ _ he]
    · have he2 : p.isEmpty = false := by simpa using he
      have hlt : p.position < p.length := by
        simp [IncomingPacket.isEmpty] at he2; exact he2
      cases f2 with
      | zero => omega
      | succ m =>
        rw [parsePacketLoop_succ _ _ _ he2, parsePacketLoop_succ _ _ _ he2]
        obtain ⟨k, hk⟩ := parsePacketSwitch_packet s (p.byteAt p.position) (p.advance 1)
        split_ifs
        · apply ih
          · rw [hk]; simp; omega
          · rw [hk]; simp; omega
        · rfl

/-- On a logged-in, connected session `parsePacket` is the loop, with any
amount of fuel that reaches `length - position`. -/
theorem parsePacket_eq_loop (fuel : Nat) (s : Protocol71) (p : IncomingPacket)
    (hc : s.isConnected = true) (hl : s.isLoggedIn = true)
    (hf : p.length - p.position ≤ fuel) :
    parsePacket s p = parsePacketLoop fuel s p := by
  unfold parsePacket
  simp only [hc, hl, Bool.not_true, Bool.false_eq_true, if_false]
  exact parsePacketLoop_fuel _ _ s p (Nat.le_refl _) hf

/-- On an empty packet a connected, logged-in session does nothing. -/
theorem parsePacket_of_isEmpty (s : Protocol71) (p : IncomingPacket)
    (hc : s.isConnected = true) (hl : s.isLoggedIn = true) (he : p.isEmpty = true) :
    parsePacket s p = (s, p) := by
  rw [parsePacket_eq_loop 0 s p hc hl (by simp [IncomingPacket.isEmpty] at he; omega)]
  rfl

/-- When the switch handles the opcode at the cursor and carries on,
`parsePacket` is the handler followed by `parsePacket` on what is left,
provided the handler leaves the session connected and logged in. -/
theorem parsePacket_step (s s1 : Protocol71) (p p1 : IncomingPacket)
    (hc : s.isConnected = true) (hl : s.isLoggedIn = true) (he : p.isEmpty = false)
    (hsw : parsePacketSwitch s (p.byteAt p.position) (p.advance 1) = (s1, p1, true))
    (hc1 : s1.isConnected = true) (hl1 : s1.isLoggedIn = true) :
    parsePacket s p = parsePacket s1 p1 := by
  have hlt : p.position < p.length := by
    simp [IncomingPacket.isEmpty] at he; exact he
  obtain ⟨k, hk⟩ := parsePacketSwitch_packet s (p.byteAt p.position) (p.advance 1)
  rw [hsw] at hk
  simp only at hk
  rw [parsePacket_eq_loop (p.length - p.position - 1 + 1) s p hc hl (by omega),
    parsePacketLoop_succ _ _ _ he, hsw]
  simp only [if_true]
  rw [parsePacket_eq_loop (p.length - p.position - 1) s1 p1 hc1 hl1 (by rw [hk]; simp; omega)]

/-- An opcode that no case of the switch names ends `parsePacket`: the opcode
byte is consumed and nothing else happens. -/
theorem parsePacketLoop_default (fuel : Nat) (s : Protocol71) (p : IncomingPacket)
    (he : p.isEmpty = false)
    (hsw : parsePacketSwitch s (p.byteAt p.position) (p.advance 1) = (s, p.advance 1, false)) :
    parsePacketLoop (fuel + 1) s p = (s, p.advance 1) := by
  rw [parsePacketLoop_succ _ _ _ he, hsw]
  simp

/-- The `default` case of the switch. -/
theorem parsePacketSwitch_default (s : Protocol71) (packetId : Nat) (p : IncomingPacket)
    (h : packetId ∉ [0x14, 0x64, 0x65, 0x66, 0x67, 0x68, 0x69, 0x6F, 0x70, 0x71, 0x72, 0x78,
      0x82, 0x8C, 0x96, 0xBE]) :
    parsePacketSwitch s packetId p = (s, p, false) := by
  simp only [List.mem_cons, List.mem_singleton, List.not_mem_nil, not_or, or_false] at h
  obtain ⟨h1, h2, h3, h4, h5, h6, h7, h8, h9, h10, h11, h12, h13, h14, h15, h16⟩ := h
  unfold parsePacketSwitch
  rw [if_neg h1, if_neg h2, if_neg (by tauto), if_neg h7, if_neg (by tauto), if_neg h12,
    if_neg h13, if_neg h14, if_neg h15, if_neg h16]

/-- The case `0x64` of the switch for a path that is not empty. -/
theorem parseMoveClick_eq (s : Protocol71) (p : IncomingPacket)
    (h : p.byteAt p.position ≠ 0) :
    parseMoveClick s p
      = (s.addTask (EngineTask.playerMovePath s.playerId
            (p.bytesFrom (p.position + 1) (p.byteAt p.position))),
          p.advance (1 + p.byteAt p.position)) := by
  unfold parseMoveClick
  simp [h, parseMoveClickLoop_eq]

end Protocol71

/-! ## The world protocol: `parsePacket` -/

/-- C6: on a connected session that is not logged in, a packet whose first
byte is not 0x0A makes `parsePacket` call `closeConnection(connectionId, true)`
and nothing else (no task, no player added), with only that one byte consumed;
a first byte 0x0A hands the rest of the packet to `parseLogin`. -/
theorem parsePacket_before_login (s : Protocol71) (p : IncomingPacket)
    (hc : s.connected = true) (hl : s.playerId = Creature.INVALID_ID) :
    (p.byteAt p.position ≠ 0x0A →
      Protocol71.parsePacket s p
        = ({ s with trace := s.trace ++ [Effect.closeConnection s.connectionId true] },
            { p with position := p.position + 1 })) ∧
    (p.byteAt p.position = 0x0A →
      Protocol71.parsePacket s p
        = Protocol71.parseLogin s { p with position := p.position + 1 }) := by
  have hc2 : s.isConnected = true := hc
  have hl2 : s.isLoggedIn = false := by simp [Protocol71.isLoggedIn, hl]
  constructor
  · intro h
    unfold Protocol71.parsePacket
    simp only [hc2, hl2, Bool.not_true, Bool.not_false, Bool.false_eq_true, if_false, if_true]
    simp only [IncomingPacket.getU8, IncomingPacket.peekU8, h, if_false]
    rfl
  · intro h
    unfold Protocol71.parsePacket
    simp only [hc2, hl2, Bool.not_true, Bool.not_false, Bool.false_eq_true, if_false, if_true]
    simp only [IncomingPacket.getU8, IncomingPacket.peekU8, h, if_true]
    rfl

/-- C6 on a fresh session that receives the bytes 65 66 (hexadecimal): the
connection is force-closed and the cursor stands behind the first byte. -/
theorem parsePacket_before_login_witness :
    (Protocol71.parsePacket freshSession (IncomingPacket.ofBytes [0x65, 0x66])).1.trace
      = [Effect.closeConnection 7 true] ∧
    (Protocol71.parsePacket freshSession (IncomingPacket.ofBytes [0x65, 0x66])).2.position = 1 := by
  have h := (parsePacket_before_login freshSession (IncomingPacket.ofBytes [0x65, 0x66])
    rfl rfl).1 (by decide)
  rw [h]
  exact ⟨rfl, rfl⟩

/-- C7 fails: a logged-in session that receives the opcode 0xFF, which is not
in the inbound opcode table, makes no call at all, so it does not close the
connection. -/
theorem unknown_opcode_does_not_close :
    (0xFF : Nat) ∉ specInboundOpcodes ∧
    (Protocol71.parsePacket loggedInSession (IncomingPacket.ofBytes [0xFF, 0x65])).1.trace = [] ∧
    ¬ ∃ force, Effect.closeConnection loggedInSession.connectionId force
        ∈ (Protocol71.parsePacket loggedInSession (IncomingPacket.ofBytes [0xFF, 0x65])).1.trace := by
  have h : (Protocol71.parsePacket loggedInSession
      (IncomingPacket.ofBytes [0xFF, 0x65])).1.trace = [] := by decide
  refine ⟨by decide, h, ?_⟩
  rw [h]
  simp

/-- C7, amended: on a connected, logged-in session, an opcode outside the
inbound opcode table at the cursor ends `parsePacket` at once: the opcode byte
is consumed, the rest of the packet is left unread, and the session is
unchanged, so no call is made and the connection is not closed. The same holds
at every later iteration of the loop. -/
theorem unknown_opcode_stops_parsing (s : Protocol71) (p : IncomingPacket)
    (hc : s.connected = true) (hl : s.playerId ≠ Creature.INVALID_ID)
    (he : p.position < p.length) (hop : p.byteAt p.position ∉ specInboundOpcodes) :
    Protocol71.parsePacket s p = (s, { p with position := p.position + 1 }) ∧
    ∀ fuel, Protocol71.parsePacketLoop (fuel + 1) s p
      = (s, { p with position := p.position + 1 }) := by
  have hc2 : s.isConnected = true := hc
  have hl2 : s.isLoggedIn = true := by simp [Protocol71.isLoggedIn, hl]
  have he2 : p.isEmpty = false := by simp [IncomingPacket.isEmpty]; exact he
  have hsw := Protocol71.parsePacketSwitch_default s (p.byteAt p.position) (p.advance 1)
    (by
      intro hmem
      apply hop
      simp only [specInboundOpcodes, List.mem_cons, List.mem_singleton, List.not_mem_nil,
        or_false] at hmem ⊢
      tauto)
  have hloop := fun fuel => Protocol71.parsePacketLoop_default fuel s p he2 hsw
  refine ⟨?_, hloop⟩
  rw [Protocol71.parsePacket_eq_loop (p.length - p.position - 1 + 1) s p hc2 hl2 (by omega)]
  exact hloop _

/-- C7, amended, on the opcode 0xFF followed by a step opcode: nothing is
enqueued, not even the step. -/
theorem unknown_opcode_stops_parsing_witness :
    Protocol71.parsePacket loggedInSession (IncomingPacket.ofBytes [0xFF, 0x65])
      = (loggedInSession, { IncomingPacket.ofBytes [0xFF, 0x65] with position := 1 }) :=
  (unknown_opcode_stops_parsing loggedInSession (IncomingPacket.ofBytes [0xFF, 0x65])
    rfl (by decide) (by decide) (by decide)).1

/-- C8: on a connected, logged-in session, for `d` in 0..3, the opcode
`0x65 + d` at the cursor enqueues one `playerMove` task for the session's
player with direction `d`, and the opcode `0x6F + d` one `playerTurn` task
with direction `d`; parsing then goes on right behind the opcode byte, and
when the opcode is the last byte of the packet that one task is all that
happens. -/
theorem step_and_turn_opcodes (s : Protocol71) (p : IncomingPacket) (d : Nat)
    (hc : s.connected = true) (hl : s.playerId ≠ Creature.INVALID_ID)
    (he : p.position < p.length) (hd : d < 4) :
    (p.byteAt p.position = 0x65 + d →
      Protocol71.parsePacket s p
        = Protocol71.parsePacket
            { s with trace := s.trace ++ [Effect.addTask (EngineTask.playerMove s.playerId d)] }
            { p with position := p.position + 1 } ∧
      (p.position + 1 = p.length →
        Protocol71.parsePacket s p
          = ({ s with trace := s.trace ++ [Effect.addTask (EngineTask.playerMove s.playerId d)] },
              { p with position := p.position + 1 }))) ∧
    (p.byteAt p.position = 0x6F + d →
      Protocol71.parsePacket s p
        = Protocol71.parsePacket
            { s with trace := s.trace ++ [Effect.addTask (EngineTask.playerTurn s.playerId d)] }
            { p with position := p.position + 1 } ∧
      (p.position + 1 = p.length →
        Protocol71.parsePacket s p
          = ({ s with trace := s.trace ++ [Effect.addTask (EngineTask.playerTurn s.playerId d)] },
              { p with position := p.position + 1 }))) := by
  have hc2 : s.isConnected = true := hc
  have hl2 : s.isLoggedIn = true := by simp [Protocol71.isLoggedIn, hl]
  have he2 : p.isEmpty = false := by simp [IncomingPacket.isEmpty]; exact he
  have hlast : ∀ s1 : Protocol71, s1.isConnected = true → s1.isLoggedIn = true →
      p.position + 1 = p.length →
      Protocol71.parsePacket s1 { p with position := p.position + 1 }
        = (s1, { p with position := p.position + 1 }) := by
    intro s1 h1 h2 h3
    exact Protocol71.parsePacket_of_isEmpty s1 _ h1 h2 (by simp [IncomingPacket.isEmpty]; omega)
  constructor
  · intro h
    have hstep : Protocol71.parsePacket s p
        = Protocol71.parsePacket
            { s with trace := s.trace ++ [Effect.addTask (EngineTask.playerMove s.playerId d)] }
            { p with position := p.position + 1 } := by
      refine Protocol71.parsePacket_step s _ p _ hc2 hl2 he2 ?_ hc2 hl2
      rw [h]
      unfold Protocol71.parsePacketSwitch
      rw [if_neg (by omega), if_neg (by omega), if_pos (by omega)]
      simp only [Nat.add_sub_cancel_left]
      rfl
    exact ⟨hstep, fun h3 => hstep.trans (hlast _ hc2 hl2 h3)⟩
  · intro h
    have hstep : Protocol71.parsePacket s p
        = Protocol71.parsePacket
            { s with trace := s.trace ++ [Effect.addTask (EngineTask.playerTurn s.playerId d)] }
            { p with position := p.position + 1 } := by
      refine Protocol71.parsePacket_step s _ p _ hc2 hl2 he2 ?_ hc2 hl2
      rw [h]
      unfold Protocol71.parsePacketSwitch
      rw [if_neg (by omega), if_neg (by omega), if_neg (by omega), if_neg (by omega),
        if_pos (by omega)]
      simp only [Nat.add_sub_cancel_left]
      rfl
    exact ⟨hstep, fun h3 => hstep.trans (hlast _ hc2 hl2 h3)⟩

/-- C8 on the packet 66 71 (hexadecimal): a step east, then a turn south, and
the cursor at the end of the packet. -/
theorem step_and_turn_opcodes_witness :
    (Protocol71.parsePacket loggedInSession (IncomingPacket.ofBytes [0x66, 0x71])).1.trace
      = [Effect.addTask (EngineTask.playerMove 42 1),
          Effect.addTask (EngineTask.playerTurn 42 2)] ∧
    (Protocol71.parsePacket loggedInSession (IncomingPacket.ofBytes [0x66, 0x71])).2.position
      = 2 := by
  have h1 := ((step_and_turn_opcodes loggedInSession (IncomingPacket.ofBytes [0x66, 0x71]) 1
    rfl (by decide) (by decide) (by decide)).1 (by decide)).1
  have h2 := ((step_and_turn_opcodes
    { loggedInSession with
      trace := loggedInSession.trace ++ [Effect.addTask (EngineTask.playerMove 42 1)] }
    { IncomingPacket.ofBytes [0x66, 0x71] with position := 1 } 2
    rfl (by decide) (by decide) (by decide)).2 (by decide)).2 (by decide)
  have h := h1.trans h2
  rw [h]
  exact ⟨rfl, rfl⟩

/-- C9 on the code: a logged-in session that receives opcode 0x87 followed by
the local id 5 enqueues nothing and consumes only the opcode byte, because the
switch of `parsePacket` has no case for 0x87. -/
theorem close_container_opcode_is_dropped :
    (Protocol71.parsePacket loggedInSession (IncomingPacket.ofBytes [0x87, 5])).1.trace = [] ∧
    (Protocol71.parsePacket loggedInSession (IncomingPacket.ofBytes [0x87, 5])).2.position = 1 := by
  decide

/-- C10: with the cursor on a body `len | dirs` of opcode 0x64 whose `len` is
the length of `dirs` and at least 1, `parseMoveClick` enqueues one
`playerMovePath` task for the session's player whose path is `dirs` in wire
order and moves the cursor forward by `1 + len`; and `parsePacket`, on a
connected, logged-in session with the cursor on the opcode 0x64 in front of
such a body, does this and goes on right behind the body. -/
theorem parseMoveClick_enqueues_path (s : Protocol71) (p : IncomingPacket) (dirs : List Nat)
    (hlen : p.byteAt p.position = dirs.length) (hpos : 1 ≤ dirs.length)
    (hdirs : ∀ i (hi : i < dirs.length), p.byteAt (p.position + 1 + i) = dirs.get ⟨i, hi⟩) :
    Protocol71.parseMoveClick s p
      = ({ s with trace := s.trace
              ++ [Effect.addTask (EngineTask.playerMovePath s.playerId dirs)] },
          { p with position := p.position + (1 + dirs.length) }) ∧
    ∀ q : IncomingPacket, s.connected = true → s.playerId ≠ Creature.INVALID_ID →
      q.position < q.length → q.byteAt q.position = 0x64 →
      p = { q with position := q.position + 1 } →
      Protocol71.parsePacket s q
        = Protocol71.parsePacket
            { s with trace := s.trace
                ++ [Effect.addTask (EngineTask.playerMovePath s.playerId dirs)] }
            { q with position := q.position + (2 + dirs.length) } := by
  have hne : p.byteAt p.position ≠ 0 := by omega
  have hclick : Protocol71.parseMoveClick s p
      = ({ s with trace := s.trace
              ++ [Effect.addTask (EngineTask.playerMovePath s.playerId dirs)] },
          { p with position := p.position + (1 + dirs.length) }) := by
    rw [Protocol71.parseMoveClick_eq s p hne, hlen,
      IncomingPacket.bytesFrom_eq_of_get p (p.position + 1) dirs hdirs]
    rfl
  refine ⟨hclick, ?_⟩
  intro q hc hl he hop hp
  have hc2 : s.isConnected = true := hc
  have hl2 : s.isLoggedIn = true := by simp [Protocol71.isLoggedIn, hl]
  have he2 : q.isEmpty = false := by simp [IncomingPacket.isEmpty]; exact he
  refine Protocol71.parsePacket_step s _ q _ hc2 hl2 he2 ?_ hc2 hl2
  rw [hop]
  unfold Protocol71.parsePacketSwitch
  rw [if_neg (by decide), if_pos rfl]
  have hq : q.advance 1 = p := by rw [hp]; rfl
  rw [hq, hclick, hp]
  simp [Nat.add_assoc, Nat.add_comm 1]
  omega

/-- C10 on the packet 64 03 01 02 00 (hexadecimal): one path task holding
east, south, north. -/
theorem parseMoveClick_enqueues_path_witness :
    (Protocol71.parsePacket loggedInSession
        (IncomingPacket.ofBytes [0x64, 3, 1, 2, 0])).1.trace
      = [Effect.addTask (EngineTask.playerMovePath 42 [1, 2, 0])] ∧
    (Protocol71.parsePacket loggedInSession
        (IncomingPacket.ofBytes [0x64, 3, 1, 2, 0])).2.position = 5 := by
  have h := (parseMoveClick_enqueues_path loggedInSession
    { IncomingPacket.ofBytes [0x64, 3, 1, 2, 0] with position := 1 } [1, 2, 0]
    (by decide) (by decide) (by decide)).2 (IncomingPacket.ofBytes [0x64, 3, 1, 2, 0])
    rfl (by decide) (by decide) (by decide) rfl
  rw [h]
  exact ⟨rfl, rfl⟩

/-! ## Lemmas on the item, look and say parsers -/

namespace Protocol71

theorem peekU16_advance (p : IncomingPacket) (n : Nat) :
    (p.advance n).peekU16.1 = p.wireU16 n := by
  rw [IncomingPacket.peekU16_value]; rfl

theorem peekU16_cursor (p : IncomingPacket) : p.peekU16.1 = p.wireU16 0 := by
  rw [IncomingPacket.peekU16_value]; rfl

theorem getPosition_advance (p : IncomingPacket) (n : Nat) :
    (getPosition (p.advance n)).1 = p.wirePosition n := by
  rw [getPosition_eq]
  simp only [IncomingPacket.wirePosition, IncomingPacket.wireU16, IncomingPacket.wireU8,
    IncomingPacket.advance_position, IncomingPacket.byteAt_advance, Nat.add_assoc]

theorem getPosition_cursor (p : IncomingPacket) : (getPosition p).1 = p.wirePosition 0 :=
  getPosition_advance p 0

/-- The four branches of `parseMoveItem`, by the two u16 values it peeks. -/
theorem parseMoveItem_eq (s : Protocol71) (p : IncomingPacket) :
    parseMoveItem s p
      = (s.addTask
          (if p.wireU16 0 = 0xFFFF then
            if p.wireU16 8 = 0xFFFF then
              EngineTask.playerMoveItemFromInvToInv s.playerId (p.wireU8 2) (p.wireU16 5)
                (p.wireU8 13) (p.wireU8 10)
            else
              EngineTask.playerMoveItemFromInvToPos s.playerId (p.wireU8 2) (p.wireU16 5)
                (p.wireU8 13) (p.wirePosition 8)
          else
            if p.wireU16 8 = 0xFFFF then
              EngineTask.playerMoveItemFromPosToInv s.playerId (p.wirePosition 0) (p.wireU8 7)
                (p.wireU16 5) (p.wireU8 13) (p.wireU8 10)
            else
              EngineTask.playerMoveItemFromPosToPos s.playerId (p.wirePosition 0) (p.wireU8 7)
                (p.wireU16 5) (p.wireU8 13) (p.wirePosition 8)),
          p.advance 14) := by
  unfold parseMoveItem
  rw [peekU16_cursor]
  by_cases h0 : p.wireU16 0 = 0xFFFF
  · simp only [h0, if_true, IncomingPacket.getU16, IncomingPacket.getU8, IncomingPacket.peekU8,
      IncomingPacket.peekU16_snd, IncomingPacket.advance_advance, peekU16_advance,
      IncomingPacket.advance_position, IncomingPacket.byteAt_advance]
    by_cases h8 : p.wireU16 8 = 0xFFFF
    · simp only [h8, if_true]; rfl
    · simp only [h8, if_false]
      rw [getPosition_advance]; rfl
  · simp only [h0, if_false, IncomingPacket.getU16, IncomingPacket.getU8, IncomingPacket.peekU8,
      IncomingPacket.peekU16_snd, IncomingPacket.advance_advance, peekU16_advance,
      IncomingPacket.advance_position, IncomingPacket.byteAt_advance, getPosition_snd,
      getPosition_cursor]
    by_cases h8 : p.wireU16 8 = 0xFFFF
    · simp only [h8, if_true]; rfl
    · simp only [h8, if_false]
      rfl

theorem getString_advance (p : IncomingPacket) (n : Nat) :
    (p.advance n).getString = (p.wireString n, p.advance (n + (2 + p.wireU16 n))) := by
  refine Prod.ext ?_ ?_
  · rw [IncomingPacket.getString_fst, peekU16_advance]; rfl
  · rw [IncomingPacket.getString_snd, peekU16_advance, IncomingPacket.advance_advance]

/-- The two branches of `parseLookAt`, by the u16 value it peeks. -/
theorem parseLookAt_eq (s : Protocol71) (p : IncomingPacket) :
    parseLookAt s p
      = (s.addTask
          (if p.wireU16 0 = 0xFFFF then
            EngineTask.playerLookAtInvItem s.playerId (p.wireU8 2) (p.wireU16 5)
          else
            EngineTask.playerLookAtPosItem s.playerId (p.wirePosition 0) (p.wireU16 5)
              (p.wireU8 7)),
          p.advance 8) := by
  unfold parseLookAt
  rw [peekU16_cursor]
  by_cases h0 : p.wireU16 0 = 0xFFFF
  · simp only [h0, if_true, IncomingPacket.getU16, IncomingPacket.getU8, IncomingPacket.peekU8,
      IncomingPacket.peekU16_snd, IncomingPacket.advance_advance, peekU16_advance,
      IncomingPacket.advance_position, IncomingPacket.byteAt_advance]
    rfl
  · simp only [h0, if_false, IncomingPacket.getU16, IncomingPacket.getU8, IncomingPacket.peekU8,
      IncomingPacket.peekU16_snd, IncomingPacket.advance_advance, peekU16_advance,
      IncomingPacket.advance_position, IncomingPacket.byteAt_advance, getPosition_snd,
      getPosition_cursor]
    rfl

/-- The three branches of `parseSay`, by the type byte. -/
theorem parseSay_eq (s : Protocol71) (p : IncomingPacket) :
    parseSay s p
      = if p.wireU8 0 = 0x06 ∨ p.wireU8 0 = 0x0B then
          (s.addTask (EngineTask.playerSay s.playerId (p.wireU8 0)
              (p.wireString (3 + p.wireU16 1)) (p.wireString 1) 0),
            p.advance (3 + p.wireU16 1 + (2 + p.wireU16 (3 + p.wireU16 1))))
        else if p.wireU8 0 = 0x07 ∨ p.wireU8 0 = 0x0A then
          (s.addTask (EngineTask.playerSay s.playerId (p.wireU8 0) (p.wireString 3) []
              (p.wireU16 1)),
            p.advance (3 + (2 + p.wireU16 3)))
        else
          (s.addTask (EngineTask.playerSay s.playerId (p.wireU8 0) (p.wireString 1) [] 0),
            p.advance (1 + (2 + p.wireU16 1))) := by
  unfold parseSay
  have ht : p.getU8 = (p.wireU8 0, p.advance 1) := rfl
  rw [ht]
  simp only
  by_cases h1 : p.wireU8 0 = 0x06 ∨ p.wireU8 0 = 0x0B
  · rw [if_pos h1, if_pos h1, getString_advance]
    simp only
    have h3 : 1 + (2 + p.wireU16 1) = 3 + p.wireU16 1 := by omega
    rw [h3, getString_advance]
  · rw [if_neg h1, if_neg h1]
    by_cases h2 : p.wireU8 0 = 0x07 ∨ p.wireU8 0 = 0x0A
    · rw [if_pos h2, if_pos h2]
      simp only [IncomingPacket.getU16, IncomingPacket.peekU16_snd, peekU16_advance,
        IncomingPacket.advance_advance]
      rw [getString_advance]
    · rw [if_neg h2, if_neg h2]
      simp only
      rw [getString_advance]

/-- The function `parseLogin` in terms of the name and the password on the wire. -/
theorem parseLogin_eq (s : Protocol71) (p : IncomingPacket) :
    parseLogin s p
      = (if s.accountReader.characterExists (p.wireString 5) = false then
            (s.sendPacket ((OutgoingPacket.empty.addU8 0x14).addString
              (strBytes ("Invalid character.")))).closeConnection false
          else if s.accountReader.verifyPassword (p.wireString 5)
              (p.wireString (7 + p.wireU16 5)) = false then
            (s.sendPacket ((OutgoingPacket.empty.addU8 0x14).addString
              (strBytes ("Invalid password.")))).closeConnection false
          else
            s.emit (Effect.addPlayer (p.wireString 5)),
          p.advance (7 + p.wireU16 5 + (2 + p.wireU16 (7 + p.wireU16 5)))) := by
  unfold parseLogin
  simp only [IncomingPacket.getU16, IncomingPacket.getU8, IncomingPacket.peekU8,
    IncomingPacket.peekU16_snd, IncomingPacket.advance_advance]
  rw [getString_advance]
  simp only
  have h7 : 1 + 1 + 2 + 1 + (2 + p.wireU16 (1 + 1 + 2 + 1)) = 7 + p.wireU16 5 := by
    show 5 + (2 + p.wireU16 5) = 7 + p.wireU16 5
    omega
  rw [h7, getString_advance]
  simp only
  by_cases he : s.accountReader.characterExists (p.wireString 5) = true
  · by_cases hv : s.accountReader.verifyPassword (p.wireString 5)
        (p.wireString (7 + p.wireU16 5)) = true
    · simp [he, hv]
    · simp [he, hv]
  · simp [he]

/-- A case of the switch that calls a handler which adds one task: on a
connected, logged-in session `parsePacket` is the handler followed by
`parsePacket` on what is left. -/
theorem parsePacket_handler (s : Protocol71) (q : IncomingPacket)
    (handler : Protocol71 → IncomingPacket → Protocol71 × IncomingPacket)
    (hc : s.connected = true) (hl : s.playerId ≠ Creature.INVALID_ID)
    (he : q.position < q.length)
    (hsw : parsePacketSwitch s (q.byteAt q.position) (q.advance 1)
      = ((handler s (q.advance 1)).1, (handler s (q.advance 1)).2, true))
    (htask : ∃ t, (handler s (q.advance 1)).1 = s.addTask t) :
    parsePacket s q = parsePacket (handler s (q.advance 1)).1 (handler s (q.advance 1)).2 := by
  have hc2 : s.isConnected = true := hc
  have hl2 : s.isLoggedIn = true := by simp [isLoggedIn, hl]
  have he2 : q.isEmpty = false := by simp [IncomingPacket.isEmpty]; exact he
  obtain ⟨t, ht⟩ := htask
  refine parsePacket_step s _ q _ hc2 hl2 he2 hsw ?_ ?_
  · rw [ht]; exact hc2
  · rw [ht]; exact hl2

/-- Opcode 0x78 goes to `parseMoveItem`. -/
theorem parsePacket_moveItem (s : Protocol71) (q : IncomingPacket)
    (hc : s.connected = true) (hl : s.playerId ≠ Creature.INVALID_ID)
    (he : q.position < q.length) (hop : q.byteAt q.position = 0x78) :
    parsePacket s q
      = parsePacket (parseMoveItem s (q.advance 1)).1 (parseMoveItem s (q.advance 1)).2 := by
  refine parsePacket_handler s q parseMoveItem hc hl he ?_ ⟨_, by rw [parseMoveItem_eq]⟩
  rw [hop]
  unfold parsePacketSwitch
  rw [if_neg (by decide), if_neg (by decide), if_neg (by decide), if_neg (by decide),
    if_neg (by decide), if_pos rfl]

/-- Opcode 0x8C goes to `parseLookAt`. -/
theorem parsePacket_lookAt (s : Protocol71) (q : IncomingPacket)
    (hc : s.connected = true) (hl : s.playerId ≠ Creature.INVALID_ID)
    (he : q.position < q.length) (hop : q.byteAt q.position = 0x8C) :
    parsePacket s q
      = parsePacket (parseLookAt s (q.advance 1)).1 (parseLookAt s (q.advance 1)).2 := by
  refine parsePacket_handler s q parseLookAt hc hl he ?_ ⟨_, by rw [parseLookAt_eq]⟩
  rw [hop]
  unfold parsePacketSwitch
  rw [if_neg (by decide), if_neg (by decide), if_neg (by decide), if_neg (by decide),
    if_neg (by decide), if_neg (by decide), if_neg (by decide), if_pos rfl]

/-- Opcode 0x96 goes to `parseSay`. -/
theorem parsePacket_say (s : Protocol71) (q : IncomingPacket)
    (hc : s.connected = true) (hl : s.playerId ≠ Creature.INVALID_ID)
    (he : q.position < q.length) (hop : q.byteAt q.position = 0x96) :
    parsePacket s q
      = parsePacket (parseSay s (q.advance 1)).1 (parseSay s (q.advance 1)).2 := by
  refine parsePacket_handler s q parseSay hc hl he ?_ ?_
  · rw [hop]
    unfold parsePacketSwitch
    rw [if_neg (by decide), if_neg (by decide), if_neg (by decide), if_neg (by decide),
      if_neg (by decide), if_neg (by decide), if_neg (by decide), if_neg (by decide),
      if_pos rfl]
  · rw [parseSay_eq]
    split_ifs <;> exact ⟨_, rfl⟩

end Protocol71

/-! ## The world protocol: items, look, say, login -/

/-- C11: with the cursor on a body of opcode 0x78, `parseMoveItem` reads the
source at offset 0 and the destination at offset 8, each by the u16 it peeks
there: 0xFFFF means an inventory slot (the slot byte follows, then a u16 that
is ignored), anything else a tile position `x:u16 | y:u16 | z:u8`. It enqueues
the one task of the four that matches, with the decoded source, the item id at
offset 5, the stack position at offset 7 (tile sources only), the destination
and the count at offset 13, and leaves the cursor 14 bytes further. On a
connected, logged-in session `parsePacket` calls it for opcode 0x78 and goes
on behind the body. -/
theorem parseMoveItem_decodes (s : Protocol71) (p : IncomingPacket) :
    (p.wireU16 0 = 0xFFFF → p.wireU16 8 = 0xFFFF →
      Protocol71.parseMoveItem s p
        = ({ s with trace := s.trace ++ [Effect.addTask
              (EngineTask.playerMoveItemFromInvToInv s.playerId (p.wireU8 2) (p.wireU16 5)
                (p.wireU8 13) (p.wireU8 10))] },
            { p with position := p.position + 14 })) ∧
    (p.wireU16 0 = 0xFFFF → p.wireU16 8 ≠ 0xFFFF →
      Protocol71.parseMoveItem s p
        = ({ s with trace := s.trace ++ [Effect.addTask
              (EngineTask.playerMoveItemFromInvToPos s.playerId (p.wireU8 2) (p.wireU16 5)
                (p.wireU8 13) (p.wirePosition 8))] },
            { p with position := p.position + 14 })) ∧
    (p.wireU16 0 ≠ 0xFFFF → p.wireU16 8 = 0xFFFF →
      Protocol71.parseMoveItem s p
        = ({ s with trace := s.trace ++ [Effect.addTask
              (EngineTask.playerMoveItemFromPosToInv s.playerId (p.wirePosition 0) (p.wireU8 7)
                (p.wireU16 5) (p.wireU8 13) (p.wireU8 10))] },
            { p with position := p.position + 14 })) ∧
    (p.wireU16 0 ≠ 0xFFFF → p.wireU16 8 ≠ 0xFFFF →
      Protocol71.parseMoveItem s p
        = ({ s with trace := s.trace ++ [Effect.addTask
              (EngineTask.playerMoveItemFromPosToPos s.playerId (p.wirePosition 0) (p.wireU8 7)
                (p.wireU16 5) (p.wireU8 13) (p.wirePosition 8))] },
            { p with position := p.position + 14 })) ∧
    (∀ q : IncomingPacket, s.connected = true → s.playerId ≠ Creature.INVALID_ID →
      q.position < q.length → q.byteAt q.position = 0x78 →
      p = { q with position := q.position + 1 } →
      Protocol71.parsePacket s q
        = Protocol71.parsePacket (Protocol71.parseMoveItem s p).1
            (Protocol71.parseMoveItem s p).2) := by
  refine ⟨fun h0 h8 => ?_, fun h0 h8 => ?_, fun h0 h8 => ?_, fun h0 h8 => ?_, ?_⟩
  · rw [Protocol71.parseMoveItem_eq, if_pos h0, if_pos h8]; rfl
  · rw [Protocol71.parseMoveItem_eq, if_pos h0, if_neg h8]; rfl
  · rw [Protocol71.parseMoveItem_eq, if_neg h0, if_pos h8]; rfl
  · rw [Protocol71.parseMoveItem_eq, if_neg h0, if_neg h8]; rfl
  · intro q hc hl he hop hp
    rw [hp]
    exact Protocol71.parsePacket_moveItem s q hc hl he hop

/-- C11 on a move of item 0x0123 from stack position 2 of the tile
(100, 300, 7) to inventory slot 4, count 9. -/
theorem parseMoveItem_decodes_witness :
    (Protocol71.parsePacket loggedInSession moveItemPacket).1.trace
      = [Effect.addTask (EngineTask.playerMoveItemFromPosToInv 42 { x := 100, y := 300, z := 7 }
          2 0x0123 9 4)] ∧
    (Protocol71.parsePacket loggedInSession moveItemPacket).2.position = 15 := by
  have h := parseMoveItem_decodes loggedInSession { moveItemPacket with position := 1 }
  have h1 := h.2.2.1 (by decide) (by decide)
  have h2 := h.2.2.2.2 moveItemPacket rfl (by decide) (by decide) (by decide) rfl
  rw [h2, h1]
  decide

/-- C12: with the cursor on a body of opcode 0x8C, `parseLookAt` peeks the
first u16 without consuming it. If it is not 0xFFFF, the body is
`x:u16 | y:u16 | z:u8 | itemId:u16 | stackPos:u8` and one look-at task for the
tile position with that item id and stack position is enqueued; if it is
0xFFFF, the body is `0xFFFF | slot:u8 | u16 | itemId:u16 | u8` and one look-at
task for that inventory slot and item id is enqueued. Both forms leave the
cursor 8 bytes further, and on a connected, logged-in session `parsePacket`
calls `parseLookAt` for opcode 0x8C and goes on behind the body. -/
theorem parseLookAt_decodes (s : Protocol71) (p : IncomingPacket) :
    p.peekU16 = (p.wireU16 0, p) ∧
    (p.wireU16 0 ≠ 0xFFFF →
      Protocol71.parseLookAt s p
        = ({ s with trace := s.trace ++ [Effect.addTask
              (EngineTask.playerLookAtPosItem s.playerId
                { x := p.wireU16 0, y := p.wireU16 2, z := p.wireU8 4 } (p.wireU16 5)
                (p.wireU8 7))] },
            { p with position := p.position + 8 })) ∧
    (p.wireU16 0 = 0xFFFF →
      Protocol71.parseLookAt s p
        = ({ s with trace := s.trace ++ [Effect.addTask
              (EngineTask.playerLookAtInvItem s.playerId (p.wireU8 2) (p.wireU16 5))] },
            { p with position := p.position + 8 })) ∧
    (∀ q : IncomingPacket, s.connected = true → s.playerId ≠ Creature.INVALID_ID →
      q.position < q.length → q.byteAt q.position = 0x8C →
      p = { q with position := q.position + 1 } →
      Protocol71.parsePacket s q
        = Protocol71.parsePacket (Protocol71.parseLookAt s p).1
            (Protocol71.parseLookAt s p).2) := by
  refine ⟨Prod.ext (Protocol71.peekU16_cursor p) rfl, fun h0 => ?_, fun h0 => ?_, ?_⟩
  · rw [Protocol71.parseLookAt_eq, if_neg h0]; rfl
  · rw [Protocol71.parseLookAt_eq, if_pos h0]; rfl
  · intro q hc hl he hop hp
    rw [hp]
    exact Protocol71.parsePacket_lookAt s q hc hl he hop

/-- C12 on a look at item 0x0123 at stack position 2 of the tile
(100, 300, 7), and on a look at item 0x0456 in inventory slot 4. -/
theorem parseLookAt_decodes_witness :
    (Protocol71.parsePacket loggedInSession lookAtPacket).1.trace
      = [Effect.addTask (EngineTask.playerLookAtPosItem 42 { x := 100, y := 300, z := 7 }
          0x0123 2)] ∧
    (Protocol71.parsePacket loggedInSession lookAtPacket).2.position = 9 ∧
    (Protocol71.parsePacket loggedInSession lookAtInventoryPacket).1.trace
      = [Effect.addTask (EngineTask.playerLookAtInvItem 42 4 0x0456)] ∧
    (Protocol71.parsePacket loggedInSession lookAtInventoryPacket).2.position = 9 := by
  have h := parseLookAt_decodes loggedInSession { lookAtPacket with position := 1 }
  have h1 := h.2.1 (by decide)
  have h2 := h.2.2.2 lookAtPacket rfl (by decide) (by decide) (by decide) rfl
  have g := parseLookAt_decodes loggedInSession { lookAtInventoryPacket with position := 1 }
  have g1 := g.2.2.1 (by decide)
  have g2 := g.2.2.2 lookAtInventoryPacket rfl (by decide) (by decide) (by decide) rfl
  rw [h2, h1, g2, g1]
  decide

/-- C13: with the cursor on a body of opcode 0x96, `parseSay` reads the type
byte; for type 6 or 11 it then reads the receiver string, for type 7 or 10 the
channel u16, for any other type nothing; then it reads the text string. It
enqueues one say task `(playerId, type, text, receiver, channelId)` whose
receiver is empty and whose channel is 0 when they were not read, and leaves
the cursor behind the text. On a connected, logged-in session `parsePacket`
calls it for opcode 0x96 and goes on behind the body. -/
theorem parseSay_decodes (s : Protocol71) (p : IncomingPacket) :
    (p.wireU8 0 = 6 ∨ p.wireU8 0 = 11 →
      Protocol71.parseSay s p
        = ({ s with trace := s.trace ++ [Effect.addTask
              (EngineTask.playerSay s.playerId (p.wireU8 0) (p.wireString (3 + p.wireU16 1))
                (p.wireString 1) 0)] },
            { p with position :=
                p.position + (1 + (2 + p.wireU16 1) + (2 + p.wireU16 (3 + p.wireU16 1))) })) ∧
    (p.wireU8 0 = 7 ∨ p.wireU8 0 = 10 →
      Protocol71.parseSay s p
        = ({ s with trace := s.trace ++ [Effect.addTask
              (EngineTask.playerSay s.playerId (p.wireU8 0) (p.wireString 3) [] (p.wireU16 1))] },
            { p with position := p.position + (1 + 2 + (2 + p.wireU16 3)) })) ∧
    (p.wireU8 0 ≠ 6 → p.wireU8 0 ≠ 11 → p.wireU8 0 ≠ 7 → p.wireU8 0 ≠ 10 →
      Protocol71.parseSay s p
        = ({ s with trace := s.trace ++ [Effect.addTask
              (EngineTask.playerSay s.playerId (p.wireU8 0) (p.wireString 1) [] 0)] },
            { p with position := p.position + (1 + (2 + p.wireU16 1)) })) ∧
    (∀ q : IncomingPacket, s.connected = true → s.playerId ≠ Creature.INVALID_ID →
      q.position < q.length → q.byteAt q.position = 0x96 →
      p = { q with position := q.position + 1 } →
      Protocol71.parsePacket s q
        = Protocol71.parsePacket (Protocol71.parseSay s p).1 (Protocol71.parseSay s p).2) := by
  refine ⟨fun h => ?_, fun h => ?_, fun h1 h2 h3 h4 => ?_, ?_⟩
  · rw [Protocol71.parseSay_eq, if_pos h]
    refine Prod.ext rfl ?_
    show p.advance _ = p.advance _
    congr 1; omega
  · have hn : ¬ (p.wireU8 0 = 6 ∨ p.wireU8 0 = 11) := by omega
    rw [Protocol71.parseSay_eq, if_neg hn, if_pos h]
    rfl
  · rw [Protocol71.parseSay_eq, if_neg (by omega), if_neg (by omega)]
    rfl
  · intro q hc hl he hop hp
    rw [hp]
    exact Protocol71.parsePacket_say s q hc hl he hop

/-- C13 on a private message (type 6) with text `Hi` to the receiver `Bob`,
and on a channel message (type 7) with text `Hi` on channel 0x0305. -/
theorem parseSay_decodes_witness :
    (Protocol71.parsePacket loggedInSession sayPrivatePacket).1.trace
      = [Effect.addTask (EngineTask.playerSay 42 6 [72, 105] [66, 111, 98] 0)] ∧
    (Protocol71.parsePacket loggedInSession sayPrivatePacket).2.position = 11 ∧
    (Protocol71.parsePacket loggedInSession sayChannelPacket).1.trace
      = [Effect.addTask (EngineTask.playerSay 42 7 [72, 105] [] 0x0305)] ∧
    (Protocol71.parsePacket loggedInSession sayChannelPacket).2.position = 8 := by
  have h := parseSay_decodes loggedInSession { sayPrivatePacket with position := 1 }
  have h1 := h.1 (by decide)
  have h2 := h.2.2.2 sayPrivatePacket rfl (by decide) (by decide) (by decide) rfl
  have g := parseSay_decodes loggedInSession { sayChannelPacket with position := 1 }
  have g1 := g.2.1 (by decide)
  have g2 := g.2.2.2 sayChannelPacket rfl (by decide) (by decide) (by decide) rfl
  rw [h2, h1, g2, g1]
  decide

/-- C14: with the cursor on a login body `0x02 | os:u8 | ver:u16 | _:u8 |
name:str | pw:str`, `parseLogin` sends one packet `0x14 | "Invalid
character."` and closes the connection (not forced) when the character name
does not exist, sends one packet `0x14 | "Invalid password."` and closes the
connection when the name exists and the password does not verify, and in both
cases adds no player; otherwise it sends nothing and asks the engine once to
add the player of that name. On a connected session that is not logged in,
`parsePacket` calls it for a first byte 0x0A. -/
theorem parseLogin_outcomes (s : Protocol71) (p : IncomingPacket) :
    (s.accountReader.characterExists (p.wireString 5) = false →
      (Protocol71.parseLogin s p).1
        = { s with trace := s.trace ++
              [Effect.sendPacket s.connectionId
                { bytes := [0x14, 18, 0] ++ strBytes ("Invalid character.") },
               Effect.closeConnection s.connectionId false] }) ∧
    (s.accountReader.characterExists (p.wireString 5) = true →
      s.accountReader.verifyPassword (p.wireString 5) (p.wireString (7 + p.wireU16 5)) = false →
      (Protocol71.parseLogin s p).1
        = { s with trace := s.trace ++
              [Effect.sendPacket s.connectionId
                { bytes := [0x14, 17, 0] ++ strBytes ("Invalid password.") },
               Effect.closeConnection s.connectionId false] }) ∧
    (s.accountReader.characterExists (p.wireString 5) = true →
      s.accountReader.verifyPassword (p.wireString 5) (p.wireString (7 + p.wireU16 5)) = true →
      (Protocol71.parseLogin s p).1
        = { s with trace := s.trace ++ [Effect.addPlayer (p.wireString 5)] }) ∧
    (∀ q : IncomingPacket, s.connected = true → s.playerId = Creature.INVALID_ID →
      q.byteAt q.position = 0x0A → p = { q with position := q.position + 1 } →
      Protocol71.parsePacket s q = Protocol71.parseLogin s p) := by
  refine ⟨fun h => ?_, fun h1 h2 => ?_, fun h1 h2 => ?_, ?_⟩
  · rw [Protocol71.parseLogin_eq, if_pos h]
    simp [Protocol71.sendPacket, Protocol71.closeConnection, Protocol71.emit,
      OutgoingPacket.addString, OutgoingPacket.addU16, OutgoingPacket.addU8,
      OutgoingPacket.empty, strBytes]
  · rw [Protocol71.parseLogin_eq, if_neg (by simp [h1]), if_pos h2]
    simp [Protocol71.sendPacket, Protocol71.closeConnection, Protocol71.emit,
      OutgoingPacket.addString, OutgoingPacket.addU16, OutgoingPacket.addU8,
      OutgoingPacket.empty, strBytes]
  · rw [Protocol71.parseLogin_eq, if_neg (by simp [h1]), if_neg (by simp [h2])]
    rfl
  · intro q hc hl hop hp
    have hc2 : s.isConnected = true := hc
    have hl2 : s.isLoggedIn = false := by simp [Protocol71.isLoggedIn, hl]
    rw [hp]
    unfold Protocol71.parsePacket
    simp only [hc2, hl2, Bool.not_true, Bool.not_false, Bool.false_eq_true, if_false, if_true]
    simp only [IncomingPacket.getU8, IncomingPacket.peekU8, hop, if_true]
    rfl

/-- C14 on the login of `Hero` with password `pw`: accepted by an account
store that knows this pair, refused with `Invalid character.` by a store
without characters, refused with `Invalid password.` for the password `px`. -/
theorem parseLogin_outcomes_witness :
    (Protocol71.parsePacket (Protocol71.create 7 heroAccounts) loginPacket).1.trace
      = [Effect.addPlayer [72, 101, 114, 111]] ∧
    (Protocol71.parsePacket freshSession loginPacket).1.trace
      = [Effect.sendPacket 7 { bytes := [0x14, 18, 0] ++ strBytes ("Invalid character.") },
          Effect.closeConnection 7 false] ∧
    (Protocol71.parsePacket (Protocol71.create 7 heroAccounts) loginWrongPasswordPacket).1.trace
      = [Effect.sendPacket 7 { bytes := [0x14, 17, 0] ++ strBytes ("Invalid password.") },
          Effect.closeConnection 7 false] := by
  have a := parseLogin_outcomes (Protocol71.create 7 heroAccounts)
    { loginPacket with position := 1 }
  have a1 := a.2.2.1 (by decide) (by decide)
  have a2 := a.2.2.2 loginPacket rfl rfl (by decide) rfl
  have b := parseLogin_outcomes freshSession { loginPacket with position := 1 }
  have b1 := b.1 rfl
  have b2 := b.2.2.2 loginPacket rfl rfl (by decide) rfl
  have c := parseLogin_outcomes (Protocol71.create 7 heroAccounts)
    { loginWrongPasswordPacket with position := 1 }
  have c1 := c.2.1 (by decide) (by decide)
  have c2 := c.2.2.2 loginWrongPasswordPacket rfl rfl (by decide) rfl
  rw [a2, a1, b2, b1, c2, c1]
  exact ⟨rfl, rfl, rfl⟩


/-! ## Lemmas on the encoders -/

namespace Protocol71

@[simp] theorem addU8_bytes (out : OutgoingPacket) (v : Nat) :
    (out.addU8 v).bytes = out.bytes ++ [v % 256] := rfl

@[simp] theorem addU16_bytes (out : OutgoingPacket) (v : Nat) :
    (out.addU16 v).bytes = out.bytes ++ wireBytesU16 v := rfl

@[simp] theorem addU32_bytes (out : OutgoingPacket) (v : Nat) :
    (out.addU32 v).bytes = out.bytes ++ wireBytesU32 v := rfl

@[simp] theorem addString_bytes (out : OutgoingPacket) (s : List Nat) :
    (out.addString s).bytes = out.bytes ++ wireBytesString s := by
  simp [OutgoingPacket.addString, wireBytesString]

@[simp] theorem addPosition_wire (position : Position) (out : OutgoingPacket) :
    (addPosition position out).bytes = out.bytes ++ wireBytesPosition position := by
  simp [addPosition, wireBytesPosition]

theorem OutgoingPacket_eq_of_bytes (a b : OutgoingPacket) (h : a.bytes = b.bytes) : a = b := by
  cases a; cases b; simp at h; simp [h]

/-- The function `addCreature` for a creature that is in the cache: the known
form, and the session as it was. -/
theorem addCreature_known (s : Protocol71) (creature : Creature) (out : OutgoingPacket)
    (h : creature.creatureId ∈ s.knownCreatures) :
    addCreature s creature out
      = (s, { bytes := out.bytes ++ [0x62, 0x00] ++ wireBytesU32 creature.creatureId
                ++ creatureTrailer creature }) := by
  have hlt : s.knownCreatures.indexOf creature.creatureId ≠ s.knownCreatures.length :=
    Nat.ne_of_lt (List.indexOf_lt_length.mpr h)
  unfold addCreature
  simp only [hlt, if_false]
  refine Prod.ext rfl ?_
  apply OutgoingPacket_eq_of_bytes
  simp [creatureTrailer]

/-- The bytes of the full form of a creature. -/
theorem addCreature_unknown (s : Protocol71) (creature : Creature) (out : OutgoingPacket)
    (h : creature.creatureId ∉ s.knownCreatures) :
    addCreature s creature out
      = (if s.knownCreatures.indexOf Creature.INVALID_ID = s.knownCreatures.length then
            s
          else
            { s with
              knownCreatures :=
                s.knownCreatures.set (s.knownCreatures.indexOf Creature.INVALID_ID)
                  creature.creatureId },
         { bytes := out.bytes ++ [0x61, 0x00] ++ wireBytesU32 0
                ++ wireBytesU32 creature.creatureId ++ wireBytesString creature.name
                ++ creatureTrailer creature }) := by
  have heq : s.knownCreatures.indexOf creature.creatureId = s.knownCreatures.length :=
    List.indexOf_eq_length.mpr h
  unfold addCreature
  simp only [heq, if_true]
  refine Prod.ext rfl ?_
  apply OutgoingPacket_eq_of_bytes
  simp [creatureTrailer]

/-- The bytes `addCreature` appends do not depend on the packet it appends to. -/
theorem addCreature_bytes (s : Protocol71) (creature : Creature) (out : OutgoingPacket) :
    (addCreature s creature out).2.bytes
      = out.bytes ++ (addCreature s creature OutgoingPacket.empty).2.bytes := by
  by_cases h : creature.creatureId ∈ s.knownCreatures
  · rw [addCreature_known s creature out h, addCreature_known s creature _ h]
    simp [OutgoingPacket.empty]
  · rw [addCreature_unknown s creature out h, addCreature_unknown s creature _ h]
    simp [OutgoingPacket.empty]

/-- The session `addCreature` leaves does not depend on the packet. -/
theorem addCreature_session (s : Protocol71) (creature : Creature) (out : OutgoingPacket) :
    (addCreature s creature out).1 = (addCreature s creature OutgoingPacket.empty).1 := by
  by_cases h : creature.creatureId ∈ s.knownCreatures
  · rw [addCreature_known s creature out h, addCreature_known s creature _ h]
  · rw [addCreature_unknown s creature out h, addCreature_unknown s creature _ h]

/-- No slot below the one `std::find` returns holds the value looked for. -/
theorem getElem?_ne_of_lt_indexOf (l : List Nat) (a j : Nat) (h : j < l.indexOf a) :
    l[j]? ≠ some a := by
  induction l generalizing j with
  | nil => simp
  | cons x xs ih =>
    rw [List.indexOf_cons] at h
    by_cases hx : x = a
    · simp [hx] at h
    · have hb : (x == a) = false := by simpa using hx
      rw [hb] at h
      simp only [cond_false] at h
      cases j with
      | zero => simpa using hx
      | succ k =>
        simp only [List.getElem?_cons_succ]
        exact ih k (by omega)

end Protocol71

/-! ## The known-creature cache and the creature encoding -/

/-- C15: when the cache has an `INVALID_ID` slot and the creature's id (not
`INVALID_ID`) is not in the cache, `addCreature` writes the id into the slot
of lowest index that holds `INVALID_ID`, leaves every other slot as it was,
and appends `0x61, 0x00`, evictedId 0 as u32, the creature id as u32 and the
name as a string, followed by the bytes common to both forms. The creature has
`maxHealth ≠ 0`: for `maxHealth = 0` the source divides by zero when it computes
the health byte, and builds no packet. -/
theorem addCreature_takes_first_free_slot (s : Protocol71) (creature : Creature)
    (out : OutgoingPacket) (hfree : Creature.INVALID_ID ∈ s.knownCreatures)
    (_hid : creature.creatureId ≠ Creature.INVALID_ID)
    (habsent : creature.creatureId ∉ s.knownCreatures)
    (_hmax : creature.maxHealth ≠ 0) :
    ∃ i, i < s.knownCreatures.length ∧
      s.knownCreatures[i]? = some Creature.INVALID_ID ∧
      (∀ j, j < i → s.knownCreatures[j]? ≠ some Creature.INVALID_ID) ∧
      (Protocol71.addCreature s creature out).1
        = { s with knownCreatures := s.knownCreatures.set i creature.creatureId } ∧
      (∀ j, j ≠ i →
        (Protocol71.addCreature s creature out).1.knownCreatures[j]? = s.knownCreatures[j]?) ∧
      (Protocol71.addCreature s creature out).1.knownCreatures[i]? = some creature.creatureId ∧
      (Protocol71.addCreature s creature out).2.bytes
        = out.bytes ++ [0x61, 0x00] ++ wireBytesU32 0 ++ wireBytesU32 creature.creatureId
            ++ wireBytesString creature.name ++ creatureTrailer creature := by
  have hlt : s.knownCreatures.indexOf Creature.INVALID_ID < s.knownCreatures.length :=
    List.indexOf_lt_length.mpr hfree
  have hres := Protocol71.addCreature_unknown s creature out habsent
  rw [if_neg (Nat.ne_of_lt hlt)] at hres
  refine ⟨s.knownCreatures.indexOf Creature.INVALID_ID, hlt, ?_, ?_, ?_, ?_, ?_, ?_⟩
  · rw [List.getElem?_eq_getElem hlt, List.getElem_indexOf hlt]
  · intro j hj
    exact Protocol71.getElem?_ne_of_lt_indexOf _ _ j hj
  · rw [hres]
  · intro j hj
    rw [hres]
    simp only
    rw [List.getElem?_set_ne (Ne.symm hj)]
  · rw [hres]
    simp only
    rw [List.getElem?_set_self hlt]
  · rw [hres]

/-- C15 on a fresh cache: the rat goes into slot 0 and the other 63 slots stay
`INVALID_ID`. -/
theorem addCreature_takes_first_free_slot_witness :
    (Protocol71.addCreature loggedInSession rat OutgoingPacket.empty).1.knownCreatures
      = 100 :: List.replicate 63 0 ∧
    (Protocol71.addCreature loggedInSession rat OutgoingPacket.empty).2.bytes
      = [0x61, 0x00, 0, 0, 0, 0, 100, 0, 0, 0, 3, 0, 82, 97, 116,
          0, 2, 21, 0, 0, 0, 0, 0x00, 0xDC, 44, 1] := by
  obtain ⟨i, _, _, _, h1, _, _, h2⟩ :=
    addCreature_takes_first_free_slot loggedInSession rat OutgoingPacket.empty
      (by decide) (by decide) (by decide) (by decide)
  exact ⟨by decide, by rw [h2]; decide⟩

/-- C16 on the code: with all 64 slots taken by the ids 1 to 64, `addCreature`
for creature 100 (the rat, `maxHealth` 100) takes the branch for a full cache,
which stores nothing: slot 0 still holds id 1, the whole cache is as it was,
and the evicted id written behind `0x61 0x00` is 0, not 1. -/
theorem addCreature_full_cache_evicts_nothing :
    Creature.INVALID_ID ∉ fullCacheSession.knownCreatures ∧
    rat.creatureId ∉ fullCacheSession.knownCreatures ∧
    fullCacheSession.knownCreatures[0]? = some 1 ∧
    (Protocol71.addCreature fullCacheSession rat OutgoingPacket.empty).1.knownCreatures
      = fullCacheSession.knownCreatures ∧
    (Protocol71.addCreature fullCacheSession rat OutgoingPacket.empty).2.bytes.take 10
      = [0x61, 0x00, 0, 0, 0, 0, 100, 0, 0, 0] := by
  decide

/-- C17: when the creature's id is in the cache, `addCreature` appends the
known form `0x62, 0x00`, the id as u32 (no name), followed by the bytes common
to both forms, and leaves the session, and so every cache slot, as it was. The
creature has `maxHealth ≠ 0`: for `maxHealth = 0` the source divides by zero
when it computes the health byte, and builds no packet. -/
theorem addCreature_known_form (s : Protocol71) (creature : Creature) (out : OutgoingPacket)
    (hknown : creature.creatureId ∈ s.knownCreatures) (_hmax : creature.maxHealth ≠ 0) :
    (Protocol71.addCreature s creature out).1 = s ∧
    (Protocol71.addCreature s creature out).2.bytes
      = out.bytes ++ [0x62, 0x00] ++ wireBytesU32 creature.creatureId
          ++ creatureTrailer creature := by
  rw [Protocol71.addCreature_known s creature out hknown]
  exact ⟨rfl, rfl⟩

/-- C17 on the full cache and creature 5, which slot 4 holds. -/
theorem addCreature_known_form_witness :
    (Protocol71.addCreature fullCacheSession { rat with creatureId := 5 }
        OutgoingPacket.empty).1 = fullCacheSession ∧
    (Protocol71.addCreature fullCacheSession { rat with creatureId := 5 }
        OutgoingPacket.empty).2.bytes
      = [0x62, 0x00, 5, 0, 0, 0, 0, 2, 21, 0, 0, 0, 0, 0x00, 0xDC, 44, 1] := by
  have h := addCreature_known_form fullCacheSession { rat with creatureId := 5 }
    OutgoingPacket.empty (by decide) (by decide)
  exact ⟨h.1, by rw [h.2]; decide⟩

/-- C18 on the code: for the rat, which has 50 of 100 health points, the byte
behind the 15 bytes of the 0x61 header is 0, whereas 100 * 50 / 100 is 50; the
source divides before it multiplies (`health / maxHealth * 100`). At full
health the byte is 100. -/
theorem health_byte_divides_first :
    (Protocol71.addCreature loggedInSession rat OutgoingPacket.empty).2.bytes
      = [0x61, 0x00, 0, 0, 0, 0, 100, 0, 0, 0, 3, 0, 82, 97, 116]
          ++ [0, 2, 21, 0, 0, 0, 0, 0x00, 0xDC, 44, 1] ∧
    100 * rat.health / rat.maxHealth = 50 ∧
    (Protocol71.addCreature loggedInSession { rat with health := 100 }
        OutgoingPacket.empty).2.bytes
      = [0x61, 0x00, 0, 0, 0, 0, 100, 0, 0, 0, 3, 0, 82, 97, 116]
          ++ [100, 2, 21, 0, 0, 0, 0, 0x00, 0xDC, 44, 1] := by
  decide

/-! ## Visibility and creature moves -/

/-- C19: `canSee` holds exactly for the positions with
`px - 8 ≤ x ≤ px + 9` and `py - 6 ≤ y ≤ py + 7`, the comparisons being over the
integers (no wrap-around at 0 or 65535); that is, exactly for the positions
`(px - 8 + dx, py - 6 + dy)` with `dx < 18` and `dy < 14`, an 18 by 14
rectangle. The floor `z` plays no part. -/
theorem canSee_iff_in_rectangle (w : WorldInterface) (s : Protocol71) (p : Position) :
    (Protocol71.canSee w s p = true ↔
      ((w.getCreaturePosition s.playerId).x : Int) - 8 ≤ p.x ∧
      (p.x : Int) ≤ (w.getCreaturePosition s.playerId).x + 9 ∧
      ((w.getCreaturePosition s.playerId).y : Int) - 6 ≤ p.y ∧
      (p.y : Int) ≤ (w.getCreaturePosition s.playerId).y + 7) ∧
    (Protocol71.canSee w s p = true ↔
      ∃ dx dy : Nat, dx < 18 ∧ dy < 14 ∧
        (p.x : Int) = (w.getCreaturePosition s.playerId).x - 8 + dx ∧
        (p.y : Int) = (w.getCreaturePosition s.playerId).y - 6 + dy) := by
  have h1 : Protocol71.canSee w s p = true ↔
      ((w.getCreaturePosition s.playerId).x : Int) - 8 ≤ p.x ∧
      (p.x : Int) ≤ (w.getCreaturePosition s.playerId).x + 9 ∧
      ((w.getCreaturePosition s.playerId).y : Int) - 6 ≤ p.y ∧
      (p.y : Int) ≤ (w.getCreaturePosition s.playerId).y + 7 := by
    simp only [Protocol71.canSee, Bool.and_eq_true, decide_eq_true_eq]
    omega
  refine ⟨h1, h1.trans ⟨?_, ?_⟩⟩
  · rintro ⟨a, b, c, d⟩
    refine ⟨((p.x : Int) - ((w.getCreaturePosition s.playerId).x - 8)).toNat,
      ((p.y : Int) - ((w.getCreaturePosition s.playerId).y - 6)).toNat, ?_, ?_, ?_, ?_⟩ <;> omega
  · rintro ⟨dx, dy, hx, hy, ex, ey⟩
    omega

/-! ## Lemmas on `addMapData` and `onCreatureMove` -/

namespace Protocol71

theorem Extends.refl (s : Protocol71) (out : OutgoingPacket) : Extends s out (s, out) :=
  ⟨⟨s.knownCreatures, rfl⟩, ⟨[], by simp⟩⟩

theorem Extends.trans {s s1 : Protocol71} {out out1 : OutgoingPacket}
    {r : Protocol71 × OutgoingPacket} (h1 : Extends s out (s1, out1)) (h2 : Extends s1 out1 r) :
    Extends s out r := by
  obtain ⟨⟨k1, hk1⟩, ⟨e1, he1⟩⟩ := h1
  obtain ⟨⟨k2, hk2⟩, ⟨e2, he2⟩⟩ := h2
  simp only at hk1 he1
  refine ⟨⟨k2, ?_⟩, ⟨e1 ++ e2, ?_⟩⟩
  · rw [hk2, hk1]
  · rw [he2, he1, List.append_assoc]

/-- Appending bytes to the packet and keeping the session. -/
theorem Extends.packet (s : Protocol71) (out out1 : OutgoingPacket) (ext : List Nat)
    (h : out1.bytes = out.bytes ++ ext) : Extends s out (s, out1) :=
  ⟨⟨s.knownCreatures, rfl⟩, ⟨ext, h⟩⟩

theorem addItem_bytes (item : Item) (out : OutgoingPacket) :
    ∃ ext, (addItem item out).bytes = out.bytes ++ ext := by
  unfold addItem
  split_ifs
  · exact ⟨wireBytesU16 item.itemId ++ [item.count % 256], by
      simp only [addU8_bytes, addU16_bytes, List.append_assoc]⟩
  · exact ⟨wireBytesU16 item.itemId ++ [item.subtype % 256], by
      simp only [addU8_bytes, addU16_bytes, List.append_assoc]⟩
  · exact ⟨wireBytesU16 item.itemId, by simp only [addU16_bytes]⟩

theorem addItem_extends (s : Protocol71) (item : Item) (out : OutgoingPacket) :
    Extends s out (s, addItem item out) := by
  obtain ⟨ext, h⟩ := addItem_bytes item out
  exact Extends.packet s out _ ext h

theorem addCreature_extends (s : Protocol71) (creature : Creature) (out : OutgoingPacket) :
    Extends s out (addCreature s creature out) := by
  refine ⟨?_, ⟨_, addCreature_bytes s creature out⟩⟩
  by_cases h : creature.creatureId ∈ s.knownCreatures
  · rw [addCreature_known s creature out h]
    exact ⟨s.knownCreatures, rfl⟩
  · rw [addCreature_unknown s creature out h]
    split_ifs
    · exact ⟨s.knownCreatures, rfl⟩
    · exact ⟨_, rfl⟩

theorem addMapDataTopItems_extends (s : Protocol71) (items : List Item) (count : Nat)
    (out : OutgoingPacket) :
    Extends s out (s, (addMapDataTopItems items count out).2.2) := by
  induction items generalizing count out with
  | nil => exact Extends.refl s out
  | cons item rest ih =>
    unfold addMapDataTopItems
    split_ifs
    · exact Extends.refl s out
    · exact (addItem_extends s item out).trans (ih _ _)
    · exact Extends.refl s out

theorem addMapDataBottomItems_extends (s : Protocol71) (items : List Item) (count : Nat)
    (out : OutgoingPacket) :
    Extends s out (s, (addMapDataBottomItems items count out).2) := by
  induction items generalizing count out with
  | nil => exact Extends.refl s out
  | cons item rest ih =>
    unfold addMapDataBottomItems
    split_ifs
    · exact (addItem_extends s item out).trans (ih _ _)
    · exact Extends.refl s out

theorem addMapDataCreatures_extends (w : WorldInterface) (s : Protocol71) (ids : List Nat)
    (count : Nat) (out : OutgoingPacket) :
    Extends s out ((addMapDataCreatures w ids count s out).2.1,
      (addMapDataCreatures w ids count s out).2.2) := by
  induction ids generalizing count s out with
  | nil => exact Extends.refl s out
  | cons creatureId rest ih =>
    unfold addMapDataCreatures
    split_ifs
    · exact (addCreature_extends s (w.getCreature creatureId) out).trans (ih _ _ _)
    · exact Extends.refl s out

theorem addMapDataTile_extends (w : WorldInterface) (tile : Tile) (s : Protocol71)
    (out : OutgoingPacket) : Extends s out (addMapDataTile w tile s out) := by
  have heq : addMapDataTile w tile s out
      = ((addMapDataCreatures w tile.creatureIds
            (addMapDataTopItems tile.items 1 (addItem tile.ground out)).2.1 s
            (addMapDataTopItems tile.items 1 (addItem tile.ground out)).2.2).2.1,
          (addMapDataBottomItems (addMapDataTopItems tile.items 1 (addItem tile.ground out)).1
            (addMapDataCreatures w tile.creatureIds
              (addMapDataTopItems tile.items 1 (addItem tile.ground out)).2.1 s
              (addMapDataTopItems tile.items 1 (addItem tile.ground out)).2.2).1
            (addMapDataCreatures w tile.creatureIds
              (addMapDataTopItems tile.items 1 (addItem tile.ground out)).2.1 s
              (addMapDataTopItems tile.items 1 (addItem tile.ground out)).2.2).2.2).2) := rfl
  rw [heq]
  have h1 := addItem_extends s tile.ground out
  have h2 := addMapDataTopItems_extends s tile.items 1 (addItem tile.ground out)
  have h3 := addMapDataCreatures_extends w s tile.creatureIds
    (addMapDataTopItems tile.items 1 (addItem tile.ground out)).2.1
    (addMapDataTopItems tile.items 1 (addItem tile.ground out)).2.2
  have h4 := addMapDataBottomItems_extends
    (addMapDataCreatures w tile.creatureIds
      (addMapDataTopItems tile.items 1 (addItem tile.ground out)).2.1 s
      (addMapDataTopItems tile.items 1 (addItem tile.ground out)).2.2).2.1
    (addMapDataTopItems tile.items 1 (addItem tile.ground out)).1
    (addMapDataCreatures w tile.creatureIds
      (addMapDataTopItems tile.items 1 (addItem tile.ground out)).2.1 s
      (addMapDataTopItems tile.items 1 (addItem tile.ground out)).2.2).1
    (addMapDataCreatures w tile.creatureIds
      (addMapDataTopItems tile.items 1 (addItem tile.ground out)).2.1 s
      (addMapDataTopItems tile.items 1 (addItem tile.ground out)).2.2).2.2
  exact ((h1.trans h2).trans h3).trans h4

theorem addMapDataStep_extends (w : WorldInterface) (width height x y : Nat) (s : Protocol71)
    (out : OutgoingPacket) (it : List (Option Tile)) :
    Extends s out ((addMapDataStep w width height x y (s, out, it)).1,
      (addMapDataStep w width height x y (s, out, it)).2.1) := by
  have hsep : ∀ (s1 : Protocol71) (o : OutgoingPacket),
      Extends s1 o (s1, if x ≠ width - 1 ∨ y ≠ height - 1 then (o.addU8 0x00).addU8 0xFF else o) := by
    intro s1 o
    split_ifs
    · exact Extends.packet s1 o _ [0x00 % 256, 0xFF % 256] (by simp)
    · exact Extends.refl s1 o
  cases it with
  | nil => exact hsep s out
  | cons t rest =>
    cases t with
    | none => exact hsep s out
    | some tile =>
      exact @Extends.trans s (addMapDataTile w tile s out).1 out (addMapDataTile w tile s out).2 _
        (addMapDataTile_extends w tile s out) (hsep _ _)

/-- A fold whose every step extends the session and the packet extends them. -/
theorem foldl_extends {α : Type}
    (f : Protocol71 × OutgoingPacket × List (Option Tile) → α →
      Protocol71 × OutgoingPacket × List (Option Tile))
    (hf : ∀ s out it a, Extends s out ((f (s, out, it) a).1, (f (s, out, it) a).2.1))
    (l : List α) (s : Protocol71) (out : OutgoingPacket) (it : List (Option Tile)) :
    Extends s out ((l.foldl f (s, out, it)).1, (l.foldl f (s, out, it)).2.1) := by
  induction l generalizing s out it with
  | nil => exact Extends.refl s out
  | cons a rest ih =>
    simp only [List.foldl_cons]
    have h1 := hf s out it a
    have h2 := ih (f (s, out, it) a).1 (f (s, out, it) a).2.1 (f (s, out, it) a).2.2
    exact h1.trans h2

theorem addMapData_extends (w : WorldInterface) (s : Protocol71) (position : Position)
    (width height : Nat) (out : OutgoingPacket) :
    Extends s out (addMapData w s position width height out) := by
  unfold addMapData
  exact foldl_extends _
    (fun s1 o1 it1 x => foldl_extends _
      (fun s2 o2 it2 y => addMapDataStep_extends w width height x y s2 o2 it2) _ s1 o1 it1)
    _ s out _

/-- One strip of map data: an opcode, the map data of a block, two closing
bytes. The session changes at most in its cache and the packet grows by bytes
that start with the opcode. -/
theorem strip_extends (w : WorldInterface) (s : Protocol71) (position : Position)
    (width height op t1 t2 : Nat) (out : OutgoingPacket) :
    ∃ known rest,
      (addMapData w s position width height (out.addU8 op)).1
        = { s with knownCreatures := known } ∧
      (((addMapData w s position width height (out.addU8 op)).2.addU8 t1).addU8 t2).bytes
        = out.bytes ++ (op % 256) :: rest := by
  obtain ⟨⟨known, hk⟩, ⟨ext, he⟩⟩ := addMapData_extends w s position width height (out.addU8 op)
  refine ⟨known, ext ++ [t1 % 256, t2 % 256], hk, ?_⟩
  simp only [addU8_bytes, he, List.append_assoc, List.singleton_append, List.cons_append,
    List.nil_append]

/-- The bytes the second part of `onCreatureMove` appends are none, or start
with one of the opcodes 0x65 to 0x68; there are none, and the session is as it
was, when the creature is not the player of the session. -/
theorem onCreatureMoveMapData_extends (w : WorldInterface) (s : Protocol71)
    (creature : Creature) (oldPosition newPosition : Position) (out : OutgoingPacket) :
    ∃ known rest,
      (onCreatureMoveMapData w s creature oldPosition newPosition out).1
        = { s with knownCreatures := known } ∧
      (onCreatureMoveMapData w s creature oldPosition newPosition out).2.bytes
        = out.bytes ++ rest ∧
      (rest = [] ∨ ∃ op more, rest = op :: more ∧
        (op = 0x65 ∨ op = 0x66 ∨ op = 0x67 ∨ op = 0x68)) ∧
      (creature.creatureId ≠ s.playerId → rest = [] ∧ known = s.knownCreatures) := by
  unfold onCreatureMoveMapData
  by_cases hid : creature.creatureId = s.playerId
  · rw [if_pos hid]
    -- the row, if any
    have hrow : ∃ (s1 : Protocol71) (out1 : OutgoingPacket) (known : List Nat) (rest : List Nat),
        (if oldPosition.y > newPosition.y then
            (((addMapData w s (Position.ofInts ((oldPosition.x : Int) - 8)
                ((newPosition.y : Int) - 6) 7) 18 1 (out.addU8 0x65)).1,
              (((addMapData w s (Position.ofInts ((oldPosition.x : Int) - 8)
                ((newPosition.y : Int) - 6) 7) 18 1 (out.addU8 0x65)).2.addU8 0x7E).addU8 0xFF))
              : Protocol71 × OutgoingPacket)
          else if oldPosition.y < newPosition.y then
            ((addMapData w s (Position.ofInts ((oldPosition.x : Int) - 8)
                ((newPosition.y : Int) + 7) 7) 18 1 (out.addU8 0x67)).1,
              (((addMapData w s (Position.ofInts ((oldPosition.x : Int) - 8)
                ((newPosition.y : Int) + 7) 7) 18 1 (out.addU8 0x67)).2.addU8 0x7E).addU8 0xFF))
          else (s, out)) = (s1, out1) ∧
        s1 = { s with knownCreatures := known } ∧ out1.bytes = out.bytes ++ rest ∧
        (rest = [] ∨ ∃ op more, rest = op :: more ∧
          (op = 0x65 ∨ op = 0x66 ∨ op = 0x67 ∨ op = 0x68)) := by
      split_ifs
      · obtain ⟨known, rest, h1, h2⟩ := strip_extends w s (Position.ofInts
          ((oldPosition.x : Int) - 8) ((newPosition.y : Int) - 6) 7) 18 1 0x65 0x7E 0xFF out
        exact ⟨_, _, known, _, rfl, h1, h2, Or.inr ⟨_, _, rfl, by decide⟩⟩
      · obtain ⟨known, rest, h1, h2⟩ := strip_extends w s (Position.ofInts
          ((oldPosition.x : Int) - 8) ((newPosition.y : Int) + 7) 7) 18 1 0x67 0x7E 0xFF out
        exact ⟨_, _, known, _, rfl, h1, h2, Or.inr ⟨_, _, rfl, by decide⟩⟩
      · exact ⟨s, out, s.knownCreatures, [], rfl, rfl, by simp, Or.inl rfl⟩
    obtain ⟨s1, out1, known1, rest1, hrow1, hs1, ho1, hstart1⟩ := hrow
    have hrow2 : (if oldPosition.y > newPosition.y then
          (let packet := out.addU8 0x65
           let (s, packet) := addMapData w s (Position.ofInts ((oldPosition.x : Int) - 8)
                ((newPosition.y : Int) - 6) 7) 18 1 packet
           let packet := packet.addU8 0x7E
           let packet := packet.addU8 0xFF
           (s, packet) : Protocol71 × OutgoingPacket)
        else if oldPosition.y < newPosition.y then
          (let packet := out.addU8 0x67
           let (s, packet) := addMapData w s (Position.ofInts ((oldPosition.x : Int) - 8)
                ((newPosition.y : Int) + 7) 7) 18 1 packet
           let packet := packet.addU8 0x7E
           let packet := packet.addU8 0xFF
           (s, packet))
        else (s, out)) = (s1, out1) := hrow1
    rw [hrow2]
    simp only
    have hstart : ∀ rest2 : List Nat,
        (rest2 = [] ∨ ∃ op more, rest2 = op :: more ∧
          (op = 0x65 ∨ op = 0x66 ∨ op = 0x67 ∨ op = 0x68)) →
        (rest1 ++ rest2 = [] ∨ ∃ op more, rest1 ++ rest2 = op :: more ∧
          (op = 0x65 ∨ op = 0x66 ∨ op = 0x67 ∨ op = 0x68)) := by
      intro rest2 h2
      rcases hstart1 with h | ⟨op, more, h, hop⟩
      · rw [h]; simpa using h2
      · exact Or.inr ⟨op, more ++ rest2, by rw [h]; rfl, hop⟩
    split_ifs
    · obtain ⟨known, rest, h1, h2⟩ := strip_extends w s1 (Position.ofInts
        ((newPosition.x : Int) - 8) ((newPosition.y : Int) - 6) 7) 1 14 0x68 0x62 0xFF out1
      refine ⟨known, rest1 ++ (0x68 % 256) :: rest, ?_, ?_, hstart _ (Or.inr ⟨_, _, rfl, by decide⟩),
        fun hne => absurd hid hne⟩
      · exact h1.trans (by rw [hs1])
      · exact h2.trans (by rw [ho1, List.append_assoc])
    · obtain ⟨known, rest, h1, h2⟩ := strip_extends w s1 (Position.ofInts
        ((newPosition.x : Int) + 9) ((newPosition.y : Int) - 6) 7) 1 14 0x66 0x62 0xFF out1
      refine ⟨known, rest1 ++ (0x66 % 256) :: rest, ?_, ?_, hstart _ (Or.inr ⟨_, _, rfl, by decide⟩),
        fun hne => absurd hid hne⟩
      · exact h1.trans (by rw [hs1])
      · exact h2.trans (by rw [ho1, List.append_assoc])
    · refine ⟨known1, rest1 ++ [], hs1, ?_, hstart [] (Or.inl rfl), fun hne => absurd hid hne⟩
      rw [ho1, List.append_nil]
  · rw [if_neg hid]
    exact ⟨s.knownCreatures, [], rfl, by simp, Or.inl rfl, fun _ => ⟨rfl, rfl⟩⟩

end Protocol71

set_option maxRecDepth 100000 in
/-- C20, as stated, fails: the rat, which the cache of the session holds in
slot 0, steps from (91, 100), out of sight of player 42 at (100, 100), to
(92, 100), in sight. The packet is `0x6A`, the new position and the known form
`0x62 0x00 | id` without the name, not the full form `0x61` with the name. -/
theorem known_creature_enters_view_in_known_form :
    rat.creatureId ∈ ratKnownSession.knownCreatures ∧
    Protocol71.canSee emptyWorld ratKnownSession { x := 91, y := 100, z := 7 } = false ∧
    Protocol71.canSee emptyWorld ratKnownSession { x := 92, y := 100, z := 7 } = true ∧
    (Protocol71.onCreatureMove emptyWorld ratKnownSession rat { x := 91, y := 100, z := 7 } 1
        { x := 92, y := 100, z := 7 } 1).trace
      = [Effect.sendPacket 7 { bytes := [0x6A, 92, 0, 100, 0, 7,
          0x62, 0x00, 100, 0, 0, 0,
          0, 2, 21, 0, 0, 0, 0, 0x00, 0xDC, 44, 1] }] := by
  refine ⟨by decide, by decide, by decide, ?_⟩
  rfl

/-- C20, amended: on a connected session `onCreatureMove` sends one packet and
changes the session at most in its known-creature cache. The packet is,
followed by the map data `rest` of the second part of the function:
`0x6D | oldPos | oldStackPos | newPos` when both positions are visible,
`0x6C | oldPos | oldStackPos` when only the old one is, `rest` alone when
neither is, and when only the new one is `0x6A | newPos` and the creature as
`addCreature` encodes it for this session: the known form `0x62 0x00 | id` for
a creature whose id is in the cache, the full form
`0x61 0x00 | 0:u32 | id | name` for one whose id is not, each followed by the
bytes common to both forms. `rest` is empty or starts with one of the opcodes
0x65 to 0x68, and it is empty when the creature is not the session's player.
The moving creature and the creatures of the world have `maxHealth ≠ 0`: for a
creature with `maxHealth = 0` that is encoded the source divides by zero in
`addCreature`, and sends no packet. -/
theorem onCreatureMove_record (w : WorldInterface) (s : Protocol71) (creature : Creature)
    (oldPosition : Position) (oldStackPos : Nat) (newPosition : Position) (newStackPos : Nat)
    (hc : s.connected = true) (_hmax : creature.maxHealth ≠ 0)
    (_hcre : ∀ id, (w.getCreature id).maxHealth ≠ 0) :
    ∃ (known bytes rest : List Nat),
      Protocol71.onCreatureMove w s creature oldPosition oldStackPos newPosition newStackPos
        = { s with knownCreatures := known
                   trace := s.trace ++ [Effect.sendPacket s.connectionId { bytes := bytes }] } ∧
      (Protocol71.canSee w s oldPosition = true → Protocol71.canSee w s newPosition = true →
        bytes = [0x6D] ++ wireBytesPosition oldPosition ++ [oldStackPos % 256]
          ++ wireBytesPosition newPosition ++ rest) ∧
      (Protocol71.canSee w s oldPosition = true → Protocol71.canSee w s newPosition = false →
        bytes = [0x6C] ++ wireBytesPosition oldPosition ++ [oldStackPos % 256] ++ rest) ∧
      (Protocol71.canSee w s oldPosition = false → Protocol71.canSee w s newPosition = true →
        creature.creatureId ∈ s.knownCreatures →
        bytes = [0x6A] ++ wireBytesPosition newPosition
          ++ [0x62, 0x00] ++ wireBytesU32 creature.creatureId ++ creatureTrailer creature
          ++ rest) ∧
      (Protocol71.canSee w s oldPosition = false → Protocol71.canSee w s newPosition = true →
        creature.creatureId ∉ s.knownCreatures →
        bytes = [0x6A] ++ wireBytesPosition newPosition
          ++ [0x61, 0x00] ++ wireBytesU32 0 ++ wireBytesU32 creature.creatureId
          ++ wireBytesString creature.name ++ creatureTrailer creature ++ rest) ∧
      (Protocol71.canSee w s oldPosition = false → Protocol71.canSee w s newPosition = false →
        bytes = rest) ∧
      (rest = [] ∨ ∃ op more, rest = op :: more ∧
        (op = 0x65 ∨ op = 0x66 ∨ op = 0x67 ∨ op = 0x68)) ∧
      (creature.creatureId ≠ s.playerId → rest = []) := by
  have hc2 : s.isConnected = true := hc
  -- the record of the move
  have hrec : ∃ (s1 : Protocol71) (out1 : OutgoingPacket) (known1 : List Nat),
      Protocol71.onCreatureMoveRecord s creature (Protocol71.canSee w s oldPosition)
          (Protocol71.canSee w s newPosition) oldPosition oldStackPos newPosition
          OutgoingPacket.empty = (s1, out1) ∧
      s1 = { s with knownCreatures := known1 } ∧
      (Protocol71.canSee w s oldPosition = true → Protocol71.canSee w s newPosition = true →
        out1.bytes = [0x6D] ++ wireBytesPosition oldPosition ++ [oldStackPos % 256]
          ++ wireBytesPosition newPosition) ∧
      (Protocol71.canSee w s oldPosition = true → Protocol71.canSee w s newPosition = false →
        out1.bytes = [0x6C] ++ wireBytesPosition oldPosition ++ [oldStackPos % 256]) ∧
      (Protocol71.canSee w s oldPosition = false → Protocol71.canSee w s newPosition = true →
        out1.bytes = [0x6A] ++ wireBytesPosition newPosition
          ++ (Protocol71.addCreature s creature OutgoingPacket.empty).2.bytes) ∧
      (Protocol71.canSee w s oldPosition = false → Protocol71.canSee w s newPosition = false →
        out1.bytes = []) := by
    cases hold : Protocol71.canSee w s oldPosition <;>
      cases hnew : Protocol71.canSee w s newPosition
    · exact ⟨s, OutgoingPacket.empty, s.knownCreatures, rfl, rfl, by simp, by simp, by simp,
        fun _ _ => rfl⟩
    · obtain ⟨⟨known1, hk⟩, _⟩ := Protocol71.addCreature_extends s creature
        (Protocol71.addPosition newPosition (OutgoingPacket.empty.addU8 0x6A))
      refine ⟨(Protocol71.addCreature s creature
          (Protocol71.addPosition newPosition (OutgoingPacket.empty.addU8 0x6A))).1,
        (Protocol71.addCreature s creature
          (Protocol71.addPosition newPosition (OutgoingPacket.empty.addU8 0x6A))).2,
        known1, rfl, hk, by simp, by simp, fun _ _ => ?_, by simp⟩
      refine (Protocol71.addCreature_bytes s creature _).trans ?_
      rw [Protocol71.addPosition_wire, Protocol71.addU8_bytes]
      rfl
    · refine ⟨s, ((OutgoingPacket.empty.addU8 0x6C) |> Protocol71.addPosition oldPosition).addU8
          oldStackPos, s.knownCreatures, rfl, rfl, by simp, fun _ _ => ?_, by simp, by simp⟩
      rw [Protocol71.addU8_bytes, Protocol71.addPosition_wire, Protocol71.addU8_bytes]
      rfl
    · refine ⟨s, Protocol71.addPosition newPosition
          (((OutgoingPacket.empty.addU8 0x6D) |> Protocol71.addPosition oldPosition).addU8
            oldStackPos), s.knownCreatures, rfl, rfl, fun _ _ => ?_, by simp, by simp, by simp⟩
      rw [Protocol71.addPosition_wire, Protocol71.addU8_bytes, Protocol71.addPosition_wire,
        Protocol71.addU8_bytes]
      rfl
  obtain ⟨s1, out1, known1, hrec1, hs1, hboth, honlyOld, honlyNew, hneither⟩ := hrec
  obtain ⟨known, rest, hm1, hm2, hstart, hother⟩ :=
    Protocol71.onCreatureMoveMapData_extends w s1 creature oldPosition newPosition out1
  have hplayer : s1.playerId = s.playerId := by rw [hs1]
  have hconn : s1.connectionId = s.connectionId := by rw [hs1]
  have htrace : s1.trace = s.trace := by rw [hs1]
  refine ⟨known, out1.bytes ++ rest, rest, ?_, ?_, ?_, ?_, ?_, ?_, hstart, ?_⟩
  · have hdef : Protocol71.onCreatureMove w s creature oldPosition oldStackPos newPosition
          newStackPos
        = (Protocol71.onCreatureMoveMapData w s1 creature oldPosition newPosition out1).1.sendPacket
            (Protocol71.onCreatureMoveMapData w s1 creature oldPosition newPosition out1).2 := by
      unfold Protocol71.onCreatureMove
      simp only [hc2, Bool.not_true, Bool.false_eq_true, if_false]
      rw [hrec1]
    rw [hdef, hm1, ← hm2, hs1]
    rfl
  · intro h1 h2; rw [hboth h1 h2]
  · intro h1 h2; rw [honlyOld h1 h2]
  · intro h1 h2 hk
    rw [honlyNew h1 h2, Protocol71.addCreature_known s creature OutgoingPacket.empty hk]
    simp [OutgoingPacket.empty, List.append_assoc]
  · intro h1 h2 hk
    rw [honlyNew h1 h2, Protocol71.addCreature_unknown s creature OutgoingPacket.empty hk]
    simp [OutgoingPacket.empty, List.append_assoc]
  · intro h1 h2; rw [hneither h1 h2]; rfl
  · intro hne
    exact (hother (by rw [hplayer]; exact hne)).1

/-- C20, amended, in the world without tiles, for player 42 at (100, 100, 7)
and the rat: a step from (92, 100) to (91, 100) leaves the view; a step from
(91, 100) to (92, 100) enters it, in the full form on a session that does not
know the rat and in the known form on one that does; a step from (92, 100) to
(93, 100) stays inside it. -/
theorem onCreatureMove_record_witness :
    (Protocol71.onCreatureMove emptyWorld loggedInSession rat { x := 92, y := 100, z := 7 } 1
        { x := 91, y := 100, z := 7 } 1).trace
      = [Effect.sendPacket 7 { bytes := [0x6C, 92, 0, 100, 0, 7, 1] }] ∧
    (Protocol71.onCreatureMove emptyWorld loggedInSession rat { x := 91, y := 100, z := 7 } 1
        { x := 92, y := 100, z := 7 } 1).trace
      = [Effect.sendPacket 7 { bytes := [0x6A, 92, 0, 100, 0, 7,
          0x61, 0x00, 0, 0, 0, 0, 100, 0, 0, 0, 3, 0, 82, 97, 116,
          0, 2, 21, 0, 0, 0, 0, 0x00, 0xDC, 44, 1] }] ∧
    (Protocol71.onCreatureMove emptyWorld ratKnownSession rat { x := 91, y := 100, z := 7 } 1
        { x := 92, y := 100, z := 7 } 1).trace
      = [Effect.sendPacket 7 { bytes := [0x6A, 92, 0, 100, 0, 7,
          0x62, 0x00, 100, 0, 0, 0,
          0, 2, 21, 0, 0, 0, 0, 0x00, 0xDC, 44, 1] }] ∧
    (Protocol71.onCreatureMove emptyWorld loggedInSession rat { x := 92, y := 100, z := 7 } 1
        { x := 93, y := 100, z := 7 } 1).trace
      = [Effect.sendPacket 7 { bytes := [0x6D, 92, 0, 100, 0, 7, 1, 93, 0, 100, 0, 7] }] := by
  obtain ⟨k1, b1, r1, e1, _, h1, _, _, _, _, n1⟩ := onCreatureMove_record emptyWorld
    loggedInSession rat { x := 92, y := 100, z := 7 } 1 { x := 91, y := 100, z := 7 } 1 rfl
    (by decide) (fun _ => (by decide : rat.maxHealth ≠ 0))
  obtain ⟨k2, b2, r2, e2, _, _, _, h2, _, _, n2⟩ := onCreatureMove_record emptyWorld
    loggedInSession rat { x := 91, y := 100, z := 7 } 1 { x := 92, y := 100, z := 7 } 1 rfl
    (by decide) (fun _ => (by decide : rat.maxHealth ≠ 0))
  obtain ⟨k3, b3, r3, e3, h3, _, _, _, _, _, n3⟩ := onCreatureMove_record emptyWorld
    loggedInSession rat { x := 92, y := 100, z := 7 } 1 { x := 93, y := 100, z := 7 } 1 rfl
    (by decide) (fun _ => (by decide : rat.maxHealth ≠ 0))
  obtain ⟨k4, b4, r4, e4, _, _, h4, _, _, _, n4⟩ := onCreatureMove_record emptyWorld
    ratKnownSession rat { x := 91, y := 100, z := 7 } 1 { x := 92, y := 100, z := 7 } 1 rfl
    (by decide) (fun _ => (by decide : rat.maxHealth ≠ 0))
  refine ⟨?_, ?_, ?_, ?_⟩
  · rw [e1, h1 (by decide) (by decide), n1 (by decide)]; rfl
  · rw [e2, h2 (by decide) (by decide) (by decide), n2 (by decide)]; rfl
  · rw [e4, h4 (by decide) (by decide) (by decide), n4 (by decide)]; rfl
  · rw [e3, h3 (by decide) (by decide), n3 (by decide)]; rfl

/-! ## Disconnecting and despawning -/

/-- C26: `disconnected()` marks the session not-connected and then does one of
two things: a logged-in session enqueues one `playerDespawn` task for its
player id and does not call `closeProtocol`; a session that is not logged in
calls `closeProtocol` once and enqueues nothing. -/
theorem disconnected_outcomes (s : Protocol71) :
    (s.playerId ≠ Creature.INVALID_ID →
      Protocol71.disconnected s
        = { s with connected := false
                   trace := s.trace ++ [Effect.addTask (EngineTask.playerDespawn s.playerId)] }) ∧
    (s.playerId = Creature.INVALID_ID →
      Protocol71.disconnected s
        = { s with connected := false, trace := s.trace ++ [Effect.closeProtocol] }) := by
  constructor
  · intro h
    have hl : ({ s with connected := false } : Protocol71).isLoggedIn = true := by
      simp [Protocol71.isLoggedIn, h]
    unfold Protocol71.disconnected
    simp only [hl, if_true]
    rfl
  · intro h
    have hl : ({ s with connected := false } : Protocol71).isLoggedIn = false := by
      simp [Protocol71.isLoggedIn, h]
    unfold Protocol71.disconnected
    simp only [hl, Bool.false_eq_true, if_false]
    rfl

/-- C26 on a session logged in as player 42 and on a fresh session. -/
theorem disconnected_outcomes_witness :
    (Protocol71.disconnected loggedInSession).trace
      = [Effect.addTask (EngineTask.playerDespawn 42)] ∧
    (Protocol71.disconnected loggedInSession).connected = false ∧
    (Protocol71.disconnected freshSession).trace = [Effect.closeProtocol] ∧
    (Protocol71.disconnected freshSession).connected = false := by
  have h1 := (disconnected_outcomes loggedInSession).1 (by decide)
  have h2 := (disconnected_outcomes freshSession).2 rfl
  rw [h1, h2]
  exact ⟨rfl, rfl, rfl, rfl⟩

/-- C27: on a session that is not connected, `onCreatureDespawn` sends nothing
and calls `closeProtocol` exactly when the creature is the session's player.
On a connected session it sends the one packet `0x83 | pos | 0x02 | 0x6C | pos
| stackPos` and then, exactly when the creature is the session's player, calls
`closeConnection(connectionId, false)` and `closeProtocol`. -/
theorem onCreatureDespawn_outcomes (s : Protocol71) (creature : Creature)
    (position : Position) (stackPos : Nat) :
    (s.connected = false → creature.creatureId = s.playerId →
      Protocol71.onCreatureDespawn s creature position stackPos
        = { s with trace := s.trace ++ [Effect.closeProtocol] }) ∧
    (s.connected = false → creature.creatureId ≠ s.playerId →
      Protocol71.onCreatureDespawn s creature position stackPos = s) ∧
    (s.connected = true → creature.creatureId = s.playerId →
      Protocol71.onCreatureDespawn s creature position stackPos
        = { s with trace := s.trace ++
              [Effect.sendPacket s.connectionId
                { bytes := [0x83] ++ wireBytesPosition position ++ [0x02, 0x6C]
                    ++ wireBytesPosition position ++ [stackPos % 256] },
               Effect.closeConnection s.connectionId false,
               Effect.closeProtocol] }) ∧
    (s.connected = true → creature.creatureId ≠ s.playerId →
      Protocol71.onCreatureDespawn s creature position stackPos
        = { s with trace := s.trace ++
              [Effect.sendPacket s.connectionId
                { bytes := [0x83] ++ wireBytesPosition position ++ [0x02, 0x6C]
                    ++ wireBytesPosition position ++ [stackPos % 256] }] }) := by
  have hpacket :
      (((((((OutgoingPacket.empty.addU8 0x83) |> Protocol71.addPosition position).addU8
          0x02).addU8 0x6C) |> Protocol71.addPosition position).addU8 stackPos)
        : OutgoingPacket)
        = { bytes := [0x83] ++ wireBytesPosition position ++ [0x02, 0x6C]
              ++ wireBytesPosition position ++ [stackPos % 256] } := by
    apply Protocol71.OutgoingPacket_eq_of_bytes
    simp [OutgoingPacket.empty]
  refine ⟨fun hc hid => ?_, fun hc hid => ?_, fun hc hid => ?_, fun hc hid => ?_⟩
  · have hc2 : s.isConnected = false := hc
    unfold Protocol71.onCreatureDespawn
    simp only [hc2, Bool.not_false, if_true, hid]
    rfl
  · have hc2 : s.isConnected = false := hc
    unfold Protocol71.onCreatureDespawn
    simp only [hc2, Bool.not_false, if_true, hid, if_false]
  · have hc2 : s.isConnected = true := hc
    unfold Protocol71.onCreatureDespawn
    simp only [hc2, Bool.not_true, Bool.false_eq_true, if_false]
    have hid2 : creature.creatureId = (s.sendPacket
        ((((((OutgoingPacket.empty.addU8 0x83) |> Protocol71.addPosition position).addU8
          0x02).addU8 0x6C) |> Protocol71.addPosition position).addU8 stackPos)).playerId := hid
    rw [if_pos hid2, hpacket]
    simp [Protocol71.sendPacket, Protocol71.closeConnection, Protocol71.emit]
  · have hc2 : s.isConnected = true := hc
    unfold Protocol71.onCreatureDespawn
    simp only [hc2, Bool.not_true, Bool.false_eq_true, if_false]
    have hid2 : ¬ creature.creatureId = (s.sendPacket
        ((((((OutgoingPacket.empty.addU8 0x83) |> Protocol71.addPosition position).addU8
          0x02).addU8 0x6C) |> Protocol71.addPosition position).addU8 stackPos)).playerId := hid
    rw [if_neg hid2, hpacket]
    rfl

/-- C27 for player 42: the despawn of the rat and of the player itself on a
connected session, and of the player itself after the disconnect. -/
theorem onCreatureDespawn_outcomes_witness :
    (Protocol71.onCreatureDespawn loggedInSession rat { x := 100, y := 300, z := 7 } 1).trace
      = [Effect.sendPacket 7
          { bytes := [0x83, 100, 0, 44, 1, 7, 0x02, 0x6C, 100, 0, 44, 1, 7, 1] }] ∧
    (Protocol71.onCreatureDespawn loggedInSession { rat with creatureId := 42 }
        { x := 100, y := 300, z := 7 } 1).trace
      = [Effect.sendPacket 7
          { bytes := [0x83, 100, 0, 44, 1, 7, 0x02, 0x6C, 100, 0, 44, 1, 7, 1] },
         Effect.closeConnection 7 false, Effect.closeProtocol] ∧
    (Protocol71.onCreatureDespawn (Protocol71.disconnected loggedInSession)
        { rat with creatureId := 42 } { x := 100, y := 300, z := 7 } 1).trace
      = [Effect.addTask (EngineTask.playerDespawn 42), Effect.closeProtocol] ∧
    (Protocol71.onCreatureDespawn (Protocol71.disconnected loggedInSession) rat
        { x := 100, y := 300, z := 7 } 1).trace
      = [Effect.addTask (EngineTask.playerDespawn 42)] := by
  have h1 := (onCreatureDespawn_outcomes loggedInSession rat
    { x := 100, y := 300, z := 7 } 1).2.2.2 rfl (by decide)
  have h2 := (onCreatureDespawn_outcomes loggedInSession { rat with creatureId := 42 }
    { x := 100, y := 300, z := 7 } 1).2.2.1 rfl rfl
  have h3 := (onCreatureDespawn_outcomes (Protocol71.disconnected loggedInSession)
    { rat with creatureId := 42 } { x := 100, y := 300, z := 7 } 1).1 rfl rfl
  have h4 := (onCreatureDespawn_outcomes (Protocol71.disconnected loggedInSession) rat
    { x := 100, y := 300, z := 7 } 1).2.1 rfl (by decide)
  rw [h1, h2, h3, h4]
  exact ⟨rfl, rfl, rfl, rfl⟩

/-! ## Lemmas on the login server -/

namespace LoginServer

theorem peekU32_advance (p : IncomingPacket) (n : Nat) :
    (p.advance n).peekU32.1 = p.wireU32 n := by
  rw [IncomingPacket.peekU32_value]; rfl

/-- The bytes the loop over the characters appends. -/
theorem addCharacters_bytes (characters : List Character) (out : OutgoingPacket) :
    (addCharacters characters out).bytes
      = out.bytes ++ (characters.map wireBytesCharacter).flatten := by
  unfold addCharacters
  induction characters generalizing out with
  | nil => simp
  | cons c rest ih =>
    simp only [List.foldl_cons, List.map_cons, List.flatten_cons]
    rw [ih]
    simp [wireBytesCharacter]

/-- The function `parseLogin` by the account number at offset 16 and the
password string at offset 20 of the body. -/
theorem parseLogin_response (g : LoginServer) (connectionId : Nat) (p : IncomingPacket) :
    parseLogin g connectionId p
      = ({ g with trace := g.trace ++
            [LoginEffect.sendPacket connectionId
              { bytes := [0x14] ++ wireBytesString ([0x30, 0x0A] ++ g.motd) ++
                  (if g.accountReader.accountExists (p.wireU32 16) = false then
                    [0x0A] ++ wireBytesString (strBytes ("Invalid account number"))
                  else if g.accountReader.verifyPassword (p.wireU32 16) (p.wireString 20)
                      = false then
                    [0x0A] ++ wireBytesString (strBytes ("Invalid password"))
                  else
                    [0x64, (g.accountReader.getAccount (p.wireU32 16)).characters.length % 256]
                      ++ ((g.accountReader.getAccount
                            (p.wireU32 16)).characters.map wireBytesCharacter).flatten
                      ++ wireBytesU16 (g.accountReader.getAccount (p.wireU32 16)).premiumDays) },
             LoginEffect.closeConnection connectionId] },
          p.advance (22 + p.wireU16 20)) := by
  unfold parseLogin
  simp only [IncomingPacket.getU16, IncomingPacket.getU32, IncomingPacket.getBytes,
    IncomingPacket.peekBytes, IncomingPacket.peekU16_snd, IncomingPacket.advance_advance]
  have h32 : (p.advance (2 + 2 + 12)).peekU32 = (p.wireU32 16, p.advance 16) :=
    Prod.ext (peekU32_advance p 16) rfl
  rw [h32]
  simp only [IncomingPacket.advance_advance]
  rw [Protocol71.getString_advance]
  simp only
  refine Prod.ext ?_ ?_
  · simp only [emit, List.append_assoc, List.singleton_append]
    congr 3
    refine congrArg _ ?_
    apply Protocol71.OutgoingPacket_eq_of_bytes
    by_cases he : g.accountReader.accountExists (p.wireU32 16) = true
    · by_cases hv : g.accountReader.verifyPassword (p.wireU32 16) (p.wireString 20) = true
      · simp [he, hv, addCharacters_bytes, OutgoingPacket.empty]
      · simp [he, hv, OutgoingPacket.empty]
    · simp [he, OutgoingPacket.empty]
  · show p.advance (16 + 4 + (2 + p.wireU16 20)) = p.advance (22 + p.wireU16 20)
    congr 1
    omega

/-- A frame that holds one login message and nothing behind it: the loop of
`onPacketReceived` runs `parseLogin` once and ends. -/
theorem onPacketReceived_single (g : LoginServer) (connectionId : Nat) (q : IncomingPacket)
    (hlt : q.position < q.length) (hop : q.byteAt q.position = 0x01)
    (hend : q.length ≤ q.position + 1 + (22 + (q.advance 1).wireU16 20)) :
    onPacketReceived g connectionId q = parseLogin g connectionId (q.advance 1) := by
  have hfuel : q.length - q.position = (q.length - q.position - 1) + 1 := by omega
  have he : q.isEmpty = false := by simp [IncomingPacket.isEmpty]; exact hlt
  unfold onPacketReceived
  rw [hfuel]
  simp only [onPacketReceivedLoop, he, Bool.false_eq_true, if_false, IncomingPacket.getU8,
    IncomingPacket.peekU8, hop, if_true]
  have hempty : (parseLogin g connectionId (q.advance 1)).2.isEmpty = true := by
    rw [parseLogin_response]
    simp [IncomingPacket.isEmpty]
    omega
  generalize q.length - q.position - 1 = fuel
  cases fuel with
  | zero => rfl
  | succ n => simp [onPacketReceivedLoop, hempty]

end LoginServer

/-! ## The login server: responses -/

/-- C28: when the account number of a login message (u32 at offset 16 of the
body) is not in the account store, `parseLogin` sends one packet whose body is
`0x14`, the string made of `0`, a newline and the motd, `0x0A`, and the string
`Invalid account number`, and then closes the connection, whatever the
password is; a frame that holds just this message gets exactly this response. -/
theorem login_unknown_account (g : LoginServer) (connectionId : Nat) (p : IncomingPacket)
    (h : g.accountReader.accountExists (p.wireU32 16) = false) :
    LoginServer.parseLogin g connectionId p
      = ({ g with trace := g.trace ++
            [LoginEffect.sendPacket connectionId
              { bytes := [0x14] ++ wireBytesString ([0x30, 0x0A] ++ g.motd) ++ [0x0A]
                  ++ wireBytesString (strBytes ("Invalid account number")) },
             LoginEffect.closeConnection connectionId] },
          { p with position := p.position + (22 + p.wireU16 20) }) ∧
    (∀ q : IncomingPacket, q.position < q.length → q.byteAt q.position = 0x01 →
      p = { q with position := q.position + 1 } →
      q.length = q.position + 1 + (22 + p.wireU16 20) →
      (LoginServer.onPacketReceived g connectionId q).1
        = { g with trace := g.trace ++
            [LoginEffect.sendPacket connectionId
              { bytes := [0x14] ++ wireBytesString ([0x30, 0x0A] ++ g.motd) ++ [0x0A]
                  ++ wireBytesString (strBytes ("Invalid account number")) },
             LoginEffect.closeConnection connectionId] }) := by
  have hp : LoginServer.parseLogin g connectionId p
      = ({ g with trace := g.trace ++
            [LoginEffect.sendPacket connectionId
              { bytes := [0x14] ++ wireBytesString ([0x30, 0x0A] ++ g.motd) ++ [0x0A]
                  ++ wireBytesString (strBytes ("Invalid account number")) },
             LoginEffect.closeConnection connectionId] },
          { p with position := p.position + (22 + p.wireU16 20) }) := by
    rw [LoginServer.parseLogin_response, if_pos h]
    simp only [List.append_assoc]
    rfl
  refine ⟨hp, ?_⟩
  intro q hlt hop hq hlen
  have hq2 : q.advance 1 = p := by rw [hq]; rfl
  rw [LoginServer.onPacketReceived_single g connectionId q hlt hop (by rw [hq2, hlen]), hq2, hp]

/-- C28 for account 5, which the store does not hold. -/
theorem login_unknown_account_witness :
    (LoginServer.onPacketReceived heroLoginServer 9 (loginServerPacket 5 [112, 119])).1.trace
      = [LoginEffect.sendPacket 9
          { bytes := [0x14, 4, 0, 0x30, 0x0A, 72, 105, 0x0A, 22, 0]
              ++ strBytes ("Invalid account number") },
         LoginEffect.closeConnection 9] := by
  have h := (login_unknown_account heroLoginServer 9
    { loginServerPacket 5 [112, 119] with position := 1 } (by decide)).2
    (loginServerPacket 5 [112, 119]) (by decide) (by decide) rfl (by decide)
  rw [h]
  decide

/-- C29: when the account exists and the password (string at offset 20 of the
body) does not verify, `parseLogin` sends one packet whose body is `0x14`, the
string made of `0`, a newline and the motd, `0x0A`, and the string `Invalid
password`, with no character list, and then closes the connection; a frame that
holds just this message gets exactly this response. -/
theorem login_wrong_password (g : LoginServer) (connectionId : Nat) (p : IncomingPacket)
    (he : g.accountReader.accountExists (p.wireU32 16) = true)
    (hv : g.accountReader.verifyPassword (p.wireU32 16) (p.wireString 20) = false) :
    LoginServer.parseLogin g connectionId p
      = ({ g with trace := g.trace ++
            [LoginEffect.sendPacket connectionId
              { bytes := [0x14] ++ wireBytesString ([0x30, 0x0A] ++ g.motd) ++ [0x0A]
                  ++ wireBytesString (strBytes ("Invalid password")) },
             LoginEffect.closeConnection connectionId] },
          { p with position := p.position + (22 + p.wireU16 20) }) ∧
    (∀ q : IncomingPacket, q.position < q.length → q.byteAt q.position = 0x01 →
      p = { q with position := q.position + 1 } →
      q.length = q.position + 1 + (22 + p.wireU16 20) →
      (LoginServer.onPacketReceived g connectionId q).1
        = { g with trace := g.trace ++
            [LoginEffect.sendPacket connectionId
              { bytes := [0x14] ++ wireBytesString ([0x30, 0x0A] ++ g.motd) ++ [0x0A]
                  ++ wireBytesString (strBytes ("Invalid password")) },
             LoginEffect.closeConnection connectionId] }) := by
  have hp : LoginServer.parseLogin g connectionId p
      = ({ g with trace := g.trace ++
            [LoginEffect.sendPacket connectionId
              { bytes := [0x14] ++ wireBytesString ([0x30, 0x0A] ++ g.motd) ++ [0x0A]
                  ++ wireBytesString (strBytes ("Invalid password")) },
             LoginEffect.closeConnection connectionId] },
          { p with position := p.position + (22 + p.wireU16 20) }) := by
    rw [LoginServer.parseLogin_response, if_neg (by simp [he]), if_pos hv]
    simp only [List.append_assoc]
    rfl
  refine ⟨hp, ?_⟩
  intro q hlt hop hq hlen
  have hq2 : q.advance 1 = p := by rw [hq]; rfl
  rw [LoginServer.onPacketReceived_single g connectionId q hlt hop (by rw [hq2, hlen]), hq2, hp]

/-- C29 for account 1 with the password `px` instead of `pw`. -/
theorem login_wrong_password_witness :
    (LoginServer.onPacketReceived heroLoginServer 9 (loginServerPacket 1 [112, 120])).1.trace
      = [LoginEffect.sendPacket 9
          { bytes := [0x14, 4, 0, 0x30, 0x0A, 72, 105, 0x0A, 16, 0]
              ++ strBytes ("Invalid password") },
         LoginEffect.closeConnection 9] := by
  have h := (login_wrong_password heroLoginServer 9
    { loginServerPacket 1 [112, 120] with position := 1 } (by decide) (by decide)).2
    (loginServerPacket 1 [112, 120]) (by decide) (by decide) rfl (by decide)
  rw [h]
  decide

set_option maxRecDepth 100000 in
/-- C30 fails: for account 2, which has 256 characters, the byte `numChars`
behind `0x64` is 0, not the number of characters. -/
theorem login_character_count_wraps :
    heroLoginServer.accountReader.accountExists 2 = true ∧
    heroLoginServer.accountReader.verifyPassword 2 [112, 119] = true ∧
    (heroLoginServer.accountReader.getAccount 2).characters.length = 256 ∧
    ∃ bytes rest,
      (LoginServer.onPacketReceived heroLoginServer 9 (loginServerPacket 2 [112, 119])).1.trace
        = [LoginEffect.sendPacket 9 { bytes := bytes }, LoginEffect.closeConnection 9] ∧
      bytes = [0x14, 4, 0, 0x30, 0x0A, 72, 105, 0x64, 0] ++ rest := by
  refine ⟨by decide, by decide, by decide, ?_⟩
  rw [LoginServer.onPacketReceived_single heroLoginServer 9 (loginServerPacket 2 [112, 119])
    (by decide) (by decide) (by decide), LoginServer.parseLogin_response]
  have he : heroLoginServer.accountReader.accountExists
      ((loginServerPacket 2 [112, 119]).advance 1 |>.wireU32 16) = true := by decide
  have hv : heroLoginServer.accountReader.verifyPassword
      ((loginServerPacket 2 [112, 119]).advance 1 |>.wireU32 16)
      ((loginServerPacket 2 [112, 119]).advance 1 |>.wireString 20) = true := by decide
  have hn : ((loginServerPacket 2 [112, 119]).advance 1 |>.wireU32 16) = 2 := by decide
  rw [if_neg (by rw [he]; decide), if_neg (by rw [hv]; decide), hn]
  exact ⟨_, _, rfl, rfl⟩

/-- C30, amended: when the account exists and the password verifies,
`parseLogin` sends one packet whose body is `0x14`, the string made of `0`, a
newline and the motd, `0x64`, the byte `numChars` that is the number of the
account's characters modulo 256, then for each character in stored order
`name:string | worldName:string | worldIp:u32 | worldPort:u16`, and finally
`premiumDays:u16`; then it closes the connection. -/
theorem login_character_list (g : LoginServer) (connectionId : Nat) (p : IncomingPacket)
    (he : g.accountReader.accountExists (p.wireU32 16) = true)
    (hv : g.accountReader.verifyPassword (p.wireU32 16) (p.wireString 20) = true) :
    LoginServer.parseLogin g connectionId p
      = ({ g with trace := g.trace ++
            [LoginEffect.sendPacket connectionId
              { bytes := [0x14] ++ wireBytesString ([0x30, 0x0A] ++ g.motd)
                  ++ [0x64, (g.accountReader.getAccount (p.wireU32 16)).characters.length % 256]
                  ++ ((g.accountReader.getAccount (p.wireU32 16)).characters.map
                        wireBytesCharacter).flatten
                  ++ wireBytesU16 (g.accountReader.getAccount (p.wireU32 16)).premiumDays },
             LoginEffect.closeConnection connectionId] },
          { p with position := p.position + (22 + p.wireU16 20) }) ∧
    ((g.accountReader.getAccount (p.wireU32 16)).characters.length < 256 →
      (g.accountReader.getAccount (p.wireU32 16)).characters.length % 256
        = (g.accountReader.getAccount (p.wireU32 16)).characters.length) := by
  refine ⟨?_, fun hlt => Nat.mod_eq_of_lt hlt⟩
  rw [LoginServer.parseLogin_response, if_neg (by simp [he]), if_neg (by simp [hv])]
  simp only [List.append_assoc]
  rfl

/-- C30, amended, for account 1 with its one character `Hero`. -/
theorem login_character_list_witness :
    (LoginServer.parseLogin heroLoginServer 9
        { loginServerPacket 1 [112, 119] with position := 1 }).1.trace
      = [LoginEffect.sendPacket 9
          { bytes := [0x14, 4, 0, 0x30, 0x0A, 72, 105, 0x64, 1,
              4, 0, 72, 101, 114, 111, 7, 0, 68, 101, 102, 97, 117, 108, 116,
              0x7F, 0, 0, 1, 0x04, 0x1C, 0, 0] },
         LoginEffect.closeConnection 9] := by
  have h := (login_character_list heroLoginServer 9
    { loginServerPacket 1 [112, 119] with position := 1 } (by decide) (by decide)).1
  rw [h]
  decide

/-! ## Notifications after the disconnect -/

/-- A notification delivered to a session that is not connected leaves it not
connected, leaves the cache alone, and adds nothing to the trace but, at most,
one call of `closeProtocol`. -/
theorem Protocol71.notify_not_connected (w : WorldInterface) (s : Protocol71)
    (n : Notification) (hc : s.connected = false) :
    (Protocol71.notify w s n).connected = false ∧
    (Protocol71.notify w s n).knownCreatures = s.knownCreatures ∧
    ((Protocol71.notify w s n).trace = s.trace ∨
      (Protocol71.notify w s n).trace = s.trace ++ [Effect.closeProtocol]) := by
  have hc2 : s.isConnected = false := hc
  cases n with
  | creatureSpawn creature position =>
    simp [Protocol71.notify, Protocol71.onCreatureSpawn, hc2, hc]
  | creatureDespawn creature position stackPos =>
    simp only [Protocol71.notify, Protocol71.onCreatureDespawn, hc2, Bool.not_false, if_true]
    split_ifs
    · exact ⟨hc, rfl, Or.inr rfl⟩
    · exact ⟨hc, rfl, Or.inl rfl⟩
  | creatureMove creature oldPosition oldStackPos newPosition newStackPos =>
    simp [Protocol71.notify, Protocol71.onCreatureMove, hc2, hc]
  | creatureTurn creature position stackPos =>
    simp [Protocol71.notify, Protocol71.onCreatureTurn, hc2, hc]
  | creatureSay creature position message =>
    simp [Protocol71.notify, Protocol71.onCreatureSay, hc2, hc]
  | itemAdded item position =>
    simp [Protocol71.notify, Protocol71.onItemAdded, hc2, hc]
  | itemRemoved position stackPos =>
    simp [Protocol71.notify, Protocol71.onItemRemoved, hc2, hc]
  | tileUpdate position =>
    simp [Protocol71.notify, Protocol71.onTileUpdate, hc2, hc]
  | playerSpawn player position loginMessage =>
    have hc3 : ({ s with playerId := player.creature.creatureId } : Protocol71).isConnected
        = false := hc
    have h : Protocol71.onPlayerSpawn w s player position loginMessage
        = { s with playerId := player.creature.creatureId } := by
      unfold Protocol71.onPlayerSpawn
      exact if_pos (by rw [hc3]; rfl)
    simp [Protocol71.notify, h, hc]
  | equipmentUpdated player inventoryIndex =>
    simp [Protocol71.notify, Protocol71.onEquipmentUpdated, hc2, hc]
  | useItem item =>
    simp [Protocol71.notify, Protocol71.onUseItem, hc2, hc]
  | textMessage message =>
    simp [Protocol71.notify, Protocol71.sendTextMessage, hc2, hc]
  | cancel message =>
    simp [Protocol71.notify, Protocol71.sendCancel, hc2, hc]

/-- The same for any number of notifications, one after the other. -/
theorem Protocol71.notify_all_not_connected (w : WorldInterface) (ns : List Notification)
    (s : Protocol71) (hc : s.connected = false) :
    (ns.foldl (Protocol71.notify w) s).connected = false ∧
    (ns.foldl (Protocol71.notify w) s).knownCreatures = s.knownCreatures ∧
    ∃ extra, (ns.foldl (Protocol71.notify w) s).trace = s.trace ++ extra ∧
      ∀ e ∈ extra, e = Effect.closeProtocol := by
  induction ns generalizing s with
  | nil => exact ⟨hc, rfl, [], by simp, by simp⟩
  | cons n rest ih =>
    obtain ⟨h1, h2, h3⟩ := Protocol71.notify_not_connected w s n hc
    obtain ⟨g1, g2, extra, g3, g4⟩ := ih (Protocol71.notify w s n) h1
    simp only [List.foldl_cons]
    refine ⟨g1, g2.trans h2, ?_⟩
    rcases h3 with h3 | h3
    · exact ⟨extra, by rw [g3, h3], g4⟩
    · refine ⟨Effect.closeProtocol :: extra, by rw [g3, h3]; simp, ?_⟩
      intro e he
      rcases List.mem_cons.mp he with h | h
      · exact h
      · exact g4 e h

/-- C25: after `disconnected()` has run on a session, whatever notifications
come later (any of the thirteen, in any number and order, with any arguments),
the session stays not-connected, its known-creature cache is the one it had,
and the only calls added to its trace are calls of `closeProtocol`: no packet
is sent. -/
theorem no_packet_after_disconnect (w : WorldInterface) (s : Protocol71)
    (later : List Notification) :
    (later.foldl (Protocol71.notify w) (Protocol71.disconnected s)).connected = false ∧
    (later.foldl (Protocol71.notify w) (Protocol71.disconnected s)).knownCreatures
      = s.knownCreatures ∧
    ∃ extra,
      (later.foldl (Protocol71.notify w) (Protocol71.disconnected s)).trace
        = (Protocol71.disconnected s).trace ++ extra ∧
      (∀ e ∈ extra, e = Effect.closeProtocol) ∧
      ∀ connectionId packet, Effect.sendPacket connectionId packet ∉ extra := by
  have hc : (Protocol71.disconnected s).connected = false := by
    simp only [Protocol71.disconnected]
    split_ifs <;> rfl
  have hk : (Protocol71.disconnected s).knownCreatures = s.knownCreatures := by
    simp only [Protocol71.disconnected]
    split_ifs <;> rfl
  obtain ⟨h1, h2, extra, h3, h4⟩ :=
    Protocol71.notify_all_not_connected w later (Protocol71.disconnected s) hc
  refine ⟨h1, h2.trans hk, extra, h3, h4, ?_⟩
  intro connectionId packet hmem
  have := h4 _ hmem
  cases this

/-! ## Lemmas on the entries of a tile -/

namespace Protocol71

theorem encodeEntries_append (w : WorldInterface) (a b : List TileEntry) (s : Protocol71)
    (out : OutgoingPacket) :
    encodeEntries w (a ++ b) s out
      = encodeEntries w b (encodeEntries w a s out).1 (encodeEntries w a s out).2 := by
  induction a generalizing s out with
  | nil => rfl
  | cons e rest ih => exact ih _ _

/-- The bytes `addItem` appends do not depend on the packet it appends to. -/
theorem addItem_appends (item : Item) (out : OutgoingPacket) :
    addItem item out
      = { bytes := out.bytes ++ (addItem item OutgoingPacket.empty).bytes } := by
  apply OutgoingPacket_eq_of_bytes
  unfold addItem
  split_ifs <;> simp [OutgoingPacket.empty]

theorem encodeEntry_appends (w : WorldInterface) (e : TileEntry) (s : Protocol71)
    (out : OutgoingPacket) :
    encodeEntry w s out e
      = ((encodeEntry w s OutgoingPacket.empty e).1,
          { bytes := out.bytes ++ (encodeEntry w s OutgoingPacket.empty e).2.bytes }) := by
  cases e with
  | item item =>
    refine Prod.ext rfl ?_
    exact addItem_appends item out
  | creature creatureId =>
    refine Prod.ext (addCreature_session s _ out) ?_
    apply OutgoingPacket_eq_of_bytes
    exact addCreature_bytes s _ out

/-- What a sequence of entries appends, and the session it leaves, do not
depend on the packet it is appended to. -/
theorem encodeEntries_appends (w : WorldInterface) (es : List TileEntry) (s : Protocol71)
    (out : OutgoingPacket) :
    encodeEntries w es s out
      = ((encodeEntries w es s OutgoingPacket.empty).1,
          { bytes := out.bytes ++ (encodeEntries w es s OutgoingPacket.empty).2.bytes }) := by
  induction es generalizing s out with
  | nil => simp [encodeEntries, OutgoingPacket.empty]
  | cons e rest ih =>
    simp only [encodeEntries]
    rw [encodeEntry_appends w e s out, ih]
    rw [ih (encodeEntry w s OutgoingPacket.empty e).1
      (encodeEntry w s OutgoingPacket.empty e).2]
    simp [List.append_assoc]

theorem encodeEntries_items_fst (w : WorldInterface) (items : List Item) (s : Protocol71)
    (out : OutgoingPacket) :
    (encodeEntries w (items.map TileEntry.item) s out).1 = s := by
  induction items generalizing out with
  | nil => rfl
  | cons item rest ih => exact ih _

/-- The loop "Add top Items": it encodes the leading on-top items, as many as
the count allows, and leaves the iterator behind them. -/
theorem addMapDataTopItems_eq (w : WorldInterface) (s : Protocol71) (items : List Item)
    (count : Nat) (out : OutgoingPacket) :
    addMapDataTopItems items count out
      = (items.drop (min (10 - count) (items.takeWhile (fun i => i.alwaysOnTop)).length),
          count + min (10 - count) (items.takeWhile (fun i => i.alwaysOnTop)).length,
          (encodeEntries w (((items.takeWhile (fun i => i.alwaysOnTop)).take (10 - count)).map
            TileEntry.item) s out).2) := by
  induction items generalizing count out with
  | nil => simp [addMapDataTopItems, encodeEntries]
  | cons item rest ih =>
    unfold addMapDataTopItems
    by_cases hc : count < 10
    · by_cases ht : item.alwaysOnTop = true
      · have h10 : 10 - count = (10 - (count + 1)) + 1 := by omega
        simp only [hc, if_true, ht, Bool.not_true, Bool.false_eq_true, if_false]
        rw [ih, List.takeWhile_cons_of_pos (by simpa using ht), h10]
        simp only [List.length_cons, List.take_succ_cons, List.map_cons, encodeEntries,
          encodeEntry]
        refine Prod.ext ?_ (Prod.ext ?_ rfl)
        · simp only
          rw [Nat.add_min_add_right, List.drop_succ_cons]
        · simp only
          rw [Nat.add_min_add_right]
          omega
      · have ht2 : item.alwaysOnTop = false := by simpa using ht
        simp only [hc, if_true, ht2, Bool.not_false]
        rw [List.takeWhile_cons_of_neg (by simp [ht2])]
        simp [encodeEntries]
    · have h0 : 10 - count = 0 := by omega
      simp only [hc, if_false, h0]
      simp [encodeEntries]

/-- The loop "Add Creatures": it encodes the first creatures, as many as the
count allows. -/
theorem addMapDataCreatures_eq (w : WorldInterface) (ids : List Nat) (count : Nat)
    (s : Protocol71) (out : OutgoingPacket) :
    addMapDataCreatures w ids count s out
      = (count + min (10 - count) ids.length,
          (encodeEntries w ((ids.take (10 - count)).map TileEntry.creature) s out).1,
          (encodeEntries w ((ids.take (10 - count)).map TileEntry.creature) s out).2) := by
  induction ids generalizing count s out with
  | nil => simp [addMapDataCreatures, encodeEntries]
  | cons creatureId rest ih =>
    unfold addMapDataCreatures
    by_cases hc : count < 10
    · have h10 : 10 - count = (10 - (count + 1)) + 1 := by omega
      simp only [hc, if_true]
      rw [ih, h10]
      simp only [List.length_cons, List.take_succ_cons, List.map_cons, encodeEntries,
        encodeEntry]
      refine Prod.ext ?_ rfl
      simp only
      rw [Nat.add_min_add_right]
      omega
    · have h0 : 10 - count = 0 := by omega
      simp only [hc, if_false, h0]
      simp [encodeEntries]

/-- The loop "Add bottom Items": it encodes the first items left, as many as
the count allows. -/
theorem addMapDataBottomItems_eq (w : WorldInterface) (s : Protocol71) (items : List Item)
    (count : Nat) (out : OutgoingPacket) :
    addMapDataBottomItems items count out
      = (count + min (10 - count) items.length,
          (encodeEntries w ((items.take (10 - count)).map TileEntry.item) s out).2) := by
  induction items generalizing count out with
  | nil => simp [addMapDataBottomItems, encodeEntries]
  | cons item rest ih =>
    unfold addMapDataBottomItems
    by_cases hc : count < 10
    · have h10 : 10 - count = (10 - (count + 1)) + 1 := by omega
      simp only [hc, if_true]
      rw [ih, h10]
      simp only [List.length_cons, List.take_succ_cons, List.map_cons, encodeEntries,
        encodeEntry]
      refine Prod.ext ?_ rfl
      simp only
      rw [Nat.add_min_add_right]
      omega
    · have h0 : 10 - count = 0 := by omega
      simp only [hc, if_false, h0]
      simp [encodeEntries]

end Protocol71

namespace Protocol71

/-- The block of `addMapData` for a tile encodes the first ten entries of:
the ground, the leading on-top items, the creatures, the items left. -/
theorem addMapDataTile_eq (w : WorldInterface) (tile : Tile) (s : Protocol71)
    (out : OutgoingPacket) :
    addMapDataTile w tile s out
      = encodeEntries w
          ((specTileEntries tile.ground (tile.items.takeWhile (fun i => i.alwaysOnTop))
              tile.creatureIds (tile.items.dropWhile (fun i => i.alwaysOnTop))).take 10)
          s out := by
  -- the code, loop by loop
  have hcode : addMapDataTile w tile s out
      = ((encodeEntries w ((tile.creatureIds.take
              (10 - (1 + min 9 (tile.items.takeWhile (fun i => i.alwaysOnTop)).length))).map
              TileEntry.creature) s
            (encodeEntries w (((tile.items.takeWhile (fun i => i.alwaysOnTop)).take 9).map
              TileEntry.item) s (addItem tile.ground out)).2).1,
          (encodeEntries w
            (((tile.items.drop (min 9 (tile.items.takeWhile (fun i => i.alwaysOnTop)).length)).take
              (10 - (1 + min 9 (tile.items.takeWhile (fun i => i.alwaysOnTop)).length
                + min (10 - (1 + min 9 (tile.items.takeWhile (fun i => i.alwaysOnTop)).length))
                    tile.creatureIds.length))).map TileEntry.item)
            (encodeEntries w ((tile.creatureIds.take
              (10 - (1 + min 9 (tile.items.takeWhile (fun i => i.alwaysOnTop)).length))).map
              TileEntry.creature) s
            (encodeEntries w (((tile.items.takeWhile (fun i => i.alwaysOnTop)).take 9).map
              TileEntry.item) s (addItem tile.ground out)).2).1
            (encodeEntries w ((tile.creatureIds.take
              (10 - (1 + min 9 (tile.items.takeWhile (fun i => i.alwaysOnTop)).length))).map
              TileEntry.creature) s
            (encodeEntries w (((tile.items.takeWhile (fun i => i.alwaysOnTop)).take 9).map
              TileEntry.item) s (addItem tile.ground out)).2).2).2) := by
    unfold addMapDataTile
    simp only []
    rw [addMapDataTopItems_eq w s]
    simp only []
    rw [addMapDataCreatures_eq]
    simp only []
    rw [addMapDataBottomItems_eq w
      (encodeEntries w ((tile.creatureIds.take
              (10 - (0 + 1 + min (10 - (0 + 1))
                (tile.items.takeWhile (fun i => i.alwaysOnTop)).length))).map
              TileEntry.creature) s
            (encodeEntries w (((tile.items.takeWhile (fun i => i.alwaysOnTop)).take
              (10 - (0 + 1))).map TileEntry.item) s (addItem tile.ground out)).2).1]
  rw [hcode]
  generalize hT : tile.items.takeWhile (fun i => i.alwaysOnTop) = T
  generalize hR : tile.items.dropWhile (fun i => i.alwaysOnTop) = R
  have hitems : tile.items = T ++ R := by
    rw [← hT, ← hR, List.takeWhile_append_dropWhile]
  -- the specification, piece by piece
  have hspec : (specTileEntries tile.ground T tile.creatureIds R).take 10
      = TileEntry.item tile.ground :: ((T.take 9).map TileEntry.item
          ++ (tile.creatureIds.take (9 - T.length)).map TileEntry.creature
          ++ (R.take (9 - T.length - tile.creatureIds.length)).map TileEntry.item) := by
    simp only [specTileEntries, List.take_succ_cons, List.take_append_eq_append_take,
      List.length_map, List.length_append, List.map_take, List.length_take]
    rw [Nat.sub_sub]
  rw [hspec]
  simp only [encodeEntries, encodeEntry, encodeEntries_append]
  have htop : encodeEntries w ((T.take 9).map TileEntry.item) s (addItem tile.ground out)
      = (s, (encodeEntries w ((T.take 9).map TileEntry.item) s (addItem tile.ground out)).2) :=
    Prod.ext (encodeEntries_items_fst w _ s _) rfl
  have hn1 : 10 - (1 + min 9 T.length) = 9 - T.length := by omega
  have hn2 : 10 - (1 + min 9 T.length + min (9 - T.length) tile.creatureIds.length)
      = 9 - T.length - tile.creatureIds.length := by omega
  have hrest : (tile.items.drop (min 9 T.length)).take (9 - T.length - tile.creatureIds.length)
      = R.take (9 - T.length - tile.creatureIds.length) := by
    by_cases h9 : T.length ≤ 9
    · rw [Nat.min_eq_right h9, hitems, List.drop_left]
    · have h0 : 9 - T.length - tile.creatureIds.length = 0 := by omega
      rw [h0]; rfl
  rw [hn1, hn2, hrest]
  simp only [encodeEntries_items_fst]
  refine Prod.ext ?_ rfl
  simp only [encodeEntries_items_fst]

end Protocol71

namespace Protocol71

/-- What the block for a tile appends, and the session it leaves, do not depend
on the packet it appends to. -/
theorem addMapDataTile_appends (w : WorldInterface) (tile : Tile) (s : Protocol71)
    (out : OutgoingPacket) :
    addMapDataTile w tile s out
      = (tileSession w s (some tile),
          { bytes := out.bytes ++ tileBytes w s (some tile) }) := by
  rw [addMapDataTile_eq, encodeEntries_appends]
  simp only [tileSession, tileBytes, addMapDataTile_eq]

/-- The body of the loops of `addMapData` is `flatStep`. -/
theorem addMapDataStep_eq_flatStep (w : WorldInterface) (width height x y : Nat)
    (st : Protocol71 × OutgoingPacket × List (Option Tile)) :
    addMapDataStep w width height x y st
      = flatStep w (decide (x = width - 1 ∧ y = height - 1)) st := by
  obtain ⟨s, out, it⟩ := st
  have hsep : ∀ o : OutgoingPacket,
      (if x ≠ width - 1 ∨ y ≠ height - 1 then (o.addU8 0x00).addU8 0xFF else o)
        = { bytes := o.bytes ++
              if decide (x = width - 1 ∧ y = height - 1) = true then [] else [0x00, 0xFF] } := by
    intro o
    by_cases h : x = width - 1 ∧ y = height - 1
    · have h2 : ¬ (x ≠ width - 1 ∨ y ≠ height - 1) := by tauto
      rw [if_neg h2]
      simp [h]
    · have h2 : x ≠ width - 1 ∨ y ≠ height - 1 := by tauto
      rw [if_pos h2]
      apply OutgoingPacket_eq_of_bytes
      simp [h]
  cases it with
  | nil =>
    show (s, (if x ≠ width - 1 ∨ y ≠ height - 1 then (out.addU8 0x00).addU8 0xFF else out),
      ([] : List (Option Tile))) = _
    rw [hsep]
    simp [flatStep, tileSession, tileBytes]
  | cons t rest =>
    cases t with
    | none =>
      show (s, (if x ≠ width - 1 ∨ y ≠ height - 1 then (out.addU8 0x00).addU8 0xFF else out),
        rest) = _
      rw [hsep]
      simp [flatStep, tileSession, tileBytes]
    | some tile =>
      show ((addMapDataTile w tile s out).1,
        (if x ≠ width - 1 ∨ y ≠ height - 1 then
          ((addMapDataTile w tile s out).2.addU8 0x00).addU8 0xFF
          else (addMapDataTile w tile s out).2), rest) = _
      rw [hsep, addMapDataTile_appends]
      simp [flatStep, List.append_assoc]

/-- A column of `addMapData` that is not the last one: every tile is followed
by a separator. -/
theorem addMapData_column (w : WorldInterface) (width height x : Nat) (hx : x ≠ width - 1)
    (st : Protocol71 × OutgoingPacket × List (Option Tile)) :
    (List.range height).foldl (fun st y => addMapDataStep w width height x y st) st
      = (flatStep w false)^[height] st := by
  have h : (List.range height).foldl (fun st y => addMapDataStep w width height x y st) st
      = (List.range height).foldl (fun st _ => flatStep w false st) st := by
    apply List.foldl_ext
    intro a b _
    rw [addMapDataStep_eq_flatStep]
    simp [hx]
  rw [h, List.foldl_const, List.length_range]

/-- The last column of `addMapData`: every tile but the last one is followed
by a separator. -/
theorem addMapData_last_column (w : WorldInterface) (width height : Nat) (hh : 1 ≤ height)
    (st : Protocol71 × OutgoingPacket × List (Option Tile)) :
    (List.range height).foldl (fun st y => addMapDataStep w width height (width - 1) y st) st
      = flatStep w true ((flatStep w false)^[height - 1] st) := by
  obtain ⟨k, rfl⟩ : ∃ k, height = k + 1 := ⟨height - 1, by omega⟩
  rw [List.range_succ, List.foldl_append]
  simp only [List.foldl_cons, List.foldl_nil, Nat.add_sub_cancel]
  have h : (List.range k).foldl
        (fun st y => addMapDataStep w width (k + 1) (width - 1) y st) st
      = (List.range k).foldl (fun st _ => flatStep w false st) st := by
    apply List.foldl_ext
    intro a b hb
    rw [addMapDataStep_eq_flatStep]
    have hb2 : b < k := List.mem_range.mp hb
    have hne : ¬ b = k := by omega
    simp [hne]
  rw [h, List.foldl_const, List.length_range, addMapDataStep_eq_flatStep]
  simp

/-- The two loops of `addMapData` visit `width * height` tile pointers; every
one but the last is followed by a separator. -/
theorem addMapData_eq_flat (w : WorldInterface) (s : Protocol71) (position : Position)
    (width height : Nat) (out : OutgoingPacket) (hw : 1 ≤ width) (hh : 1 ≤ height) :
    addMapData w s position width height out
      = ((flatStep w true ((flatStep w false)^[width * height - 1]
            (s, out, w.getMapBlock position width height))).1,
          (flatStep w true ((flatStep w false)^[width * height - 1]
            (s, out, w.getMapBlock position width height))).2.1) := by
  obtain ⟨k, rfl⟩ : ∃ k, width = k + 1 := ⟨width - 1, by omega⟩
  have hfold : (List.range (k + 1)).foldl
        (fun st x => (List.range height).foldl
          (fun st y => addMapDataStep w (k + 1) height x y st) st)
        (s, out, w.getMapBlock position (k + 1) height)
      = flatStep w true ((flatStep w false)^[(k + 1) * height - 1]
          (s, out, w.getMapBlock position (k + 1) height)) := by
    rw [List.range_succ, List.foldl_append]
    simp only [List.foldl_cons, List.foldl_nil]
    have h : ∀ st : Protocol71 × OutgoingPacket × List (Option Tile),
        (List.range k).foldl
          (fun st x => (List.range height).foldl
            (fun st y => addMapDataStep w (k + 1) height x y st) st) st
        = (List.range k).foldl (fun st _ => (flatStep w false)^[height] st) st := by
      intro st
      apply List.foldl_ext
      intro a b hb
      have hb2 : b < k := List.mem_range.mp hb
      exact addMapData_column w (k + 1) height b (by simp; omega) a
    rw [h, List.foldl_const, List.length_range]
    have hlast := addMapData_last_column w (k + 1) height hh
    simp only [Nat.add_sub_cancel] at hlast
    rw [hlast, ← Function.iterate_mul, ← Function.iterate_add_apply]
    congr 2
    have : (k + 1) * height = height * k + height := by ring
    omega
  unfold addMapData
  simp only []
  rw [hfold]

end Protocol71

namespace Protocol71

/-- The steps of `addMapData` append: what they write and the session they
leave do not depend on the packet they write to. -/
theorem flatStep_iterate_appends (w : WorldInterface) (last : Bool) (n : Nat) (s : Protocol71)
    (out : OutgoingPacket) (it : List (Option Tile)) :
    (flatStep w last)^[n] (s, out, it)
      = (((flatStep w last)^[n] (s, OutgoingPacket.empty, it)).1,
          { bytes := out.bytes ++ ((flatStep w last)^[n] (s, OutgoingPacket.empty, it)).2.1.bytes },
          ((flatStep w last)^[n] (s, OutgoingPacket.empty, it)).2.2) := by
  induction n generalizing s out it with
  | zero => simp [OutgoingPacket.empty]
  | succ n ih =>
    simp only [Function.iterate_succ, Function.comp_apply]
    have h1 : flatStep w last (s, out, it)
        = (tileSession w s it.head?.join,
            { bytes := out.bytes ++ (tileBytes w s it.head?.join
                ++ if last then [] else [0x00, 0xFF]) }, it.tail) := by
      simp [flatStep, List.append_assoc]
    have h2 : flatStep w last (s, OutgoingPacket.empty, it)
        = (tileSession w s it.head?.join,
            { bytes := tileBytes w s it.head?.join ++ if last then [] else [0x00, 0xFF] },
            it.tail) := by
      simp [flatStep, OutgoingPacket.empty]
    rw [h1, h2, ih, ih (tileSession w s it.head?.join)
      { bytes := tileBytes w s it.head?.join ++ if last then [] else [0x00, 0xFF] }]
    simp [List.append_assoc]

/-- What `addMapData` appends for a block, and the session it leaves, do not
depend on the packet it appends to. -/
theorem addMapData_appends (w : WorldInterface) (s : Protocol71) (position : Position)
    (width height : Nat) (out : OutgoingPacket) (hw : 1 ≤ width) (hh : 1 ≤ height) :
    addMapData w s position width height out
      = ((addMapData w s position width height OutgoingPacket.empty).1,
          { bytes := out.bytes
              ++ (addMapData w s position width height OutgoingPacket.empty).2.bytes }) := by
  rw [addMapData_eq_flat w s position width height out hw hh,
    addMapData_eq_flat w s position width height OutgoingPacket.empty hw hh,
    flatStep_iterate_appends w false _ s out]
  simp [flatStep, List.append_assoc]

/-- A run of steps that each write a separator, over the tiles `ts`. -/
theorem flatStep_iterate_tiles (w : WorldInterface) (ts rest : List (Option Tile))
    (s : Protocol71) (out : OutgoingPacket) :
    (flatStep w false)^[ts.length] (s, out, ts ++ rest)
      = (specMapSession w ts s,
          { bytes := out.bytes ++ segmentsBytes (sepMapSegments w ts s) }, rest) := by
  induction ts generalizing s out with
  | nil => simp [specMapSession, sepMapSegments, segmentsBytes]
  | cons t ts ih =>
    simp only [List.length_cons, Function.iterate_succ, Function.comp_apply, List.cons_append]
    have h1 : flatStep w false (s, out, t :: (ts ++ rest))
        = (tileSession w s t, { bytes := out.bytes ++ tileBytes w s t ++ [0x00, 0xFF] },
            ts ++ rest) := by
      simp [flatStep]
    rw [h1, ih]
    simp [specMapSession, sepMapSegments, segmentsBytes, Segment.bytes, List.append_assoc]

/-- The map block of the specification ends with a tile, in front of which
every tile has its separator. -/
theorem specMapSegments_append_singleton (w : WorldInterface) (ts : List (Option Tile))
    (t : Option Tile) (s : Protocol71) :
    specMapSegments w (ts ++ [t]) s
      = sepMapSegments w ts s ++ [Segment.tile (tileBytes w (specMapSession w ts s) t)] := by
  induction ts generalizing s with
  | nil => rfl
  | cons a rest ih =>
    cases rest with
    | nil => rfl
    | cons b more =>
      have := ih (tileSession w s a)
      simp only [List.cons_append] at this ⊢
      simp only [specMapSegments, sepMapSegments, specMapSession, this, List.cons_append]

theorem specMapSession_append_singleton (w : WorldInterface) (ts : List (Option Tile))
    (t : Option Tile) (s : Protocol71) :
    specMapSession w (ts ++ [t]) s = tileSession w (specMapSession w ts s) t := by
  induction ts generalizing s with
  | nil => rfl
  | cons a rest ih => exact ih _

theorem sepMapSegments_separators (w : WorldInterface) (ts : List (Option Tile))
    (s : Protocol71) :
    ((sepMapSegments w ts s).filter Segment.isSeparator).length = ts.length ∧
    ((sepMapSegments w ts s).filter (fun g => !g.isSeparator)).length = ts.length := by
  induction ts generalizing s with
  | nil => simp [sepMapSegments]
  | cons t rest ih =>
    have h := ih (tileSession w s t)
    have e : sepMapSegments w (t :: rest) s
        = Segment.tile (tileBytes w s t) :: Segment.separator
            :: sepMapSegments w rest (tileSession w s t) := rfl
    rw [e]
    refine ⟨?_, ?_⟩
    · rw [List.filter_cons_of_neg (by simp [Segment.isSeparator]),
        List.filter_cons_of_pos (by simp [Segment.isSeparator]), List.length_cons, h.1,
        List.length_cons]
    · rw [List.filter_cons_of_pos (by simp [Segment.isSeparator]),
        List.filter_cons_of_neg (by simp [Segment.isSeparator]), List.length_cons, h.2,
        List.length_cons]

/-- For a block of `width * height` tiles, `width` and `height` at least 1,
`addMapData` writes the map block of the specification. -/
theorem addMapData_eq_spec (w : WorldInterface) (s : Protocol71) (position : Position)
    (width height : Nat) (out : OutgoingPacket) (hw : 1 ≤ width) (hh : 1 ≤ height)
    (hlen : (w.getMapBlock position width height).length = width * height) :
    addMapData w s position width height out
      = (specMapSession w (w.getMapBlock position width height) s,
          { bytes := out.bytes
              ++ segmentsBytes (specMapSegments w (w.getMapBlock position width height) s) }) := by
  rw [addMapData_eq_flat w s position width height out hw hh]
  generalize w.getMapBlock position width height = tiles at hlen ⊢
  have hpos : 1 ≤ width * height := Nat.mul_pos hw hh
  have hne : tiles ≠ [] := by
    intro h; rw [h] at hlen; simp at hlen; omega
  obtain ⟨ts, t, rfl⟩ : ∃ ts t, tiles = ts ++ [t] :=
    ⟨tiles.dropLast, tiles.getLast hne, (List.dropLast_append_getLast hne).symm⟩
  have hts : width * height - 1 = ts.length := by
    simp at hlen; omega
  rw [hts, flatStep_iterate_tiles, specMapSegments_append_singleton,
    specMapSession_append_singleton]
  simp [flatStep, segmentsBytes, Segment.bytes, List.append_assoc]

end Protocol71

/-! ## Map data: the entries of a tile and the separators -/

namespace Protocol71

/-- The leading on-top items of a list that holds its on-top items first. -/
theorem takeWhile_dropWhile_sorted (tops bottoms : List Item)
    (htops : ∀ i ∈ tops, i.alwaysOnTop = true)
    (hbottoms : ∀ i ∈ bottoms, i.alwaysOnTop = false) :
    (tops ++ bottoms).takeWhile (fun i => i.alwaysOnTop) = tops ∧
    (tops ++ bottoms).dropWhile (fun i => i.alwaysOnTop) = bottoms := by
  induction tops with
  | nil =>
    cases bottoms with
    | nil => simp
    | cons b rest =>
      have hb := hbottoms b (List.mem_cons_self b rest)
      simp [List.takeWhile_cons, List.dropWhile_cons, hb]
  | cons t rest ih =>
    have ht := htops t (List.mem_cons_self t rest)
    have h := ih (fun i hi => htops i (List.mem_cons_of_mem t hi))
    simp [List.takeWhile_cons, List.dropWhile_cons, ht, h.1, h.2]

end Protocol71

namespace Protocol71

/-- The map block of the specification up to a tile and from it on. -/
theorem specMapSegments_append_cons (w : WorldInterface) (before : List (Option Tile))
    (t : Option Tile) (after : List (Option Tile)) (s : Protocol71) :
    specMapSegments w (before ++ t :: after) s
      = sepMapSegments w before s
        ++ specMapSegments w (t :: after) (specMapSession w before s) := by
  induction before generalizing s with
  | nil => rfl
  | cons a rest ih =>
    have h := ih (tileSession w s a)
    cases rest with
    | nil =>
      simp only [List.nil_append] at h
      simp only [List.cons_append, List.nil_append, specMapSegments, sepMapSegments,
        specMapSession]
    | cons b more =>
      have e1 : specMapSegments w (a :: b :: more ++ t :: after) s
          = Segment.tile (tileBytes w s a) :: Segment.separator
            :: specMapSegments w (b :: more ++ t :: after) (tileSession w s a) := rfl
      rw [e1, h]
      rfl

/-- A map block that is not empty starts with the bytes of its first tile. -/
theorem specMapSegments_cons (w : WorldInterface) (t : Option Tile)
    (after : List (Option Tile)) (s : Protocol71) :
    ∃ more, specMapSegments w (t :: after) s = Segment.tile (tileBytes w s t) :: more := by
  cases after with
  | nil => exact ⟨[], rfl⟩
  | cons b rest => exact ⟨_, rfl⟩

theorem segmentsBytes_append (a b : List Segment) :
    segmentsBytes (a ++ b) = segmentsBytes a ++ segmentsBytes b := by
  simp [segmentsBytes]

end Protocol71

/-- C22: for a tile whose items above the ground are its `alwaysOnTop` items
`tops` followed by its other items `bottoms`, the block of `addMapData` for the
tile encodes exactly the first `min 10 (|items| + |creatures|)` entries of the
sequence ground, `tops`, creatures, `bottoms`, each in stored order (`|items|`
counts the ground); these are at most 10 entries. They are what `addMapData`
appends for the tile: in every block that holds the tile, behind the tiles in
front of it, each with its separator, come the bytes of exactly these entries,
encoded for the session as the tiles in front leave it. The creatures of the
world have `maxHealth ≠ 0`: for a creature with `maxHealth = 0` on a tile the
source divides by zero in `addCreature`, and builds no packet. -/
theorem addMapData_tile_entries (w : WorldInterface) (tile : Tile) (s : Protocol71)
    (out : OutgoingPacket) (tops bottoms : List Item)
    (hitems : tile.items = tops ++ bottoms)
    (htops : ∀ i ∈ tops, i.alwaysOnTop = true)
    (hbottoms : ∀ i ∈ bottoms, i.alwaysOnTop = false)
    (_hcre : ∀ id, (w.getCreature id).maxHealth ≠ 0) :
    Protocol71.addMapDataTile w tile s out
      = encodeEntries w
          ((specTileEntries tile.ground tops tile.creatureIds bottoms).take
            (min 10 (1 + tile.items.length + tile.creatureIds.length))) s out ∧
    ((specTileEntries tile.ground tops tile.creatureIds bottoms).take
        (min 10 (1 + tile.items.length + tile.creatureIds.length))).length
      = min 10 (1 + tile.items.length + tile.creatureIds.length) ∧
    ((specTileEntries tile.ground tops tile.creatureIds bottoms).take
        (min 10 (1 + tile.items.length + tile.creatureIds.length))).length ≤ 10 ∧
    (∀ (position : Position) (width height : Nat) (before after : List (Option Tile)),
      1 ≤ width → 1 ≤ height →
      w.getMapBlock position width height = before ++ some tile :: after →
      (before ++ some tile :: after).length = width * height →
      ∃ rest,
        (Protocol71.addMapData w s position width height out).2.bytes
          = out.bytes ++ segmentsBytes (sepMapSegments w before s)
            ++ (encodeEntries w
                ((specTileEntries tile.ground tops tile.creatureIds bottoms).take
                  (min 10 (1 + tile.items.length + tile.creatureIds.length)))
                (specMapSession w before s) OutgoingPacket.empty).2.bytes
            ++ rest) := by
  obtain ⟨h1, h2⟩ := Protocol71.takeWhile_dropWhile_sorted tops bottoms htops hbottoms
  have hlen : (specTileEntries tile.ground tops tile.creatureIds bottoms).length
      = 1 + tile.items.length + tile.creatureIds.length := by
    simp [specTileEntries, hitems]
    omega
  have htake : (specTileEntries tile.ground tops tile.creatureIds bottoms).take
        (min 10 (1 + tile.items.length + tile.creatureIds.length))
      = (specTileEntries tile.ground tops tile.creatureIds bottoms).take 10 := by
    rw [← hlen]
    rcases Nat.le_total 10 (specTileEntries tile.ground tops tile.creatureIds bottoms).length
      with h | h
    · rw [Nat.min_eq_left h]
    · rw [Nat.min_eq_right h, List.take_of_length_le (Nat.le_refl _), List.take_of_length_le h]
  have hcode : ∀ s1 out1, Protocol71.addMapDataTile w tile s1 out1
      = encodeEntries w ((specTileEntries tile.ground tops tile.creatureIds bottoms).take 10)
          s1 out1 := by
    intro s1 out1
    have h := Protocol71.addMapDataTile_eq w tile s1 out1
    rw [hitems, h1, h2] at h
    exact h
  refine ⟨?_, ?_, ?_, ?_⟩
  · rw [htake]; exact hcode s out
  · rw [List.length_take, hlen]
    omega
  · rw [List.length_take]
    omega
  · intro position width height before after hw hh hblock hfull
    have hspec := Protocol71.addMapData_eq_spec w s position width height out hw hh
      (by rw [hblock]; exact hfull)
    obtain ⟨more, hmore⟩ := Protocol71.specMapSegments_cons w (some tile) after
      (specMapSession w before s)
    refine ⟨segmentsBytes more, ?_⟩
    rw [hspec, hblock, Protocol71.specMapSegments_append_cons, hmore,
      Protocol71.segmentsBytes_append, htake]
    have htile : tileBytes w (specMapSession w before s) (some tile)
        = (encodeEntries w
            ((specTileEntries tile.ground tops tile.creatureIds bottoms).take 10)
            (specMapSession w before s) OutgoingPacket.empty).2.bytes := by
      show (Protocol71.addMapDataTile w tile (specMapSession w before s)
        OutgoingPacket.empty).2.bytes = _
      rw [hcode]
    simp only [segmentsBytes, List.map_cons, List.flatten_cons, Segment.bytes, htile,
      List.append_assoc]

/-- C22 on the crowded tile, which has thirteen entries: the ten entries on
the wire are the grass, the two ladders, the rat, and the stacks of 1 to 6
gold coins. In the 1x2 block of a grass tile and the crowded tile they come
behind the grass tile and its separator. -/
theorem addMapData_tile_entries_witness :
    (Protocol71.addMapDataTile meadow crowdedTile loggedInSession OutgoingPacket.empty).2.bytes
      = [102, 0, 106, 5, 106, 5,
          0x61, 0x00, 0, 0, 0, 0, 100, 0, 0, 0, 3, 0, 82, 97, 116,
          0, 2, 21, 0, 0, 0, 0, 0x00, 0xDC, 44, 1,
          100, 8, 1, 100, 8, 2, 100, 8, 3, 100, 8, 4, 100, 8, 5, 100, 8, 6] ∧
    ((specTileEntries crowdedTile.ground [ladder, ladder] crowdedTile.creatureIds
        ((List.range 9).map (fun k => coins (k + 1)))).take
        (min 10 (1 + crowdedTile.items.length + crowdedTile.creatureIds.length))).length
      = 10 ∧
    (Protocol71.addMapData crowdedWorld loggedInSession { x := 92, y := 94, z := 7 } 1 2
        OutgoingPacket.empty).2.bytes
      = [102, 0, 0x00, 0xFF,
          102, 0, 106, 5, 106, 5,
          0x61, 0x00, 0, 0, 0, 0, 100, 0, 0, 0, 3, 0, 82, 97, 116,
          0, 2, 21, 0, 0, 0, 0, 0x00, 0xDC, 44, 1,
          100, 8, 1, 100, 8, 2, 100, 8, 3, 100, 8, 4, 100, 8, 5, 100, 8, 6] := by
  have h := addMapData_tile_entries meadow crowdedTile loggedInSession OutgoingPacket.empty
    [ladder, ladder] ((List.range 9).map (fun k => coins (k + 1))) rfl (by decide) (by decide)
    (fun _ => (by decide : rat.maxHealth ≠ 0))
  have h2 := addMapData_tile_entries crowdedWorld crowdedTile loggedInSession
    OutgoingPacket.empty [ladder, ladder] ((List.range 9).map (fun k => coins (k + 1))) rfl
    (by decide) (by decide) (fun _ => (by decide : rat.maxHealth ≠ 0))
  obtain ⟨rest, hrest⟩ := h2.2.2.2 { x := 92, y := 94, z := 7 } 1 2 [some grassTile] []
    (by decide) (by decide) rfl rfl
  refine ⟨?_, ?_, ?_⟩
  · rw [h.1]; decide
  · rw [h.2.1]; decide
  · decide

/-- C23: for a block of width and height at least 1, for which the world
returns `width * height` tile pointers, `addMapData` appends the tiles in
order with the separator `0x00 0xFF` behind every tile but the last one: the
separator occurs `width * height - 1` times among the `width * height` tiles,
and a null tile contributes no bytes of its own. The creatures of the world
have `maxHealth ≠ 0`: for a creature with `maxHealth = 0` on a tile of the
block the source divides by zero in `addCreature`, and builds no packet. -/
theorem addMapData_separators (w : WorldInterface) (s : Protocol71) (position : Position)
    (width height : Nat) (out : OutgoingPacket) (hw : 1 ≤ width) (hh : 1 ≤ height)
    (hlen : (w.getMapBlock position width height).length = width * height)
    (_hcre : ∀ id, (w.getCreature id).maxHealth ≠ 0) :
    Protocol71.addMapData w s position width height out
      = (specMapSession w (w.getMapBlock position width height) s,
          { bytes := out.bytes
              ++ segmentsBytes (specMapSegments w (w.getMapBlock position width height) s) }) ∧
    ((specMapSegments w (w.getMapBlock position width height) s).filter
        Segment.isSeparator).length = width * height - 1 ∧
    ((specMapSegments w (w.getMapBlock position width height) s).filter
        (fun g => !g.isSeparator)).length = width * height ∧
    (specMapSegments w (w.getMapBlock position width height) s).getLast?.map Segment.isSeparator
      = some false ∧
    (∀ s1, tileBytes w s1 none = [] ∧ tileSession w s1 none = s1) := by
  refine ⟨Protocol71.addMapData_eq_spec w s position width height out hw hh hlen, ?_⟩
  generalize w.getMapBlock position width height = tiles at hlen ⊢
  have hpos : 1 ≤ width * height := Nat.mul_pos hw hh
  have hne : tiles ≠ [] := by
    intro h; rw [h] at hlen; simp at hlen; omega
  obtain ⟨ts, t, rfl⟩ : ∃ ts t, tiles = ts ++ [t] :=
    ⟨tiles.dropLast, tiles.getLast hne, (List.dropLast_append_getLast hne).symm⟩
  have hts : ts.length + 1 = width * height := by
    simp at hlen; omega
  obtain ⟨c1, c2⟩ := Protocol71.sepMapSegments_separators w ts s
  rw [Protocol71.specMapSegments_append_singleton]
  refine ⟨?_, ?_, ?_, fun s1 => ⟨rfl, rfl⟩⟩
  · rw [List.filter_append, List.length_append, c1]
    simp [Segment.isSeparator]
    omega
  · rw [List.filter_append, List.length_append, c2]
    simp [Segment.isSeparator]
    omega
  · simp [Segment.isSeparator]

/-- C23 on a 2x2 block of the meadow, whose second and fourth tile are null:
three separators, none behind the last tile. -/
theorem addMapData_separators_witness :
    (Protocol71.addMapData meadow loggedInSession { x := 92, y := 94, z := 7 } 2 2
        OutgoingPacket.empty).2.bytes
      = [102, 0, 0x00, 0xFF, 0x00, 0xFF, 102, 0, 0x00, 0xFF] ∧
    ((specMapSegments meadow (meadow.getMapBlock { x := 92, y := 94, z := 7 } 2 2)
        loggedInSession).filter Segment.isSeparator).length = 2 * 2 - 1 := by
  have h := addMapData_separators meadow loggedInSession { x := 92, y := 94, z := 7 } 2 2
    OutgoingPacket.empty (by decide) (by decide) rfl (fun _ => (by decide : rat.maxHealth ≠ 0))
  refine ⟨?_, h.2.1⟩
  rw [h.1]
  decide

/-! ## The edge strips of a move and the player-spawn packet -/

namespace Protocol71

/-- One strip of map data: the opcode, the map data of the block for the
session, the two closing bytes; the session goes on as the map data leaves it. -/
theorem strip_eq (w : WorldInterface) (s : Protocol71) (position : Position)
    (width height op t1 t2 : Nat) (out : OutgoingPacket) (hw : 1 ≤ width) (hh : 1 ≤ height) :
    ((addMapData w s position width height (out.addU8 op)).1,
        ((addMapData w s position width height (out.addU8 op)).2.addU8 t1).addU8 t2)
      = (mapDataSession w s position width height,
          { bytes := out.bytes ++ ([op % 256] ++ mapDataBytes w s position width height
              ++ [t1 % 256, t2 % 256]) }) := by
  rw [addMapData_appends w s position width height (out.addU8 op) hw hh]
  simp [mapDataSession, mapDataBytes, OutgoingPacket.addU8, List.append_assoc]

/-- The second part of `onCreatureMove` appends the edge strips of the
specification. -/
theorem onCreatureMoveMapData_eq (w : WorldInterface) (s : Protocol71) (creature : Creature)
    (oldPosition newPosition : Position) (out : OutgoingPacket) :
    onCreatureMoveMapData w s creature oldPosition newPosition out
      = ((edgeStrips w s creature oldPosition newPosition).1,
          { bytes := out.bytes ++ (edgeStrips w s creature oldPosition newPosition).2 }) := by
  by_cases hp : creature.creatureId = s.playerId
  · -- the row
    have hrow : ∀ out1 : OutgoingPacket,
        (if oldPosition.y > newPosition.y then
          ((addMapData w s
              (Position.ofInts ((oldPosition.x : Int) - 8) ((newPosition.y : Int) - 6) 7) 18 1
              (out1.addU8 0x65)).1,
            ((addMapData w s
              (Position.ofInts ((oldPosition.x : Int) - 8) ((newPosition.y : Int) - 6) 7) 18 1
              (out1.addU8 0x65)).2.addU8 0x7E).addU8 0xFF)
        else if oldPosition.y < newPosition.y then
          ((addMapData w s
              (Position.ofInts ((oldPosition.x : Int) - 8) ((newPosition.y : Int) + 7) 7) 18 1
              (out1.addU8 0x67)).1,
            ((addMapData w s
              (Position.ofInts ((oldPosition.x : Int) - 8) ((newPosition.y : Int) + 7) 7) 18 1
              (out1.addU8 0x67)).2.addU8 0x7E).addU8 0xFF)
        else (s, out1))
        = ((rowStrip w s oldPosition newPosition).1,
            { bytes := out1.bytes ++ (rowStrip w s oldPosition newPosition).2 }) := by
      intro out1
      unfold rowStrip
      by_cases h1 : newPosition.y < oldPosition.y
      · rw [if_pos h1, if_pos h1, strip_eq w s _ 18 1 0x65 0x7E 0xFF out1 (by decide) (by decide)]
      · rw [if_neg h1, if_neg h1]
        by_cases h2 : newPosition.y > oldPosition.y
        · rw [if_pos h2, if_pos h2,
            strip_eq w s _ 18 1 0x67 0x7E 0xFF out1 (by decide) (by decide)]
        · rw [if_neg h2, if_neg h2]
          simp
    have hcol : ∀ (s1 : Protocol71) (out1 : OutgoingPacket),
        (if oldPosition.x > newPosition.x then
          ((addMapData w s1
              (Position.ofInts ((newPosition.x : Int) - 8) ((newPosition.y : Int) - 6) 7) 1 14
              (out1.addU8 0x68)).1,
            ((addMapData w s1
              (Position.ofInts ((newPosition.x : Int) - 8) ((newPosition.y : Int) - 6) 7) 1 14
              (out1.addU8 0x68)).2.addU8 0x62).addU8 0xFF)
        else if oldPosition.x < newPosition.x then
          ((addMapData w s1
              (Position.ofInts ((newPosition.x : Int) + 9) ((newPosition.y : Int) - 6) 7) 1 14
              (out1.addU8 0x66)).1,
            ((addMapData w s1
              (Position.ofInts ((newPosition.x : Int) + 9) ((newPosition.y : Int) - 6) 7) 1 14
              (out1.addU8 0x66)).2.addU8 0x62).addU8 0xFF)
        else (s1, out1))
        = ((columnStrip w s1 oldPosition newPosition).1,
            { bytes := out1.bytes ++ (columnStrip w s1 oldPosition newPosition).2 }) := by
      intro s1 out1
      unfold columnStrip
      by_cases h1 : newPosition.x < oldPosition.x
      · rw [if_pos h1, if_pos h1, strip_eq w s1 _ 1 14 0x68 0x62 0xFF out1 (by decide) (by decide)]
      · rw [if_neg h1, if_neg h1]
        by_cases h2 : newPosition.x > oldPosition.x
        · rw [if_pos h2, if_pos h2,
            strip_eq w s1 _ 1 14 0x66 0x62 0xFF out1 (by decide) (by decide)]
        · rw [if_neg h2, if_neg h2]
          simp
    have hcode : onCreatureMoveMapData w s creature oldPosition newPosition out
        = (if oldPosition.x > newPosition.x then
          ((addMapData w (rowStrip w s oldPosition newPosition).1
              (Position.ofInts ((newPosition.x : Int) - 8) ((newPosition.y : Int) - 6) 7) 1 14
              (OutgoingPacket.addU8
                { bytes := out.bytes ++ (rowStrip w s oldPosition newPosition).2 } 0x68)).1,
            ((addMapData w (rowStrip w s oldPosition newPosition).1
              (Position.ofInts ((newPosition.x : Int) - 8) ((newPosition.y : Int) - 6) 7) 1 14
              (OutgoingPacket.addU8
                { bytes := out.bytes ++ (rowStrip w s oldPosition newPosition).2 }
                0x68)).2.addU8 0x62).addU8 0xFF)
        else if oldPosition.x < newPosition.x then
          ((addMapData w (rowStrip w s oldPosition newPosition).1
              (Position.ofInts ((newPosition.x : Int) + 9) ((newPosition.y : Int) - 6) 7) 1 14
              (OutgoingPacket.addU8
                { bytes := out.bytes ++ (rowStrip w s oldPosition newPosition).2 } 0x66)).1,
            ((addMapData w (rowStrip w s oldPosition newPosition).1
              (Position.ofInts ((newPosition.x : Int) + 9) ((newPosition.y : Int) - 6) 7) 1 14
              (OutgoingPacket.addU8
                { bytes := out.bytes ++ (rowStrip w s oldPosition newPosition).2 }
                0x66)).2.addU8 0x62).addU8 0xFF)
        else ((rowStrip w s oldPosition newPosition).1,
          { bytes := out.bytes ++ (rowStrip w s oldPosition newPosition).2 })) := by
      have h := hrow out
      unfold onCreatureMoveMapData
      rw [if_pos hp]
      simp only []
      rw [h]
    rw [hcode, hcol]
    simp [edgeStrips, hp, List.append_assoc]
  · unfold onCreatureMoveMapData
    rw [if_neg hp]
    simp [edgeStrips, hp]

end Protocol71

namespace Protocol71

/-- The record of a move leaves the player id of the session as it was. -/
theorem onCreatureMoveRecord_playerId (s : Protocol71) (creature : Creature)
    (canSeeOldPos canSeeNewPos : Bool) (oldPosition : Position) (oldStackPos : Nat)
    (newPosition : Position) (out : OutgoingPacket) :
    (onCreatureMoveRecord s creature canSeeOldPos canSeeNewPos oldPosition oldStackPos
      newPosition out).1.playerId = s.playerId := by
  unfold onCreatureMoveRecord
  cases canSeeOldPos <;> cases canSeeNewPos <;> simp
  obtain ⟨⟨known, hk⟩, _⟩ := addCreature_extends s creature
    (addPosition newPosition (out.addU8 0x6A))
  rw [hk]

theorem addEquipment_appends (player : Player) (i : Nat) (out : OutgoingPacket) :
    (addEquipment player i out).bytes
      = out.bytes ++ (addEquipment player i OutgoingPacket.empty).bytes := by
  unfold addEquipment
  cases player.equipment i with
  | none => simp [OutgoingPacket.empty]
  | some item =>
    simp only []
    rw [addItem_appends, addItem_appends item ((OutgoingPacket.empty.addU8 0x78).addU8 i)]
    simp [OutgoingPacket.empty, List.append_assoc]

theorem foldl_addEquipment (player : Player) (l : List Nat) (out : OutgoingPacket) :
    (l.foldl (fun packet i => addEquipment player i packet) out).bytes
      = out.bytes
        ++ (l.map (fun i => (addEquipment player i OutgoingPacket.empty).bytes)).flatten := by
  induction l generalizing out with
  | nil => simp
  | cons i rest ih =>
    rw [List.foldl_cons, ih, addEquipment_appends]
    simp [List.append_assoc]

theorem foldl_addU8 (l : List Nat) (v : Nat) (out : OutgoingPacket) :
    (l.foldl (fun packet _ => packet.addU8 v) out).bytes
      = out.bytes ++ List.replicate l.length (v % 256) := by
  induction l generalizing out with
  | nil => simp
  | cons i rest ih =>
    rw [List.foldl_cons, ih]
    simp [List.replicate_succ, List.append_assoc]

set_option maxRecDepth 100000 in
/-- The function `onPlayerSpawn` on a connected session: the player id is
set, the map data is encoded for the session with the new player id, and one
packet goes out. -/
theorem onPlayerSpawn_eq (w : WorldInterface) (s : Protocol71) (player : Player)
    (position : Position) (loginMessage : List Nat) (hc : s.connected = true) :
    onPlayerSpawn w s player position loginMessage
      = (mapDataSession w { s with playerId := player.creature.creatureId }
            (Position.ofInts ((position.x : Int) - 8) ((position.y : Int) - 6) (position.z : Int))
            18 14).sendPacket
          { bytes := playerSpawnBytes w { s with playerId := player.creature.creatureId }
              player position loginMessage } := by
  have hc2 : (!({ s with playerId := player.creature.creatureId } : Protocol71).isConnected)
      = false := by
    simp [isConnected, hc]
  unfold onPlayerSpawn
  simp only [hc2, Bool.false_eq_true, if_false]
  rw [addMapData_appends w _ _ 18 14 _ (by decide) (by decide)]
  simp only []
  unfold mapDataSession
  refine congrArg (sendPacket _) (OutgoingPacket_eq_of_bytes _ _ ?_)
  simp only [addString_bytes, addU8_bytes, addU16_bytes, addU32_bytes, addPosition_wire,
    foldl_addEquipment, foldl_addU8, List.length_range, OutgoingPacket.empty, List.nil_append,
    playerSpawnBytes, mapDataBytes, equipmentBytes, wireBytesPosition, List.append_assoc,
    List.singleton_append, List.cons_append]

end Protocol71

/-- C21: on a connected session `onCreatureMove` sends the record of the move
followed by the edge strips. When the creature is the player of the session
these are the row strip (`0x65`, the 18x1 row at `(oldX - 8, newY - 6)`,
`0x7E 0xFF` for `newY < oldY`; `0x67`, the 18x1 row at `(oldX - 8, newY + 7)`,
`0x7E 0xFF` for `newY > oldY`) and then the column strip (`0x68`, the 1x14
column at `(newX - 8, newY - 6)`, `0x62 0xFF` for `newX < oldX`; `0x66`, the
1x14 column at `(newX + 9, newY - 6)`, `0x62 0xFF` for `newX > oldX`), the
column encoded for the session as the row leaves it; when the creature is not
the player no strip is appended. The moving creature and the creatures of the
world have `maxHealth ≠ 0`: for a creature with `maxHealth = 0` that is encoded
in the record or on a tile of a strip the source divides by zero in
`addCreature`, and sends no packet. -/
theorem onCreatureMove_edge_strips (w : WorldInterface) (s : Protocol71) (creature : Creature)
    (oldPosition : Position) (oldStackPos : Nat) (newPosition : Position) (newStackPos : Nat)
    (hc : s.connected = true) (_hmax : creature.maxHealth ≠ 0)
    (_hcre : ∀ id, (w.getCreature id).maxHealth ≠ 0) :
    ∃ (s1 : Protocol71) (record : OutgoingPacket),
      Protocol71.onCreatureMoveRecord s creature (Protocol71.canSee w s oldPosition)
          (Protocol71.canSee w s newPosition) oldPosition oldStackPos newPosition
          OutgoingPacket.empty = (s1, record) ∧
      s1.playerId = s.playerId ∧
      Protocol71.onCreatureMove w s creature oldPosition oldStackPos newPosition newStackPos
        = (edgeStrips w s1 creature oldPosition newPosition).1.sendPacket
            { bytes := record.bytes ++ (edgeStrips w s1 creature oldPosition newPosition).2 } ∧
      (creature.creatureId = s.playerId →
        (edgeStrips w s1 creature oldPosition newPosition).2
          = (rowStrip w s1 oldPosition newPosition).2
            ++ (columnStrip w (rowStrip w s1 oldPosition newPosition).1
                  oldPosition newPosition).2) ∧
      (creature.creatureId ≠ s.playerId →
        edgeStrips w s1 creature oldPosition newPosition = (s1, [])) := by
  have hp := Protocol71.onCreatureMoveRecord_playerId s creature
    (Protocol71.canSee w s oldPosition) (Protocol71.canSee w s newPosition) oldPosition
    oldStackPos newPosition OutgoingPacket.empty
  obtain ⟨s1, record, hr⟩ : ∃ s1 record,
      Protocol71.onCreatureMoveRecord s creature (Protocol71.canSee w s oldPosition)
        (Protocol71.canSee w s newPosition) oldPosition oldStackPos newPosition
        OutgoingPacket.empty = (s1, record) :=
    ⟨(Protocol71.onCreatureMoveRecord s creature (Protocol71.canSee w s oldPosition)
        (Protocol71.canSee w s newPosition) oldPosition oldStackPos newPosition
        OutgoingPacket.empty).1,
      (Protocol71.onCreatureMoveRecord s creature (Protocol71.canSee w s oldPosition)
        (Protocol71.canSee w s newPosition) oldPosition oldStackPos newPosition
        OutgoingPacket.empty).2, rfl⟩
  rw [hr] at hp
  have hp1 : s1.playerId = s.playerId := hp
  refine ⟨s1, record, hr, hp1, ?_, ?_, ?_⟩
  · have hc2 : (!s.isConnected) = false := by simp [Protocol71.isConnected, hc]
    unfold Protocol71.onCreatureMove
    simp only [hc2, Bool.false_eq_true, if_false]
    rw [hr]
    simp only []
    rw [Protocol71.onCreatureMoveMapData_eq]
  · intro h
    have h1 : creature.creatureId = s1.playerId := h.trans hp1.symm
    unfold edgeStrips
    rw [if_pos h1]
  · intro h
    have h1 : creature.creatureId ≠ s1.playerId := fun e => h (e.trans hp1)
    unfold edgeStrips
    rw [if_neg h1]

/-- C21 in the meadow, for player 42 at (100, 100, 7): the step of the player
from (101, 101) to (100, 100) sends the record, the row strip `0x65` and the
column strip `0x68`; the same step of the rat sends the record alone. -/
theorem onCreatureMove_edge_strips_witness :
    (Protocol71.onCreatureMove meadow loggedInSession heroCreature { x := 101, y := 101, z := 7 }
        1 { x := 100, y := 100, z := 7 } 1).trace
      = [Effect.sendPacket 7 { bytes :=
          [0x6D, 101, 0, 101, 0, 7, 1, 100, 0, 100, 0, 7]
          ++ [0x65, 102, 0, 0, 255, 0, 255, 102, 0, 0, 255, 0, 255, 102, 0, 0, 255, 0, 255,
              102, 0, 0, 255, 0, 255, 102, 0, 0, 255, 0, 255, 102, 0, 0, 255, 0, 255,
              102, 0, 0, 255, 0, 255, 102, 0, 0, 255, 0, 255, 102, 0, 0, 255, 0x7E, 0xFF]
          ++ [0x68, 102, 0, 0, 255, 0, 255, 102, 0, 0, 255, 0, 255, 102, 0, 0, 255, 0, 255,
              102, 0, 0, 255, 0, 255, 102, 0, 0, 255, 0, 255, 102, 0, 0, 255, 0, 255,
              102, 0, 0, 255, 0x62, 0xFF] }] ∧
    (Protocol71.onCreatureMove meadow loggedInSession rat { x := 101, y := 101, z := 7 }
        1 { x := 100, y := 100, z := 7 } 1).trace
      = [Effect.sendPacket 7 { bytes := [0x6D, 101, 0, 101, 0, 7, 1, 100, 0, 100, 0, 7] }] := by
  obtain ⟨a1, r1, e1, _, m1, _, _⟩ := onCreatureMove_edge_strips meadow loggedInSession
    heroCreature { x := 101, y := 101, z := 7 } 1 { x := 100, y := 100, z := 7 } 1 rfl
    (by decide) (fun _ => (by decide : rat.maxHealth ≠ 0))
  obtain ⟨a2, r2, e2, _, m2, _, n2⟩ := onCreatureMove_edge_strips meadow loggedInSession
    rat { x := 101, y := 101, z := 7 } 1 { x := 100, y := 100, z := 7 } 1 rfl
    (by decide) (fun _ => (by decide : rat.maxHealth ≠ 0))
  have h1 : a1 = loggedInSession ∧
      r1 = { bytes := [0x6D, 101, 0, 101, 0, 7, 1, 100, 0, 100, 0, 7] } := by
    have h := e1.symm
    rw [Prod.ext_iff] at h
    exact ⟨h.1.trans rfl, h.2.trans (by decide)⟩
  have h2 : a2 = loggedInSession ∧
      r2 = { bytes := [0x6D, 101, 0, 101, 0, 7, 1, 100, 0, 100, 0, 7] } := by
    have h := e2.symm
    rw [Prod.ext_iff] at h
    exact ⟨h.1.trans rfl, h.2.trans (by decide)⟩
  refine ⟨?_, ?_⟩
  · rw [m1, h1.1, h1.2]
    decide
  · rw [m2, n2 (by decide), h2.1, h2.2]
    rfl

/-- C24: on a connected session `onPlayerSpawn` sets the player id of the
session to the id of the player and sends one packet, which is `0x0A`, the
player id as a u32, `0x32 0x00`, `0x64`, the position, the map data of the
18x14 block with top-left `(x - 8, y - 6, z)`, twelve bytes `0xFF`,
`0xE4 0xFF`, `0x83` with the position and `0x0A`, `0xA0` with the stats
(health, maximal health and capacity as u16, experience as u32, level as u8,
mana and maximal mana as u16, magic level as u8), `0x82 0x6F 0xD7`, `0xA1`
with seven skill bytes 10, the equipment records of the slots 1 to 10 in
ascending order, and `0xB4 0x11` with the login message as a string. Apart
from the player id and the packet sent the session changes at most in its
known-creature cache. The creatures of the world have `maxHealth ≠ 0`: for a
creature with `maxHealth = 0` on a tile of the block the source divides by zero
in `addCreature`, and sends no packet. -/
theorem onPlayerSpawn_packet (w : WorldInterface) (s : Protocol71) (player : Player)
    (position : Position) (loginMessage : List Nat) (hc : s.connected = true)
    (_hcre : ∀ id, (w.getCreature id).maxHealth ≠ 0) :
    ∃ known,
      Protocol71.onPlayerSpawn w s player position loginMessage
        = { s with
            playerId := player.creature.creatureId, knownCreatures := known,
            trace := s.trace ++ [Effect.sendPacket s.connectionId ⟨
              ([0x0A] ++ wireBytesU32 player.creature.creatureId ++ [0x32, 0x00] ++ [0x64]
                ++ wireBytesPosition position)
              ++ mapDataBytes w { s with playerId := player.creature.creatureId }
                  (Position.ofInts ((position.x : Int) - 8) ((position.y : Int) - 6)
                    (position.z : Int)) 18 14
              ++ (List.replicate 12 0xFF
                ++ [0xE4, 0xFF]
                ++ [0x83] ++ wireBytesPosition position ++ [0x0A]
                ++ [0xA0] ++ wireBytesU16 player.creature.health
                ++ wireBytesU16 player.creature.maxHealth
                ++ wireBytesU16 player.capacity ++ wireBytesU32 player.experience
                ++ [player.level % 256]
                ++ wireBytesU16 player.mana ++ wireBytesU16 player.maxMana
                ++ [player.magicLevel % 256]
                ++ [0x82, 0x6F, 0xD7]
                ++ [0xA1] ++ List.replicate 7 10
                ++ equipmentBytes player
                ++ [0xB4, 0x11] ++ wireBytesString loginMessage)⟩] } := by
  obtain ⟨⟨known, hk⟩, _⟩ := Protocol71.addMapData_extends w
    { s with playerId := player.creature.creatureId }
    (Position.ofInts ((position.x : Int) - 8) ((position.y : Int) - 6) (position.z : Int))
    18 14 OutgoingPacket.empty
  refine ⟨known, ?_⟩
  rw [Protocol71.onPlayerSpawn_eq w s player position loginMessage hc]
  unfold mapDataSession
  rw [hk]
  have hb : playerSpawnBytes w { s with playerId := player.creature.creatureId } player
      position loginMessage
      = ([0x0A] ++ wireBytesU32 player.creature.creatureId ++ [0x32, 0x00] ++ [0x64]
          ++ wireBytesPosition position)
        ++ mapDataBytes w { s with playerId := player.creature.creatureId }
            (Position.ofInts ((position.x : Int) - 8) ((position.y : Int) - 6)
              (position.z : Int)) 18 14
        ++ (List.replicate 12 0xFF
          ++ [0xE4, 0xFF]
          ++ [0x83] ++ wireBytesPosition position ++ [0x0A]
          ++ [0xA0] ++ wireBytesU16 player.creature.health
          ++ wireBytesU16 player.creature.maxHealth
          ++ wireBytesU16 player.capacity ++ wireBytesU32 player.experience
          ++ [player.level % 256]
          ++ wireBytesU16 player.mana ++ wireBytesU16 player.maxMana
          ++ [player.magicLevel % 256]
          ++ [0x82, 0x6F, 0xD7]
          ++ [0xA1] ++ List.replicate 7 10
          ++ equipmentBytes player
          ++ [0xB4, 0x11] ++ wireBytesString loginMessage) := by
    unfold playerSpawnBytes
    simp only [List.append_assoc]
  rw [hb]
  rfl

/-- C24 in the meadow: player 42 spawns at (100, 100, 7) on a fresh session
and is greeted with `Hi`. Slot 6 holds three gold coins (`0x78 6` and the
item), the other slots are empty (`0x79` and the slot). -/
theorem onPlayerSpawn_packet_witness :
    (Protocol71.onPlayerSpawn meadow freshSession heroPlayer { x := 100, y := 100, z := 7 }
        [72, 105]).playerId = 42 ∧
    (Protocol71.onPlayerSpawn meadow freshSession heroPlayer { x := 100, y := 100, z := 7 }
        [72, 105]).trace
      = [Effect.sendPacket 7 ⟨
          [0x0A, 42, 0, 0, 0, 0x32, 0x00, 0x64, 100, 0, 100, 0, 7]
          ++ mapDataBytes meadow { freshSession with playerId := 42 }
              { x := 92, y := 94, z := 7 } 18 14
          ++ [0xFF, 0xFF, 0xFF, 0xFF, 0xFF, 0xFF, 0xFF, 0xFF, 0xFF, 0xFF, 0xFF, 0xFF,
              0xE4, 0xFF, 0x83, 100, 0, 100, 0, 7, 0x0A,
              0xA0, 150, 0, 150, 0, 144, 1, 104, 16, 0, 0, 8, 35, 0, 40, 0, 1,
              0x82, 0x6F, 0xD7, 0xA1, 10, 10, 10, 10, 10, 10, 10,
              0x79, 1, 0x79, 2, 0x79, 3, 0x79, 4, 0x79, 5, 0x78, 6, 100, 8, 3,
              0x79, 7, 0x79, 8, 0x79, 9, 0x79, 10,
              0xB4, 0x11, 2, 0, 72, 105]⟩] := by
  obtain ⟨known, h⟩ := onPlayerSpawn_packet meadow freshSession heroPlayer
    { x := 100, y := 100, z := 7 } [72, 105] rfl (fun _ => (by decide : rat.maxHealth ≠ 0))
  rw [h]
  exact ⟨rfl, rfl⟩

/-! ## The login server: frames -/

namespace LoginServer

theorem onPacketReceivedLoop_of_isEmpty (fuel : Nat) (g : LoginServer) (connectionId : Nat)
    (p : IncomingPacket) (h : p.isEmpty = true) :
    onPacketReceivedLoop fuel g connectionId p = (g, p) := by
  cases fuel with
  | zero => rfl
  | succ n => simp [onPacketReceivedLoop, h]

/-- One iteration of the loop of `onPacketReceived` on a packet that is not
empty. -/
theorem onPacketReceivedLoop_succ (fuel : Nat) (g : LoginServer) (connectionId : Nat)
    (p : IncomingPacket) (h : p.isEmpty = false) :
    onPacketReceivedLoop (fuel + 1) g connectionId p
      = if p.byteAt p.position = 0x01 then
          onPacketReceivedLoop fuel (parseLogin g connectionId (p.advance 1)).1 connectionId
            (parseLogin g connectionId (p.advance 1)).2
        else
          onPacketReceivedLoop fuel (g.emit (LoginEffect.closeConnection connectionId))
            connectionId (p.advance 1) := by
  simp only [onPacketReceivedLoop, h, Bool.false_eq_true, if_false, IncomingPacket.getU8,
    IncomingPacket.peekU8]
  by_cases hop : p.byteAt p.position = 0x01
  · rw [if_pos hop, if_pos hop]
  · rw [if_neg hop, if_neg hop]

/-- The loop of `onPacketReceived` never needs more than `length - position`
iterations: the bound that `onPacketReceived` passes is no restriction. -/
theorem onPacketReceivedLoop_fuel (f1 f2 : Nat) (g : LoginServer) (connectionId : Nat)
    (p : IncomingPacket) (h1 : p.length - p.position ≤ f1) (h2 : p.length - p.position ≤ f2) :
    onPacketReceivedLoop f1 g connectionId p = onPacketReceivedLoop f2 g connectionId p := by
  induction f1 generalizing f2 g p with
  | zero =>
    have he : p.isEmpty = true := by simp [IncomingPacket.isEmpty]; omega
    rw [onPacketReceivedLoop_of_isEmpty _ _ _ _ he, onPacketReceivedLoop_of_isEmpty _ _ _ _ he]
  | succ n ih =>
    by_cases he : p.isEmpty = true
    · rw [onPacketReceivedLoop_of_isEmpty _ _ _ _ he,
        onPacketReceivedLoop_of_isEmpty _ _ _ _ he]
    · have he2 : p.isEmpty = false := by simpa using he
      have hlt : p.position < p.length := by
        simp [IncomingPacket.isEmpty] at he2; exact he2
      cases f2 with
      | zero => omega
      | succ m =>
        rw [onPacketReceivedLoop_succ _ _ _ _ he2, onPacketReceivedLoop_succ _ _ _ _ he2]
        by_cases hop : p.byteAt p.position = 0x01
        · rw [if_pos hop, if_pos hop]
          apply ih
          · rw [parseLogin_response]; simp [IncomingPacket.advance]; omega
          · rw [parseLogin_response]; simp [IncomingPacket.advance]; omega
        · rw [if_neg hop, if_neg hop]
          apply ih
          · simp [IncomingPacket.advance]; omega
          · simp [IncomingPacket.advance]; omega

/-- After an opcode byte other than 0x01 `onPacketReceived` calls
`closeConnection` and goes on with the rest of the frame. -/
theorem onPacketReceived_unknown (g : LoginServer) (connectionId : Nat) (p : IncomingPacket)
    (hlt : p.position < p.length) (hop : p.byteAt p.position ≠ 0x01) :
    onPacketReceived g connectionId p
      = onPacketReceived (g.emit (LoginEffect.closeConnection connectionId)) connectionId
          (p.advance 1) := by
  have he : p.isEmpty = false := by simp [IncomingPacket.isEmpty]; exact hlt
  have hfuel : p.length - p.position = (p.length - p.position - 1) + 1 := by omega
  unfold onPacketReceived
  rw [hfuel, onPacketReceivedLoop_succ _ _ _ _ he, if_neg hop]
  apply onPacketReceivedLoop_fuel
  · simp [IncomingPacket.advance]; omega
  · simp [IncomingPacket.advance]

/-- After a login message `onPacketReceived` goes on with the rest of the
frame. -/
theorem onPacketReceived_login (g : LoginServer) (connectionId : Nat) (p : IncomingPacket)
    (hlt : p.position < p.length) (hop : p.byteAt p.position = 0x01) :
    onPacketReceived g connectionId p
      = onPacketReceived (parseLogin g connectionId (p.advance 1)).1 connectionId
          (parseLogin g connectionId (p.advance 1)).2 := by
  have he : p.isEmpty = false := by simp [IncomingPacket.isEmpty]; exact hlt
  have hfuel : p.length - p.position = (p.length - p.position - 1) + 1 := by omega
  unfold onPacketReceived
  rw [hfuel, onPacketReceivedLoop_succ _ _ _ _ he, if_pos hop]
  apply onPacketReceivedLoop_fuel
  · rw [parseLogin_response]; simp [IncomingPacket.advance]; omega
  · exact Nat.le_refl _

/-- A frame without a byte 0x01 from the cursor on: one `closeConnection` for
every byte, and nothing else. -/
theorem onPacketReceived_all_unknown (n : Nat) (g : LoginServer) (connectionId : Nat)
    (p : IncomingPacket) (hn : p.length - p.position = n)
    (hall : ∀ i, p.position ≤ i → i < p.length → p.byteAt i ≠ 0x01) :
    onPacketReceived g connectionId p
      = ({ g with trace := g.trace
            ++ List.replicate n (LoginEffect.closeConnection connectionId) },
          p.advance n) := by
  induction n generalizing g p with
  | zero =>
    have he : p.isEmpty = true := by simp [IncomingPacket.isEmpty]; omega
    unfold onPacketReceived
    rw [onPacketReceivedLoop_of_isEmpty _ _ _ _ he]
    simp [IncomingPacket.advance]
  | succ k ih =>
    have hlt : p.position < p.length := by omega
    rw [onPacketReceived_unknown g connectionId p hlt (hall _ (Nat.le_refl _) hlt),
      ih (g.emit (LoginEffect.closeConnection connectionId)) (p.advance 1)
        (by simp [IncomingPacket.advance]; omega)
        (fun i h1 h2 => hall i (by simp [IncomingPacket.advance] at h1; omega)
          (by simpa [IncomingPacket.advance] using h2))]
    simp [emit, IncomingPacket.advance, List.replicate_succ, List.append_assoc]
    omega

end LoginServer

set_option maxRecDepth 100000 in
/-- C31, as stated, fails: in a frame that starts with the opcode 0x02 and
goes on with a login message, the login server calls `closeConnection` for the
opcode and then answers the login message with a response packet. -/
theorem unknown_opcode_then_login_is_answered :
    unknownThenLoginFrame.byteAt unknownThenLoginFrame.position ≠ 0x01 ∧
    (LoginServer.onPacketReceived heroLoginServer 9 unknownThenLoginFrame).1.trace
      = [LoginEffect.closeConnection 9,
         LoginEffect.sendPacket 9
          { bytes := [0x14, 4, 0, 0x30, 0x0A, 72, 105, 0x0A, 22, 0]
              ++ strBytes ("Invalid account number") },
         LoginEffect.closeConnection 9] := by
  refine ⟨by decide, ?_⟩
  decide

/-- C31, amended: when the first opcode byte of a frame is not 0x01, the login
server calls `closeConnection` without a response and goes on with the rest of
the frame as with a frame of its own; when no byte of the frame is 0x01, it
calls `closeConnection` once for every byte of the frame and sends no packet. -/
theorem unknown_login_opcode_closes (g : LoginServer) (connectionId : Nat) (p : IncomingPacket)
    (hlt : p.position < p.length) (hop : p.byteAt p.position ≠ 0x01) :
    LoginServer.onPacketReceived g connectionId p
      = LoginServer.onPacketReceived (g.emit (LoginEffect.closeConnection connectionId))
          connectionId (p.advance 1) ∧
    ((∀ i, p.position ≤ i → i < p.length → p.byteAt i ≠ 0x01) →
      (LoginServer.onPacketReceived g connectionId p).1
        = { g with
            trace := g.trace ++ List.replicate (p.length - p.position)
              (LoginEffect.closeConnection connectionId) } ∧
      1 ≤ p.length - p.position) := by
  refine ⟨LoginServer.onPacketReceived_unknown g connectionId p hlt hop, fun hall => ?_⟩
  rw [LoginServer.onPacketReceived_all_unknown (p.length - p.position) g connectionId p rfl hall]
  exact ⟨rfl, by omega⟩

/-- C31, amended, on the frame `02 FF 00`: three calls of `closeConnection`
and no packet. -/
theorem unknown_login_opcode_closes_witness :
    (LoginServer.onPacketReceived heroLoginServer 9 unknownOpcodesFrame).1.trace
      = [LoginEffect.closeConnection 9, LoginEffect.closeConnection 9,
         LoginEffect.closeConnection 9] := by
  have h := (unknown_login_opcode_closes heroLoginServer 9 unknownOpcodesFrame (by decide)
    (by decide)).2 (by decide)
  rw [h.1]
  rfl

set_option maxRecDepth 100000 in
/-- C32, as stated, fails: a frame that holds two login messages gets two
response packets and two calls of `closeConnection`. -/
theorem two_logins_two_responses :
    twoLoginsFrame.byteAt twoLoginsFrame.position = 0x01 ∧
    (LoginServer.onPacketReceived heroLoginServer 9 twoLoginsFrame).1.trace
      = [LoginEffect.sendPacket 9
          { bytes := [0x14, 4, 0, 0x30, 0x0A, 72, 105, 0x0A, 22, 0]
              ++ strBytes ("Invalid account number") },
         LoginEffect.closeConnection 9,
         LoginEffect.sendPacket 9
          { bytes := [0x14, 4, 0, 0x30, 0x0A, 72, 105, 0x0A, 16, 0]
              ++ strBytes ("Invalid password") },
         LoginEffect.closeConnection 9] := by
  refine ⟨by decide, ?_⟩
  decide

/-- C32, amended: for a frame that starts with a login message, the login
server runs `parseLogin` once on it, which sends one packet and then calls
`closeConnection`, and goes on with what follows the message as with a frame of
its own; when nothing follows the message, the frame gets exactly one response
packet followed by one `closeConnection`. -/
theorem login_frame_single_response (g : LoginServer) (connectionId : Nat) (p : IncomingPacket)
    (hlt : p.position < p.length) (hop : p.byteAt p.position = 0x01) :
    LoginServer.onPacketReceived g connectionId p
      = LoginServer.onPacketReceived (LoginServer.parseLogin g connectionId (p.advance 1)).1
          connectionId (LoginServer.parseLogin g connectionId (p.advance 1)).2 ∧
    (∃ response,
      (LoginServer.parseLogin g connectionId (p.advance 1)).1
        = { g with trace := g.trace ++ [LoginEffect.sendPacket connectionId response,
              LoginEffect.closeConnection connectionId] } ∧
      (LoginServer.parseLogin g connectionId (p.advance 1)).2
        = p.advance (1 + (22 + (p.advance 1).wireU16 20)) ∧
      (p.length ≤ p.position + 1 + (22 + (p.advance 1).wireU16 20) →
        (LoginServer.onPacketReceived g connectionId p).1
          = { g with trace := g.trace ++ [LoginEffect.sendPacket connectionId response,
                LoginEffect.closeConnection connectionId] })) := by
  refine ⟨LoginServer.onPacketReceived_login g connectionId p hlt hop, ?_⟩
  rw [LoginServer.parseLogin_response]
  refine ⟨_, rfl, ?_, fun hend => ?_⟩
  · simp [IncomingPacket.advance]
    omega
  · rw [LoginServer.onPacketReceived_single g connectionId p hlt hop hend,
      LoginServer.parseLogin_response]

/-- C32, amended, on a frame that holds one login message for the account 5,
which does not exist: one response packet and one `closeConnection`. -/
theorem login_frame_single_response_witness :
    (LoginServer.onPacketReceived heroLoginServer 9 (loginServerPacket 5 [112, 119])).1.trace
      = [LoginEffect.sendPacket 9
          { bytes := [0x14, 4, 0, 0x30, 0x0A, 72, 105, 0x0A, 22, 0]
              ++ strBytes ("Invalid account number") },
         LoginEffect.closeConnection 9] := by
  obtain ⟨_, response, h1, _, h3⟩ := login_frame_single_response heroLoginServer 9
    (loginServerPacket 5 [112, 119]) (by decide) (by decide)
  rw [h3 (by decide), ← h1]
  decide

/-! ## Byte counts of the item parsers, and moves out of sight -/

/-- C35: each item-position parser moves the cursor by the same number of
bytes in all of its branches, whatever the session and the bytes at the cursor
are: `parseLookAt` by 8, `parseUseItem` by 9, `parseMoveItem` by 14. So for
two packets with the same cursor, one with the inventory form (`0xFFFF`) and
one with the tile form, the next opcode is read at the same position. -/
theorem item_parsers_consume_fixed_counts (s : Protocol71) (p : IncomingPacket) :
    (Protocol71.parseLookAt s p).2 = p.advance 8 ∧
    (Protocol71.parseUseItem s p).2 = p.advance 9 ∧
    (Protocol71.parseMoveItem s p).2 = p.advance 14 ∧
    (Protocol71.parseLookAt s p).2.position = p.position + 8 ∧
    (Protocol71.parseUseItem s p).2.position = p.position + 9 ∧
    (Protocol71.parseMoveItem s p).2.position = p.position + 14 ∧
    (∀ q : IncomingPacket, q.position = p.position →
      (Protocol71.parseLookAt s q).2.position = (Protocol71.parseLookAt s p).2.position ∧
      (Protocol71.parseUseItem s q).2.position = (Protocol71.parseUseItem s p).2.position ∧
      (Protocol71.parseMoveItem s q).2.position = (Protocol71.parseMoveItem s p).2.position) := by
  refine ⟨Protocol71.parseLookAt_packet s p, Protocol71.parseUseItem_packet s p,
    Protocol71.parseMoveItem_packet s p, ?_, ?_, ?_, fun q hq => ⟨?_, ?_, ?_⟩⟩
  · rw [Protocol71.parseLookAt_packet]; rfl
  · rw [Protocol71.parseUseItem_packet]; rfl
  · rw [Protocol71.parseMoveItem_packet]; rfl
  · rw [Protocol71.parseLookAt_packet, Protocol71.parseLookAt_packet]
    simp [IncomingPacket.advance, hq]
  · rw [Protocol71.parseUseItem_packet, Protocol71.parseUseItem_packet]
    simp [IncomingPacket.advance, hq]
  · rw [Protocol71.parseMoveItem_packet, Protocol71.parseMoveItem_packet]
    simp [IncomingPacket.advance, hq]

/-- C35 on a look-at message in the tile form and one in the inventory form,
and on a move-item message: the cursor ends 8 and 14 bytes behind the opcode. -/
theorem item_parsers_consume_fixed_counts_witness :
    (Protocol71.parseLookAt loggedInSession (lookAtPacket.advance 1)).2.position = 1 + 8 ∧
    (Protocol71.parseLookAt loggedInSession (lookAtInventoryPacket.advance 1)).2.position
      = 1 + 8 ∧
    (Protocol71.parseMoveItem loggedInSession (moveItemPacket.advance 1)).2.position = 1 + 14 ∧
    (Protocol71.parseLookAt loggedInSession (lookAtInventoryPacket.advance 1)).2.position
      = (Protocol71.parseLookAt loggedInSession (lookAtPacket.advance 1)).2.position := by
  have h1 := item_parsers_consume_fixed_counts loggedInSession (lookAtPacket.advance 1)
  have h2 := item_parsers_consume_fixed_counts loggedInSession
    (lookAtInventoryPacket.advance 1)
  have h3 := item_parsers_consume_fixed_counts loggedInSession (moveItemPacket.advance 1)
  exact ⟨h1.2.2.2.1, h2.2.2.2.1, h3.2.2.2.2.2.1, (h1.2.2.2.2.2.2 _ rfl).1⟩

/-- C36: on a connected session, for a creature that is not the player of the
session and a move of which neither the old nor the new position is visible,
`onCreatureMove` still sends one packet, whose body is empty, and leaves the
session, its known-creature cache included, otherwise as it was. -/
theorem onCreatureMove_out_of_sight (w : WorldInterface) (s : Protocol71) (creature : Creature)
    (oldPosition : Position) (oldStackPos : Nat) (newPosition : Position) (newStackPos : Nat)
    (hc : s.connected = true) (hother : creature.creatureId ≠ s.playerId)
    (hold : Protocol71.canSee w s oldPosition = false)
    (hnew : Protocol71.canSee w s newPosition = false) :
    Protocol71.onCreatureMove w s creature oldPosition oldStackPos newPosition newStackPos
      = { s with trace := s.trace ++ [Effect.sendPacket s.connectionId { bytes := [] }] } ∧
    (Protocol71.onCreatureMove w s creature oldPosition oldStackPos newPosition
        newStackPos).knownCreatures = s.knownCreatures := by
  have hc2 : (!s.isConnected) = false := by simp [Protocol71.isConnected, hc]
  have h : Protocol71.onCreatureMove w s creature oldPosition oldStackPos newPosition newStackPos
      = { s with trace := s.trace ++ [Effect.sendPacket s.connectionId { bytes := [] }] } := by
    unfold Protocol71.onCreatureMove
    simp only [hc2, Bool.false_eq_true, if_false, hold, hnew]
    have hrec : Protocol71.onCreatureMoveRecord s creature false false oldPosition oldStackPos
        newPosition OutgoingPacket.empty = (s, OutgoingPacket.empty) := by
      simp [Protocol71.onCreatureMoveRecord]
    rw [hrec]
    simp only []
    rw [Protocol71.onCreatureMoveMapData_eq]
    simp [edgeStrips, hother, Protocol71.sendPacket, Protocol71.emit, OutgoingPacket.empty]
  rw [h]
  exact ⟨rfl, rfl⟩

/-- C36 in the world without tiles, for player 42 at (100, 100, 7): a step of
the rat from (50, 50) to (51, 50), both out of sight. -/
theorem onCreatureMove_out_of_sight_witness :
    (Protocol71.onCreatureMove emptyWorld loggedInSession rat { x := 50, y := 50, z := 7 } 1
        { x := 51, y := 50, z := 7 } 1).trace
      = [Effect.sendPacket 7 { bytes := [] }] ∧
    (Protocol71.onCreatureMove emptyWorld loggedInSession rat { x := 50, y := 50, z := 7 } 1
        { x := 51, y := 50, z := 7 } 1).knownCreatures = loggedInSession.knownCreatures := by
  have h := onCreatureMove_out_of_sight emptyWorld loggedInSession rat
    { x := 50, y := 50, z := 7 } 1 { x := 51, y := 50, z := 7 } 1 rfl (by decide) (by decide)
    (by decide)
  exact ⟨by rw [h.1]; rfl, h.2⟩

/-! ## The known-creature cache holds no creature twice -/

namespace Protocol71

/-- A cache whose every slot holds `INVALID_ID` holds no creature twice. -/
theorem cacheDistinct_replicate (n : Nat) :
    cacheDistinct (List.replicate n Creature.INVALID_ID) := by
  intro i hi j _ _ _
  rw [List.length_replicate] at hi
  rw [List.getElem?_replicate, if_pos hi]

/-- Writing an id that the cache does not hold into one slot keeps the cache
free of doubles. -/
theorem cacheDistinct_set (known : List Nat) (u a : Nat) (hd : cacheDistinct known)
    (ha : a ∉ known) : cacheDistinct (known.set u a) := by
  intro i hi j hj hij heq
  rw [List.length_set] at hi hj
  have hmem : ∀ k, known[k]? = some a → False := fun k hk =>
    ha (List.getElem?_mem hk)
  by_cases hiu : u = i
  · subst hiu
    have hju : u ≠ j := hij
    rw [List.getElem?_set_self hi, List.getElem?_set_ne hju] at heq
    exact (hmem j heq.symm).elim
  · by_cases hju : u = j
    · subst hju
      rw [List.getElem?_set_ne hiu, List.getElem?_set_self hj] at heq
      exact (hmem i heq).elim
    · rw [List.getElem?_set_ne hiu, List.getElem?_set_ne hju] at heq
      rw [List.getElem?_set_ne hiu]
      exact hd i hi j hj hij heq

end Protocol71

/-- C34: no creature id other than `INVALID_ID` occurs in two slots of the
known-creature cache. The constructor fills the 64 slots with `INVALID_ID`,
for which this holds, and every call of `addCreature`, for every creature, on
every session whose cache satisfies it, leaves a cache of the same size that
satisfies it. -/
theorem knownCreatures_stay_distinct :
    (∀ (connectionId : Nat) (accountReader : AccountReader),
      (Protocol71.create connectionId accountReader).knownCreatures
        = List.replicate 64 Creature.INVALID_ID ∧
      Protocol71.cacheDistinct (Protocol71.create connectionId accountReader).knownCreatures) ∧
    (∀ (s : Protocol71) (creature : Creature) (out : OutgoingPacket),
      Protocol71.cacheDistinct s.knownCreatures →
        Protocol71.cacheDistinct (Protocol71.addCreature s creature out).1.knownCreatures ∧
        (Protocol71.addCreature s creature out).1.knownCreatures.length
          = s.knownCreatures.length) := by
  refine ⟨fun connectionId accountReader => ⟨rfl, Protocol71.cacheDistinct_replicate 64⟩,
    fun s creature out hd => ?_⟩
  by_cases h : creature.creatureId ∈ s.knownCreatures
  · rw [Protocol71.addCreature_known s creature out h]
    exact ⟨hd, rfl⟩
  · rw [Protocol71.addCreature_unknown s creature out h]
    by_cases hfull : s.knownCreatures.indexOf Creature.INVALID_ID = s.knownCreatures.length
    · rw [if_pos hfull]
      exact ⟨hd, rfl⟩
    · rw [if_neg hfull]
      exact ⟨Protocol71.cacheDistinct_set s.knownCreatures _ creature.creatureId hd h,
        List.length_set _ _ _⟩

/-- C34 on a cache of three slots that holds the creature 7: after the rat is
added the cache is `[7, 100, 0]`, and no creature occurs twice. -/
theorem knownCreatures_stay_distinct_witness :
    Protocol71.cacheDistinct smallCacheSession.knownCreatures ∧
    (Protocol71.addCreature smallCacheSession rat OutgoingPacket.empty).1.knownCreatures
      = [7, 100, 0] ∧
    Protocol71.cacheDistinct
      (Protocol71.addCreature smallCacheSession rat OutgoingPacket.empty).1.knownCreatures := by
  have hd : Protocol71.cacheDistinct smallCacheSession.knownCreatures := by
    unfold Protocol71.cacheDistinct
    decide
  exact ⟨hd, by decide,
    (knownCreatures_stay_distinct.2 smallCacheSession rat OutgoingPacket.empty hd).1⟩

/-! ## The map blocks that `onCreatureMove` and `onPlayerSpawn` request -/

namespace Protocol71

/-- The positions of a block are those of the rectangle that starts at its
top-left corner. -/
theorem positions_mem_iff (r : MapBlockRequest) (x y : Nat) :
    (x, y) ∈ r.positions ↔
      r.position.x ≤ x ∧ x < r.position.x + r.width ∧
      r.position.y ≤ y ∧ y < r.position.y + r.height := by
  simp only [MapBlockRequest.positions, List.mem_flatten, List.mem_map, List.mem_range,
    exists_exists_and_eq_and, Prod.mk.injEq]
  constructor
  · rintro ⟨i, hi, j, hj, rfl, rfl⟩
    omega
  · rintro ⟨h1, h2, h3, h4⟩
    exact ⟨x - r.position.x, by omega, y - r.position.y, by omega, by omega, by omega⟩

theorem flatten_map_length {α : Type} (l : List Nat) (n : Nat) (f : Nat → Nat → α) :
    ((l.map (fun i => (List.range n).map (f i))).flatten).length = l.length * n := by
  induction l with
  | nil => simp
  | cons a rest ih =>
    simp only [List.map_cons, List.flatten_cons, List.length_append, List.length_map,
      List.length_range, List.length_cons, ih]
    rw [Nat.succ_mul]
    omega

/-- A block has `width * height` positions. -/
theorem positions_length (r : MapBlockRequest) : r.positions.length = r.width * r.height := by
  unfold MapBlockRequest.positions
  rw [flatten_map_length (List.range r.width) r.height
    (fun i j => (r.position.x + i, r.position.y + j)), List.length_range]

/-- The function `canSee` by the inequalities it tests. -/
theorem canSee_iff (w : WorldInterface) (s : Protocol71) (p : Position) :
    canSee w s p = true ↔
      ((w.getCreaturePosition s.playerId).x : Int) - 9 < p.x ∧
      (p.x : Int) ≤ (w.getCreaturePosition s.playerId).x + 9 ∧
      ((w.getCreaturePosition s.playerId).y : Int) - 7 < p.y ∧
      (p.y : Int) ≤ (w.getCreaturePosition s.playerId).y + 7 := by
  simp only [canSee, Bool.and_eq_true, decide_eq_true_eq]
  omega

/-- A position is in the new view and not in the old one. -/
theorem entersView_iff (wOld wNew : WorldInterface) (s : Protocol71) (p : Position) :
    (canSee wNew s p = true ∧ canSee wOld s p = false) ↔
      ((((wNew.getCreaturePosition s.playerId).x : Int) - 9 < p.x ∧
        (p.x : Int) ≤ (wNew.getCreaturePosition s.playerId).x + 9 ∧
        ((wNew.getCreaturePosition s.playerId).y : Int) - 7 < p.y ∧
        (p.y : Int) ≤ (wNew.getCreaturePosition s.playerId).y + 7) ∧
      ¬ (((wOld.getCreaturePosition s.playerId).x : Int) - 9 < p.x ∧
        (p.x : Int) ≤ (wOld.getCreaturePosition s.playerId).x + 9 ∧
        ((wOld.getCreaturePosition s.playerId).y : Int) - 7 < p.y ∧
        (p.y : Int) ≤ (wOld.getCreaturePosition s.playerId).y + 7)) := by
  rw [Bool.eq_false_iff, Ne, canSee_iff, canSee_iff]

end Protocol71

namespace Protocol71

/-- The loop "Add Creatures" consults the world for its creatures only. -/
theorem addMapDataCreatures_congr (w1 w2 : WorldInterface)
    (hc : w1.getCreature = w2.getCreature) (ids : List Nat) (count : Nat) (s : Protocol71)
    (out : OutgoingPacket) :
    addMapDataCreatures w1 ids count s out = addMapDataCreatures w2 ids count s out := by
  induction ids generalizing count s out with
  | nil => rfl
  | cons id rest ih =>
    unfold addMapDataCreatures
    by_cases h : count < 10
    · rw [if_pos h, if_pos h, hc]
      exact ih _ _ _
    · rw [if_neg h, if_neg h]

/-- The body of the loops of `addMapData` consults the world for its
creatures only. -/
theorem addMapDataStep_congr (w1 w2 : WorldInterface) (hc : w1.getCreature = w2.getCreature)
    (width height x y : Nat) (st : Protocol71 × OutgoingPacket × List (Option Tile)) :
    addMapDataStep w1 width height x y st = addMapDataStep w2 width height x y st := by
  have ht : ∀ tile s out, addMapDataTile w1 tile s out = addMapDataTile w2 tile s out := by
    intro tile s out
    unfold addMapDataTile
    simp only [addMapDataCreatures_congr w1 w2 hc]
  unfold addMapDataStep
  simp only [ht]

/-- The function `addMapData` consults the world for the tiles of its block
and for the creatures on them, and for nothing else. -/
theorem addMapData_congr (w1 w2 : WorldInterface) (hc : w1.getCreature = w2.getCreature)
    (s : Protocol71) (position : Position) (width height : Nat) (out : OutgoingPacket)
    (hb : w1.getMapBlock position width height = w2.getMapBlock position width height) :
    addMapData w1 s position width height out = addMapData w2 s position width height out := by
  unfold addMapData
  have hf : (fun (st : Protocol71 × OutgoingPacket × List (Option Tile)) (x : Nat) =>
        (List.range height).foldl (fun st y => addMapDataStep w1 width height x y st) st)
      = (fun (st : Protocol71 × OutgoingPacket × List (Option Tile)) (x : Nat) =>
        (List.range height).foldl (fun st y => addMapDataStep w2 width height x y st) st) := by
    funext st x
    congr 1
    funext st1 y
    exact addMapDataStep_congr w1 w2 hc width height x y st1
  simp only [hb, hf]

/-- The second part of `onCreatureMove` consults the world for the blocks of
`onCreatureMoveRequests` and for the creatures on them, and for nothing else. -/
theorem onCreatureMoveMapData_congr (w1 w2 : WorldInterface)
    (hc : w1.getCreature = w2.getCreature) (s : Protocol71) (creature : Creature)
    (oldPosition newPosition : Position) (out : OutgoingPacket)
    (hb : ∀ r ∈ onCreatureMoveRequests s creature oldPosition newPosition,
      w1.sameBlock w2 r) :
    onCreatureMoveMapData w1 s creature oldPosition newPosition out
      = onCreatureMoveMapData w2 s creature oldPosition newPosition out := by
  have hmd : ∀ s1 position width height,
      w1.getMapBlock position width height = w2.getMapBlock position width height →
      mapDataSession w1 s1 position width height = mapDataSession w2 s1 position width height ∧
      mapDataBytes w1 s1 position width height = mapDataBytes w2 s1 position width height := by
    intro s1 position width height h
    unfold mapDataSession mapDataBytes
    rw [addMapData_congr w1 w2 hc s1 position width height OutgoingPacket.empty h]
    exact ⟨rfl, rfl⟩
  rw [onCreatureMoveMapData_eq, onCreatureMoveMapData_eq]
  by_cases hp : creature.creatureId = s.playerId
  · have hrow : rowStrip w1 s oldPosition newPosition = rowStrip w2 s oldPosition newPosition := by
      unfold rowStrip
      by_cases h1 : newPosition.y < oldPosition.y
      · have hr := hb ⟨Position.ofInts ((oldPosition.x : Int) - 8) ((newPosition.y : Int) - 6) 7,
          18, 1⟩ (by
            unfold onCreatureMoveRequests
            rw [if_pos hp, if_pos h1]
            exact List.mem_append_left _ (List.mem_singleton.mpr rfl))
        rw [if_pos h1, if_pos h1, (hmd s _ 18 1 hr).1, (hmd s _ 18 1 hr).2]
      · by_cases h2 : newPosition.y > oldPosition.y
        · have hr := hb ⟨Position.ofInts ((oldPosition.x : Int) - 8)
            ((newPosition.y : Int) + 7) 7, 18, 1⟩ (by
              unfold onCreatureMoveRequests
              rw [if_pos hp, if_neg h1, if_pos h2]
              exact List.mem_append_left _ (List.mem_singleton.mpr rfl))
          rw [if_neg h1, if_neg h1, if_pos h2, if_pos h2, (hmd s _ 18 1 hr).1,
            (hmd s _ 18 1 hr).2]
        · rw [if_neg h1, if_neg h1, if_neg h2, if_neg h2]
    have hcol : ∀ s1, columnStrip w1 s1 oldPosition newPosition
        = columnStrip w2 s1 oldPosition newPosition := by
      intro s1
      unfold columnStrip
      by_cases h1 : newPosition.x < oldPosition.x
      · have hr := hb ⟨Position.ofInts ((newPosition.x : Int) - 8) ((newPosition.y : Int) - 6) 7,
          1, 14⟩ (by
            unfold onCreatureMoveRequests
            rw [if_pos hp, if_pos h1]
            exact List.mem_append_right _ (List.mem_singleton.mpr rfl))
        rw [if_pos h1, if_pos h1, (hmd s1 _ 1 14 hr).1, (hmd s1 _ 1 14 hr).2]
      · by_cases h2 : newPosition.x > oldPosition.x
        · have hr := hb ⟨Position.ofInts ((newPosition.x : Int) + 9)
            ((newPosition.y : Int) - 6) 7, 1, 14⟩ (by
              unfold onCreatureMoveRequests
              rw [if_pos hp, if_neg h1, if_pos h2]
              exact List.mem_append_right _ (List.mem_singleton.mpr rfl))
          rw [if_neg h1, if_neg h1, if_pos h2, if_pos h2, (hmd s1 _ 1 14 hr).1,
            (hmd s1 _ 1 14 hr).2]
        · rw [if_neg h1, if_neg h1, if_neg h2, if_neg h2]
    unfold edgeStrips
    rw [if_pos hp, if_pos hp, hrow, hcol]
  · unfold edgeStrips
    rw [if_neg hp, if_neg hp]

/-- The function `onPlayerSpawn` consults the world for the block of
`onPlayerSpawnRequest` and for the creatures on it, and for nothing else. -/
theorem onPlayerSpawn_congr (w1 w2 : WorldInterface) (hc : w1.getCreature = w2.getCreature)
    (s : Protocol71) (player : Player) (position : Position) (loginMessage : List Nat)
    (hb : w1.sameBlock w2 (onPlayerSpawnRequest position)) :
    onPlayerSpawn w1 s player position loginMessage
      = onPlayerSpawn w2 s player position loginMessage := by
  by_cases hcon : s.connected = true
  · rw [onPlayerSpawn_eq w1 s player position loginMessage hcon,
      onPlayerSpawn_eq w2 s player position loginMessage hcon]
    unfold playerSpawnBytes mapDataSession mapDataBytes
    rw [addMapData_congr w1 w2 hc _
      (Position.ofInts ((position.x : Int) - 8) ((position.y : Int) - 6) (position.z : Int))
      18 14 OutgoingPacket.empty hb]
  · have h1 : ∀ w, onPlayerSpawn w s player position loginMessage
        = { s with playerId := player.creature.creatureId } := by
      intro w
      unfold onPlayerSpawn
      exact if_pos (by simp [isConnected, hcon])
    rw [h1 w1, h1 w2]

end Protocol71

/-- C33: for a step of the player of the session by one tile to the north,
east, south or west, with the new coordinates far enough from 0 and 65535 that
no offset wraps, `onCreatureMove` requests one map block `r`, and the `(x, y)`
positions of that block are exactly the positions that `canSee` accepts when
the player stands at the new position and rejects when the player stands at the
old one; these are 18 positions for a step to the north or south and 14 for a
step to the east or west. The block `r` is the one the code asks of the world:
what the second part of `onCreatureMove` appends is one strip, an opcode, the
map data that `addMapData` builds for `r`, and two closing bytes (in a world
whose creatures have `maxHealth ≠ 0`, so that `addCreature` is defined on the
creatures of the strip), and two worlds that hold the same creatures and answer
the request `r` alike get the same bytes. -/
theorem edge_strip_is_new_view (wOld wNew : WorldInterface) (s : Protocol71)
    (creature : Creature) (oldPosition newPosition : Position)
    (hp : creature.creatureId = s.playerId)
    (hOld : wOld.getCreaturePosition s.playerId = oldPosition)
    (hNew : wNew.getCreaturePosition s.playerId = newPosition)
    (hstep : (newPosition.x = oldPosition.x ∧
          (newPosition.y + 1 = oldPosition.y ∨ newPosition.y = oldPosition.y + 1)) ∨
        (newPosition.y = oldPosition.y ∧
          (newPosition.x + 1 = oldPosition.x ∨ newPosition.x = oldPosition.x + 1)))
    (hx : 8 ≤ newPosition.x ∧ newPosition.x + 9 < 65536)
    (hy : 6 ≤ newPosition.y ∧ newPosition.y + 7 < 65536) :
    ∃ r : MapBlockRequest,
      Protocol71.onCreatureMoveRequests s creature oldPosition newPosition = [r] ∧
      (∀ x y z : Nat, (x, y) ∈ r.positions ↔
        (Protocol71.canSee wNew s { x := x, y := y, z := z } = true ∧
          Protocol71.canSee wOld s { x := x, y := y, z := z } = false)) ∧
      r.positions.length = (if newPosition.x = oldPosition.x then 18 else 14) ∧
      (∀ (w : WorldInterface) (out : OutgoingPacket),
        (∀ id, (w.getCreature id).maxHealth ≠ 0) →
        Protocol71.onCreatureMoveMapData w s creature oldPosition newPosition out
          = (mapDataSession w s r.position r.width r.height,
              { bytes := out.bytes
                  ++ [if newPosition.y < oldPosition.y then 0x65
                      else if newPosition.y > oldPosition.y then 0x67
                      else if newPosition.x < oldPosition.x then 0x68 else 0x66]
                  ++ mapDataBytes w s r.position r.width r.height
                  ++ [if newPosition.x = oldPosition.x then 0x7E else 0x62, 0xFF] })) ∧
      (∀ (w1 w2 : WorldInterface) (out : OutgoingPacket),
        w1.getCreature = w2.getCreature → w1.sameBlock w2 r →
        Protocol71.onCreatureMoveMapData w1 s creature oldPosition newPosition out
          = Protocol71.onCreatureMoveMapData w2 s creature oldPosition newPosition out) := by
  have hcongr : ∀ r : MapBlockRequest,
      Protocol71.onCreatureMoveRequests s creature oldPosition newPosition = [r] →
      ∀ (w1 w2 : WorldInterface) (out : OutgoingPacket),
        w1.getCreature = w2.getCreature → w1.sameBlock w2 r →
        Protocol71.onCreatureMoveMapData w1 s creature oldPosition newPosition out
          = Protocol71.onCreatureMoveMapData w2 s creature oldPosition newPosition out := by
    intro r hr w1 w2 out hcre hb
    refine Protocol71.onCreatureMoveMapData_congr w1 w2 hcre s creature oldPosition
      newPosition out (fun r1 hr1 => ?_)
    rw [hr, List.mem_singleton] at hr1
    rw [hr1]
    exact hb
  have hofx : ∀ a b c : Int, (Position.ofInts a b c).x = (a % 65536).toNat := fun _ _ _ => rfl
  have hofy : ∀ a b c : Int, (Position.ofInts a b c).y = (b % 65536).toNat := fun _ _ _ => rfl
  rcases hstep with ⟨hxe, hn | hs⟩ | ⟨hye, hw | he⟩
  · -- north
    have hreq : Protocol71.onCreatureMoveRequests s creature oldPosition newPosition
        = [MapBlockRequest.mk
            (Position.ofInts ((oldPosition.x : Int) - 8) ((newPosition.y : Int) - 6) 7) 18 1] := by
      unfold Protocol71.onCreatureMoveRequests
      rw [if_pos hp, if_pos (by omega), if_neg (by omega), if_neg (by omega)]
      rfl
    refine ⟨_, hreq, fun x y z => ?_, ?_, fun w out _ => ?_,
      hcongr _ hreq⟩
    rotate_left 2
    · rw [Protocol71.onCreatureMoveMapData_eq]
      have c1 : (newPosition.y < oldPosition.y) = True := by simp; omega
      have c2 : (newPosition.y > oldPosition.y) = False := by simp; omega
      have c3 : (newPosition.x < oldPosition.x) = False := by simp; omega
      have c4 : (newPosition.x > oldPosition.x) = False := by simp; omega
      have c5 : (newPosition.x = oldPosition.x) = True := by simp; omega
      simp [edgeStrips, rowStrip, columnStrip, hp, c1, c2, c3, c4, c5, List.append_assoc]
    · rw [Protocol71.positions_mem_iff, Protocol71.entersView_iff, hOld, hNew]
      simp only [hofx, hofy]
      omega
    · rw [Protocol71.positions_length, if_pos hxe]
      rfl
  · -- south
    have hreq : Protocol71.onCreatureMoveRequests s creature oldPosition newPosition
        = [MapBlockRequest.mk
            (Position.ofInts ((oldPosition.x : Int) - 8) ((newPosition.y : Int) + 7) 7) 18 1] := by
      unfold Protocol71.onCreatureMoveRequests
      rw [if_pos hp, if_neg (by omega), if_pos (by omega), if_neg (by omega),
        if_neg (by omega)]
      rfl
    refine ⟨_, hreq, fun x y z => ?_, ?_, fun w out _ => ?_,
      hcongr _ hreq⟩
    rotate_left 2
    · rw [Protocol71.onCreatureMoveMapData_eq]
      have c1 : (newPosition.y < oldPosition.y) = False := by simp; omega
      have c2 : (newPosition.y > oldPosition.y) = True := by simp; omega
      have c3 : (newPosition.x < oldPosition.x) = False := by simp; omega
      have c4 : (newPosition.x > oldPosition.x) = False := by simp; omega
      have c5 : (newPosition.x = oldPosition.x) = True := by simp; omega
      simp [edgeStrips, rowStrip, columnStrip, hp, c1, c2, c3, c4, c5, List.append_assoc]
    · rw [Protocol71.positions_mem_iff, Protocol71.entersView_iff, hOld, hNew]
      simp only [hofx, hofy]
      omega
    · rw [Protocol71.positions_length, if_pos hxe]
      rfl
  · -- west
    have hreq : Protocol71.onCreatureMoveRequests s creature oldPosition newPosition
        = [MapBlockRequest.mk
            (Position.ofInts ((newPosition.x : Int) - 8) ((newPosition.y : Int) - 6) 7) 1 14] := by
      unfold Protocol71.onCreatureMoveRequests
      rw [if_pos hp, if_neg (by omega), if_neg (by omega), if_pos (by omega)]
      rfl
    refine ⟨_, hreq, fun x y z => ?_, ?_, fun w out _ => ?_,
      hcongr _ hreq⟩
    rotate_left 2
    · rw [Protocol71.onCreatureMoveMapData_eq]
      have c1 : (newPosition.y < oldPosition.y) = False := by simp; omega
      have c2 : (newPosition.y > oldPosition.y) = False := by simp; omega
      have c3 : (newPosition.x < oldPosition.x) = True := by simp; omega
      have c4 : (newPosition.x > oldPosition.x) = False := by simp; omega
      have c5 : (newPosition.x = oldPosition.x) = False := by simp; omega
      simp [edgeStrips, rowStrip, columnStrip, hp, c1, c2, c3, c4, c5, List.append_assoc]
    · rw [Protocol71.positions_mem_iff, Protocol71.entersView_iff, hOld, hNew]
      simp only [hofx, hofy]
      omega
    · rw [Protocol71.positions_length, if_neg (by omega)]
      rfl
  · -- east
    have hreq : Protocol71.onCreatureMoveRequests s creature oldPosition newPosition
        = [MapBlockRequest.mk
            (Position.ofInts ((newPosition.x : Int) + 9) ((newPosition.y : Int) - 6) 7) 1 14] := by
      unfold Protocol71.onCreatureMoveRequests
      rw [if_pos hp, if_neg (by omega), if_neg (by omega), if_neg (by omega),
        if_pos (by omega)]
      rfl
    refine ⟨_, hreq, fun x y z => ?_, ?_, fun w out _ => ?_,
      hcongr _ hreq⟩
    rotate_left 2
    · rw [Protocol71.onCreatureMoveMapData_eq]
      have c1 : (newPosition.y < oldPosition.y) = False := by simp; omega
      have c2 : (newPosition.y > oldPosition.y) = False := by simp; omega
      have c3 : (newPosition.x < oldPosition.x) = False := by simp; omega
      have c4 : (newPosition.x > oldPosition.x) = True := by simp; omega
      have c5 : (newPosition.x = oldPosition.x) = False := by simp; omega
      simp [edgeStrips, rowStrip, columnStrip, hp, c1, c2, c3, c4, c5, List.append_assoc]
    · rw [Protocol71.positions_mem_iff, Protocol71.entersView_iff, hOld, hNew]
      simp only [hofx, hofy]
      omega
    · rw [Protocol71.positions_length, if_neg (by omega)]
      rfl

/-- C33 in the world without tiles, for a step of player 42 from
(100, 100, 7) to the north: the block requested is the row of the 18 positions
(92, 93) to (109, 93), which are the positions seen from (100, 99) and not
from (100, 100), and the strip appended is `0x65`, the map data of that row (18
null tiles, 17 separators) and `0x7E 0xFF`. -/
theorem edge_strip_is_new_view_witness :
    Protocol71.onCreatureMoveRequests loggedInSession heroCreature
        { x := 100, y := 100, z := 7 } { x := 100, y := 99, z := 7 }
      = [MapBlockRequest.mk { x := 92, y := 93, z := 7 } 18 1] ∧
    (∀ x y z : Nat,
      (x, y) ∈ (MapBlockRequest.mk { x := 92, y := 93, z := 7 } 18 1).positions ↔
        (Protocol71.canSee emptyWorldNorth loggedInSession { x := x, y := y, z := z } = true ∧
          Protocol71.canSee emptyWorld loggedInSession { x := x, y := y, z := z } = false)) ∧
    (MapBlockRequest.mk { x := 92, y := 93, z := 7 } 18 1).positions
      = [(92, 93), (93, 93), (94, 93), (95, 93), (96, 93), (97, 93), (98, 93), (99, 93),
          (100, 93), (101, 93), (102, 93), (103, 93), (104, 93), (105, 93), (106, 93),
          (107, 93), (108, 93), (109, 93)] ∧
    (Protocol71.onCreatureMoveMapData emptyWorldNorth loggedInSession heroCreature
        { x := 100, y := 100, z := 7 } { x := 100, y := 99, z := 7 } OutgoingPacket.empty).2.bytes
      = [0x65] ++ mapDataBytes emptyWorldNorth loggedInSession { x := 92, y := 93, z := 7 } 18 1
          ++ [0x7E, 0xFF] ∧
    mapDataBytes emptyWorldNorth loggedInSession { x := 92, y := 93, z := 7 } 18 1
      = (List.replicate 17 [0x00, 0xFF]).flatten := by
  obtain ⟨r, h1, h2, _, h4, _⟩ := edge_strip_is_new_view emptyWorld emptyWorldNorth
    loggedInSession heroCreature { x := 100, y := 100, z := 7 } { x := 100, y := 99, z := 7 }
    rfl rfl rfl (Or.inl ⟨rfl, Or.inl rfl⟩) (by decide) (by decide)
  have hr : r = MapBlockRequest.mk { x := 92, y := 93, z := 7 } 18 1 := by
    have h : [r] = [MapBlockRequest.mk { x := 92, y := 93, z := 7 } 18 1] :=
      h1.symm.trans (by decide)
    exact (List.cons.inj h).1
  rw [hr] at h1 h2 h4
  refine ⟨h1, h2, by decide, ?_, by decide⟩
  rw [h4 emptyWorldNorth OutgoingPacket.empty (fun _ => (by decide : rat.maxHealth ≠ 0))]
  rfl

/-- C37: the map blocks that `onCreatureMove` requests for a move of the
player do not depend on the floor. Two moves that differ only in the `z` of
the old and of the new position request the same blocks (same top-left
position, same size) and append the same map data; the `z` of every block
requested is 7; two worlds that answer these requests alike and hold the same
creatures get the same map data, so nothing else is requested. The block that
`onPlayerSpawn` requests has the `z` of the spawn position, and it is the only
one that `onPlayerSpawn` requests. -/
theorem edge_strip_ignores_floor (w : WorldInterface) (s : Protocol71) (creature : Creature)
    (oldPosition newPosition : Position) (out : OutgoingPacket) :
    (∀ z1 z2 : Nat,
      Protocol71.onCreatureMoveRequests s creature { oldPosition with z := z1 }
          { newPosition with z := z2 }
        = Protocol71.onCreatureMoveRequests s creature oldPosition newPosition ∧
      Protocol71.onCreatureMoveMapData w s creature { oldPosition with z := z1 }
          { newPosition with z := z2 } out
        = Protocol71.onCreatureMoveMapData w s creature oldPosition newPosition out) ∧
    (∀ r ∈ Protocol71.onCreatureMoveRequests s creature oldPosition newPosition,
      r.position.z = 7) ∧
    (∀ w2 : WorldInterface, w.getCreature = w2.getCreature →
      (∀ r ∈ Protocol71.onCreatureMoveRequests s creature oldPosition newPosition,
        w.sameBlock w2 r) →
      Protocol71.onCreatureMoveMapData w s creature oldPosition newPosition out
        = Protocol71.onCreatureMoveMapData w2 s creature oldPosition newPosition out) ∧
    (∀ position : Position, position.z < 256 →
      (Protocol71.onPlayerSpawnRequest position).position.z = position.z ∧
      (Protocol71.onPlayerSpawnRequest position).width = 18 ∧
      (Protocol71.onPlayerSpawnRequest position).height = 14) ∧
    (∀ (w2 : WorldInterface) (player : Player) (position : Position) (loginMessage : List Nat),
      w.getCreature = w2.getCreature →
      w.sameBlock w2 (Protocol71.onPlayerSpawnRequest position) →
      Protocol71.onPlayerSpawn w s player position loginMessage
        = Protocol71.onPlayerSpawn w2 s player position loginMessage) := by
  refine ⟨fun z1 z2 => ⟨?_, ?_⟩, ?_, ?_, ?_, ?_⟩
  · simp only [Protocol71.onCreatureMoveRequests]
  · simp only [Protocol71.onCreatureMoveMapData]
  · intro r hr
    unfold Protocol71.onCreatureMoveRequests at hr
    have hz : ∀ a b : Int, (Position.ofInts a b 7).z = 7 := fun _ _ => rfl
    split_ifs at hr <;> simp at hr <;> rcases hr with rfl | rfl <;> exact hz _ _
  · intro w2 hc hb
    exact Protocol71.onCreatureMoveMapData_congr w w2 hc s creature oldPosition newPosition
      out hb
  · intro position hz
    refine ⟨?_, rfl, rfl⟩
    show ((position.z : Int) % 256).toNat = position.z
    omega
  · intro w2 player position loginMessage hc hb
    exact Protocol71.onPlayerSpawn_congr w w2 hc s player position loginMessage hb

/-- C37 for player 42 in the meadow: the step to the north-west from
(101, 101) to (100, 100) requests the row at (93, 94, 7) and the column at
(92, 94, 7), on the floor 7 as well as between the floors 3 and 12; the spawn
at (100, 100, 3) requests the block at (92, 94, 3). -/
theorem edge_strip_ignores_floor_witness :
    Protocol71.onCreatureMoveRequests loggedInSession heroCreature
        { x := 101, y := 101, z := 3 } { x := 100, y := 100, z := 12 }
      = [MapBlockRequest.mk { x := 93, y := 94, z := 7 } 18 1,
         MapBlockRequest.mk { x := 92, y := 94, z := 7 } 1 14] ∧
    Protocol71.onCreatureMoveRequests loggedInSession heroCreature
        { x := 101, y := 101, z := 3 } { x := 100, y := 100, z := 12 }
      = Protocol71.onCreatureMoveRequests loggedInSession heroCreature
        { x := 101, y := 101, z := 7 } { x := 100, y := 100, z := 7 } ∧
    Protocol71.onCreatureMoveMapData meadow loggedInSession heroCreature
        { x := 101, y := 101, z := 3 } { x := 100, y := 100, z := 12 } OutgoingPacket.empty
      = Protocol71.onCreatureMoveMapData meadow loggedInSession heroCreature
        { x := 101, y := 101, z := 7 } { x := 100, y := 100, z := 7 } OutgoingPacket.empty ∧
    Protocol71.onPlayerSpawnRequest { x := 100, y := 100, z := 3 }
      = MapBlockRequest.mk { x := 92, y := 94, z := 3 } 18 14 := by
  have h := (edge_strip_ignores_floor meadow loggedInSession heroCreature
    { x := 101, y := 101, z := 7 } { x := 100, y := 100, z := 7 } OutgoingPacket.empty).1 3 12
  exact ⟨by decide, h.1, h.2, by decide⟩

end GameServer
